import Mathlib

/-!
# Prediction-context derivation of `vp9/common/vp9_pred_common.c`

A shallow embedding of the context-derivation functions of the VP9
prediction-context module, followed by theorems about them.

* C pointers that may be `NULL` are `Option` values.
* C `int` results are `Int`; a C truth value used as a number goes through `b2i`.
* The two build variants selected by `CONFIG_MULTI_REF` live in the namespaces
  `MultiRef` (extended reference set) and `Baseline` (three references).
-/

namespace PredCommon

/-! ## Data model -/

/-- Modelled from the spec: the type `MV_REFERENCE_FRAME` and its constants, declared in
`vp9_blockd.h`, which is not part of the source at hand.  `NONE` is the sentinel of an unused
second slot, `INTRA_FRAME` marks an intra block, and the remaining six are the inter reference
frames of the extended set (the baseline set uses `LAST_FRAME`, `GOLDEN_FRAME`,
`ALTREF_FRAME` only). -/
inductive MV_REFERENCE_FRAME
  | NONE
  | INTRA_FRAME
  | LAST_FRAME
  | LAST2_FRAME
  | LAST3_FRAME
  | LAST4_FRAME
  | GOLDEN_FRAME
  | ALTREF_FRAME
  deriving DecidableEq, Repr

open MV_REFERENCE_FRAME

/-- Modelled from the spec: the fields of `MB_MODE_INFO` (declared in `vp9_blockd.h`) that the
context functions read.  `ref_frame` is the two-entry array `ref_frame[2]`. -/
structure MB_MODE_INFO where
  sb_type : Nat
  tx_size : Nat
  skip : Bool
  segment_id : Nat
  ref_frame : Fin 2 → MV_REFERENCE_FRAME
  interp_filter : Int
  copy_mode : Int

/-- Modelled from the spec: `MODE_INFO` wraps the per-block `mbmi` record. -/
structure MODE_INFO where
  mbmi : MB_MODE_INFO

/-- Modelled from the spec: the part of `MACROBLOCKD` read here: the current block `mi`
(`xd->mi[0].src_mi`) and the two neighbour handles, absent at a frame or tile edge. -/
structure MACROBLOCKD where
  mi : MODE_INFO
  above_mi : Option MODE_INFO
  left_mi : Option MODE_INFO

/-- Modelled from the spec: the reference-frame role configuration and frame geometry of
`VP9_COMMON` (declared in `vp9_onyxc_int.h`). -/
structure VP9_COMMON where
  mi_rows : Int
  mi_cols : Int
  comp_fixed_ref : MV_REFERENCE_FRAME
  comp_var_ref : Nat → MV_REFERENCE_FRAME
  ref_frame_sign_bias : MV_REFERENCE_FRAME → Int

/-- Modelled from the spec: neighbour access `get_above_mi` (declared in `vp9_onyxc_int.h`):
the entry above the current block, or absent. -/
def get_above_mi (xd : MACROBLOCKD) : Option MODE_INFO := xd.above_mi

/-- Modelled from the spec: neighbour access `get_left_mi` (declared in `vp9_onyxc_int.h`):
the entry left of the current block, or absent. -/
def get_left_mi (xd : MACROBLOCKD) : Option MODE_INFO := xd.left_mi

/-- Source `get_mbmi`: `(mi != NULL) ? &mi->mbmi : NULL`. -/
def get_mbmi (mi : Option MODE_INFO) : Option MB_MODE_INFO :=
  match mi with
  | some m => some m.mbmi
  | none => none

/-- Modelled from the spec: `is_inter_block` (declared in `vp9_blockd.h`): a block is inter
iff `ref_frame[0]` is not `INTRA_FRAME`. -/
def is_inter_block (mbmi : MB_MODE_INFO) : Bool := mbmi.ref_frame 0 != INTRA_FRAME

/-- Modelled from the spec: `has_second_ref` (declared in `vp9_blockd.h`): a block is compound
iff `ref_frame[1]` is not `NONE`. -/
def has_second_ref (mbmi : MB_MODE_INFO) : Bool := mbmi.ref_frame 1 != NONE

/-- The value of a C truth value used as an `int`. -/
def b2i (b : Bool) : Int := if b then 1 else 0

/-- The C operator `!` on an `int`, producing an index into `ref_frame[2]`. -/
def lnot (x : Int) : Fin 2 := if x = 0 then 1 else 0

/-- The constant `REF_CONTEXTS`. -/
def REF_CONTEXTS : Int := 5

/-- The constant `COMP_INTER_CONTEXTS`. -/
def COMP_INTER_CONTEXTS : Int := 5

/-! ## Symbols that do not depend on the reference-set variant -/

/-- Source `vp9_get_pred_context_switchable_interp`; the constant `SWITCHABLE_FILTERS`
(declared in `vp9_filter.h`) is a parameter. -/
def vp9_get_pred_context_switchable_interp (SWITCHABLE_FILTERS : Int) (xd : MACROBLOCKD) : Int :=
  let left_type : Int :=
    match get_mbmi (get_left_mi xd) with
    | some left_mbmi => if is_inter_block left_mbmi then left_mbmi.interp_filter
                        else SWITCHABLE_FILTERS
    | none => SWITCHABLE_FILTERS
  let above_type : Int :=
    match get_mbmi (get_above_mi xd) with
    | some above_mbmi => if is_inter_block above_mbmi then above_mbmi.interp_filter
                         else SWITCHABLE_FILTERS
    | none => SWITCHABLE_FILTERS
  if left_type = above_type then left_type
  else if left_type = SWITCHABLE_FILTERS ∧ above_type ≠ SWITCHABLE_FILTERS then above_type
  else if left_type ≠ SWITCHABLE_FILTERS ∧ above_type = SWITCHABLE_FILTERS then left_type
  else SWITCHABLE_FILTERS

/-- Source `vp9_get_intra_inter_context`. -/
def vp9_get_intra_inter_context (xd : MACROBLOCKD) : Int :=
  match get_mbmi (get_above_mi xd), get_mbmi (get_left_mi xd) with
  | some above_mbmi, some left_mbmi =>
    let above_intra := !is_inter_block above_mbmi
    let left_intra := !is_inter_block left_mbmi
    if left_intra && above_intra then 3 else b2i (left_intra || above_intra)
  | some above_mbmi, none => 2 * b2i (!is_inter_block above_mbmi)
  | none, some left_mbmi => 2 * b2i (!is_inter_block left_mbmi)
  | none, none => 0

/-- Source `vp9_get_reference_mode_context`. -/
def vp9_get_reference_mode_context (cm : VP9_COMMON) (xd : MACROBLOCKD) : Int :=
  match get_mbmi (get_above_mi xd), get_mbmi (get_left_mi xd) with
  | some above_mbmi, some left_mbmi =>
    if !has_second_ref above_mbmi && !has_second_ref left_mbmi then
      b2i (xor (above_mbmi.ref_frame 0 == cm.comp_fixed_ref)
               (left_mbmi.ref_frame 0 == cm.comp_fixed_ref))
    else if !has_second_ref above_mbmi then
      2 + b2i (above_mbmi.ref_frame 0 == cm.comp_fixed_ref || !is_inter_block above_mbmi)
    else if !has_second_ref left_mbmi then
      2 + b2i (left_mbmi.ref_frame 0 == cm.comp_fixed_ref || !is_inter_block left_mbmi)
    else 4
  | some edge_mbmi, none | none, some edge_mbmi =>
    if !has_second_ref edge_mbmi then b2i (edge_mbmi.ref_frame 0 == cm.comp_fixed_ref)
    else 3
  | none, none => 1

/-- Source `vp9_get_tx_size_context`; the table `max_txsize_lookup` (declared in
`vp9_common_data.h`) is a parameter. -/
def vp9_get_tx_size_context (max_txsize_lookup : Nat → Int) (xd : MACROBLOCKD) : Int :=
  let max_tx_size : Int := max_txsize_lookup xd.mi.mbmi.sb_type
  let above_mbmi := get_mbmi (get_above_mi xd)
  let left_mbmi := get_mbmi (get_left_mi xd)
  let has_above : Bool := above_mbmi.isSome
  let has_left : Bool := left_mbmi.isSome
  let above_ctx0 : Int :=
    match above_mbmi with
    | some m => if !m.skip then (m.tx_size : Int) else max_tx_size
    | none => max_tx_size
  let left_ctx0 : Int :=
    match left_mbmi with
    | some m => if !m.skip then (m.tx_size : Int) else max_tx_size
    | none => max_tx_size
  let left_ctx : Int := if !has_left then above_ctx0 else left_ctx0
  let above_ctx : Int := if !has_above then left_ctx else above_ctx0
  b2i (decide (above_ctx + left_ctx > max_tx_size))

/-- Source `vp9_get_copy_mode_context` (`CONFIG_COPY_MODE`); the constant `NOREF` (declared in
`vp9_blockd.h`) is a parameter. -/
def vp9_get_copy_mode_context (NOREF : Int) (xd : MACROBLOCKD) : Int :=
  match get_mbmi (get_above_mi xd), get_mbmi (get_left_mi xd) with
  | some above_mbmi, some left_mbmi =>
    let above_intra := !is_inter_block above_mbmi
    let left_intra := !is_inter_block left_mbmi
    if above_intra && left_intra then 4
    else if above_intra || left_intra then 3
    else
      let above_predict : Bool := above_mbmi.copy_mode != NOREF
      let left_predict : Bool := left_mbmi.copy_mode != NOREF
      if above_predict && left_predict then 0
      else if above_predict || left_predict then 1
      else 2
  | some ref_mbmi, none | none, some ref_mbmi =>
    let ref_intra := !is_inter_block ref_mbmi
    if ref_intra then 3
    else
      let ref_predict : Bool := ref_mbmi.copy_mode != NOREF
      if ref_predict then 0 else 1
  | none, none => 0

/-- The constant `INT_MAX` of `<limits.h>` for a 32-bit `int`. -/
def INT_MAX : Int := 2147483647

/-- Modelled from the spec: the macro `MIN` (declared in `vp9_common.h`, which is not part of
the source at hand), the smaller of its two arguments. -/
def MIN (x y : Int) : Int := if x < y then x else y

/-- Source `vp9_get_segment_id`.  The tables `num_8x8_blocks_wide_lookup` and
`num_8x8_blocks_high_lookup` (declared in `vp9_common_data.h`) are parameters, `segment_ids`
gives the `uint8_t` stored at an array index, and a loop `for (y = 0; y < ymis; y++)` is a fold
over `List.range ymis.toNat`, which is empty when `ymis ≤ 0`.  The `int` arithmetic is exact:
frame dimensions are far below `2 ^ 31`. -/
def vp9_get_segment_id (num_8x8_blocks_wide_lookup num_8x8_blocks_high_lookup : Nat → Int)
    (cm : VP9_COMMON) (segment_ids : Int → Fin 256) (bsize : Nat) (mi_row mi_col : Int) : Int :=
  let mi_offset : Int := mi_row * cm.mi_cols + mi_col
  let bw : Int := num_8x8_blocks_wide_lookup bsize
  let bh : Int := num_8x8_blocks_high_lookup bsize
  let xmis : Int := MIN (cm.mi_cols - mi_col) bw
  let ymis : Int := MIN (cm.mi_rows - mi_row) bh
  (List.range ymis.toNat).foldl (fun (segment_id : Int) (y : Nat) =>
    (List.range xmis.toNat).foldl (fun (segment_id : Int) (x : Nat) =>
      MIN segment_id ((segment_ids (mi_offset + (y : Int) * cm.mi_cols + (x : Int))).val : Int))
      segment_id) INT_MAX

/-! ## Extended reference set (`CONFIG_MULTI_REF`) -/

namespace MultiRef

/-- Source macro `CHECK_LAST_OR_LAST2`. -/
def CHECK_LAST_OR_LAST2 (ref_frame : MV_REFERENCE_FRAME) : Bool :=
  (ref_frame == LAST_FRAME) || (ref_frame == LAST2_FRAME)

/-- Source macro `CHECK_GOLDEN_LAST3_LAST4`. -/
def CHECK_GOLDEN_LAST3_LAST4 (ref_frame : MV_REFERENCE_FRAME) : Bool :=
  (ref_frame == GOLDEN_FRAME) || (ref_frame == LAST3_FRAME) || (ref_frame == LAST4_FRAME)

/-- Source macro `CHECK_LAST3_OR_LAST4`. -/
def CHECK_LAST3_OR_LAST4 (ref_frame : MV_REFERENCE_FRAME) : Bool :=
  (ref_frame == LAST3_FRAME) || (ref_frame == LAST4_FRAME)

/-- Source macro `CHECK_LAST_LAST2_GOLDEN`. -/
def CHECK_LAST_LAST2_GOLDEN (ref_frame : MV_REFERENCE_FRAME) : Bool :=
  (ref_frame == LAST_FRAME) || (ref_frame == LAST2_FRAME) || (ref_frame == GOLDEN_FRAME)

/-- Source macro `CHECK_LAST_LAST2_LAST3`. -/
def CHECK_LAST_LAST2_LAST3 (ref_frame : MV_REFERENCE_FRAME) : Bool :=
  (ref_frame == LAST_FRAME) || (ref_frame == LAST2_FRAME) || (ref_frame == LAST3_FRAME)

/-- Source macro `CHECK_GOLDEN_OR_ALTREF`. -/
def CHECK_GOLDEN_OR_ALTREF (ref_frame : MV_REFERENCE_FRAME) : Bool :=
  (ref_frame == GOLDEN_FRAME) || (ref_frame == ALTREF_FRAME)

/-- Source `vp9_get_pred_context_comp_ref_p` (extended variant). -/
def vp9_get_pred_context_comp_ref_p (cm : VP9_COMMON) (xd : MACROBLOCKD) : Int :=
  let fix_ref_idx : Int := cm.ref_frame_sign_bias cm.comp_fixed_ref
  let var_ref_idx : Fin 2 := lnot fix_ref_idx
  match get_mbmi (get_above_mi xd), get_mbmi (get_left_mi xd) with
  | some above_mbmi, some left_mbmi =>
    let above_intra := !is_inter_block above_mbmi
    let left_intra := !is_inter_block left_mbmi
    if above_intra && left_intra then 2
    else if above_intra || left_intra then
      let edge_mbmi := if above_intra then left_mbmi else above_mbmi
      if !has_second_ref edge_mbmi then
        1 + 2 * b2i (!CHECK_GOLDEN_LAST3_LAST4 (edge_mbmi.ref_frame 0))
      else
        1 + 2 * b2i (!CHECK_GOLDEN_LAST3_LAST4 (edge_mbmi.ref_frame var_ref_idx))
    else
      let l_sg := !has_second_ref left_mbmi
      let a_sg := !has_second_ref above_mbmi
      let vrfa := if a_sg then above_mbmi.ref_frame 0 else above_mbmi.ref_frame var_ref_idx
      let vrfl := if l_sg then left_mbmi.ref_frame 0 else left_mbmi.ref_frame var_ref_idx
      if vrfa == vrfl && CHECK_GOLDEN_LAST3_LAST4 vrfa then 0
      else if l_sg && a_sg then
        if (vrfa == ALTREF_FRAME && CHECK_LAST_OR_LAST2 vrfl) ||
           (vrfl == ALTREF_FRAME && CHECK_LAST_OR_LAST2 vrfa) then 4
        else if vrfa == vrfl || (CHECK_LAST_OR_LAST2 vrfa && CHECK_LAST_OR_LAST2 vrfl) then 3
        else 1
      else if l_sg || a_sg then
        let vrfc := if l_sg then vrfa else vrfl
        let rfs := if a_sg then vrfa else vrfl
        if CHECK_GOLDEN_LAST3_LAST4 vrfc && !CHECK_GOLDEN_LAST3_LAST4 rfs then 1
        else if CHECK_GOLDEN_LAST3_LAST4 rfs && !CHECK_GOLDEN_LAST3_LAST4 vrfc then 2
        else 4
      else
        if CHECK_LAST_OR_LAST2 vrfa && CHECK_LAST_OR_LAST2 vrfl then 4
        else 2
  | some edge_mbmi, none | none, some edge_mbmi =>
    if !is_inter_block edge_mbmi then 2
    else if has_second_ref edge_mbmi then
      4 * b2i (!CHECK_GOLDEN_LAST3_LAST4 (edge_mbmi.ref_frame var_ref_idx))
    else
      3 * b2i (!CHECK_GOLDEN_LAST3_LAST4 (edge_mbmi.ref_frame 0))
  | none, none => 2

/-- Source `vp9_get_pred_context_comp_ref_p` (extended variant) with its three `assert`s kept:
the two inner ones, in the last single/single branch and in the last comp/comp branch, and the
final range assertion.  The result is `none` when an assertion fails. -/
def vp9_get_pred_context_comp_ref_p_asserted (cm : VP9_COMMON) (xd : MACROBLOCKD) :
    Option Int :=
  let fix_ref_idx : Int := cm.ref_frame_sign_bias cm.comp_fixed_ref
  let var_ref_idx : Fin 2 := lnot fix_ref_idx
  let pred_context : Option Int :=
    match get_mbmi (get_above_mi xd), get_mbmi (get_left_mi xd) with
    | some above_mbmi, some left_mbmi =>
      let above_intra := !is_inter_block above_mbmi
      let left_intra := !is_inter_block left_mbmi
      if above_intra && left_intra then some 2
      else if above_intra || left_intra then
        let edge_mbmi := if above_intra then left_mbmi else above_mbmi
        if !has_second_ref edge_mbmi then
          some (1 + 2 * b2i (!CHECK_GOLDEN_LAST3_LAST4 (edge_mbmi.ref_frame 0)))
        else
          some (1 + 2 * b2i (!CHECK_GOLDEN_LAST3_LAST4 (edge_mbmi.ref_frame var_ref_idx)))
      else
        let l_sg := !has_second_ref left_mbmi
        let a_sg := !has_second_ref above_mbmi
        let vrfa := if a_sg then above_mbmi.ref_frame 0 else above_mbmi.ref_frame var_ref_idx
        let vrfl := if l_sg then left_mbmi.ref_frame 0 else left_mbmi.ref_frame var_ref_idx
        if vrfa == vrfl && CHECK_GOLDEN_LAST3_LAST4 vrfa then some 0
        else if l_sg && a_sg then
          if (vrfa == ALTREF_FRAME && CHECK_LAST_OR_LAST2 vrfl) ||
             (vrfl == ALTREF_FRAME && CHECK_LAST_OR_LAST2 vrfa) then some 4
          else if vrfa == vrfl || (CHECK_LAST_OR_LAST2 vrfa && CHECK_LAST_OR_LAST2 vrfl) then
            some 3
          else if CHECK_GOLDEN_LAST3_LAST4 vrfa || CHECK_GOLDEN_LAST3_LAST4 vrfl then some 1
          else none
        else if l_sg || a_sg then
          let vrfc := if l_sg then vrfa else vrfl
          let rfs := if a_sg then vrfa else vrfl
          if CHECK_GOLDEN_LAST3_LAST4 vrfc && !CHECK_GOLDEN_LAST3_LAST4 rfs then some 1
          else if CHECK_GOLDEN_LAST3_LAST4 rfs && !CHECK_GOLDEN_LAST3_LAST4 vrfc then some 2
          else some 4
        else
          if CHECK_LAST_OR_LAST2 vrfa && CHECK_LAST_OR_LAST2 vrfl then some 4
          else if CHECK_GOLDEN_LAST3_LAST4 vrfa || CHECK_GOLDEN_LAST3_LAST4 vrfl then some 2
          else none
    | some edge_mbmi, none | none, some edge_mbmi =>
      if !is_inter_block edge_mbmi then some 2
      else if has_second_ref edge_mbmi then
        some (4 * b2i (!CHECK_GOLDEN_LAST3_LAST4 (edge_mbmi.ref_frame var_ref_idx)))
      else
        some (3 * b2i (!CHECK_GOLDEN_LAST3_LAST4 (edge_mbmi.ref_frame 0)))
    | none, none => some 2
  match pred_context with
  | some c => if 0 ≤ c ∧ c < REF_CONTEXTS then some c else none
  | none => none

/-- Source `vp9_get_pred_context_comp_ref_p1`. -/
def vp9_get_pred_context_comp_ref_p1 (cm : VP9_COMMON) (xd : MACROBLOCKD) : Int :=
  let fix_ref_idx : Int := cm.ref_frame_sign_bias cm.comp_fixed_ref
  let var_ref_idx : Fin 2 := lnot fix_ref_idx
  match get_mbmi (get_above_mi xd), get_mbmi (get_left_mi xd) with
  | some above_mbmi, some left_mbmi =>
    let above_intra := !is_inter_block above_mbmi
    let left_intra := !is_inter_block left_mbmi
    if above_intra && left_intra then 2
    else if above_intra || left_intra then
      let edge_mbmi := if above_intra then left_mbmi else above_mbmi
      if !has_second_ref edge_mbmi then
        1 + 2 * b2i (edge_mbmi.ref_frame 0 != LAST_FRAME)
      else
        1 + 2 * b2i (edge_mbmi.ref_frame var_ref_idx != LAST_FRAME)
    else
      let l_sg := !has_second_ref left_mbmi
      let a_sg := !has_second_ref above_mbmi
      let vrfa := if a_sg then above_mbmi.ref_frame 0 else above_mbmi.ref_frame var_ref_idx
      let vrfl := if l_sg then left_mbmi.ref_frame 0 else left_mbmi.ref_frame var_ref_idx
      if vrfa == vrfl && vrfa == LAST_FRAME then 0
      else if l_sg && a_sg then
        if vrfa == LAST_FRAME || vrfl == LAST_FRAME then 1
        else if CHECK_GOLDEN_LAST3_LAST4 vrfa || CHECK_GOLDEN_LAST3_LAST4 vrfl then
          2 + b2i (vrfa != vrfl)
        else if vrfa == vrfl then 3
        else 4
      else if l_sg || a_sg then
        let vrfc := if l_sg then vrfa else vrfl
        let rfs := if a_sg then vrfa else vrfl
        if vrfc == LAST_FRAME && rfs != LAST_FRAME then 1
        else if rfs == LAST_FRAME && vrfc != LAST_FRAME then 2
        else 3 + b2i (vrfc == LAST2_FRAME || CHECK_GOLDEN_LAST3_LAST4 rfs)
      else
        if vrfa == LAST_FRAME || vrfl == LAST_FRAME then 2
        else 3 + b2i (CHECK_GOLDEN_LAST3_LAST4 vrfa || CHECK_GOLDEN_LAST3_LAST4 vrfl)
  | some edge_mbmi, none | none, some edge_mbmi =>
    if !is_inter_block edge_mbmi then 2
    else if has_second_ref edge_mbmi then
      4 * b2i (edge_mbmi.ref_frame var_ref_idx != LAST_FRAME)
    else
      if edge_mbmi.ref_frame 0 == LAST_FRAME then 0
      else 2 + b2i (CHECK_GOLDEN_LAST3_LAST4 (edge_mbmi.ref_frame 0))
  | none, none => 2

/-- Source `vp9_get_pred_context_comp_ref_p2`. -/
def vp9_get_pred_context_comp_ref_p2 (cm : VP9_COMMON) (xd : MACROBLOCKD) : Int :=
  let fix_ref_idx : Int := cm.ref_frame_sign_bias cm.comp_fixed_ref
  let var_ref_idx : Fin 2 := lnot fix_ref_idx
  match get_mbmi (get_above_mi xd), get_mbmi (get_left_mi xd) with
  | some above_mbmi, some left_mbmi =>
    let above_intra := !is_inter_block above_mbmi
    let left_intra := !is_inter_block left_mbmi
    if above_intra && left_intra then 2
    else if above_intra || left_intra then
      let edge_mbmi := if above_intra then left_mbmi else above_mbmi
      if !has_second_ref edge_mbmi then
        1 + 2 * b2i (edge_mbmi.ref_frame 0 != GOLDEN_FRAME)
      else
        1 + 2 * b2i (edge_mbmi.ref_frame var_ref_idx != GOLDEN_FRAME)
    else
      let l_sg := !has_second_ref left_mbmi
      let a_sg := !has_second_ref above_mbmi
      let vrfa := if a_sg then above_mbmi.ref_frame 0 else above_mbmi.ref_frame var_ref_idx
      let vrfl := if l_sg then left_mbmi.ref_frame 0 else left_mbmi.ref_frame var_ref_idx
      if vrfa == vrfl && vrfa == GOLDEN_FRAME then 0
      else if l_sg && a_sg then
        if vrfa == GOLDEN_FRAME || vrfl == GOLDEN_FRAME then 1
        else if CHECK_LAST_OR_LAST2 vrfa || CHECK_LAST_OR_LAST2 vrfl then
          2 + b2i (vrfa != vrfl)
        else if vrfa == vrfl then 3
        else 4
      else if l_sg || a_sg then
        let vrfc := if l_sg then vrfa else vrfl
        let rfs := if a_sg then vrfa else vrfl
        if vrfc == GOLDEN_FRAME && rfs != GOLDEN_FRAME then 1
        else if rfs == GOLDEN_FRAME && vrfc != GOLDEN_FRAME then 2
        else 3 + b2i (CHECK_LAST3_OR_LAST4 vrfc || CHECK_LAST_OR_LAST2 rfs)
      else
        if vrfa == GOLDEN_FRAME || vrfl == GOLDEN_FRAME then 2
        else 3 + b2i (CHECK_LAST_OR_LAST2 vrfa || CHECK_LAST_OR_LAST2 vrfl)
  | some edge_mbmi, none | none, some edge_mbmi =>
    if !is_inter_block edge_mbmi then 2
    else if has_second_ref edge_mbmi then
      4 * b2i (edge_mbmi.ref_frame var_ref_idx != GOLDEN_FRAME)
    else
      if edge_mbmi.ref_frame 0 == GOLDEN_FRAME then 0
      else 2 + b2i (CHECK_LAST_OR_LAST2 (edge_mbmi.ref_frame 0))
  | none, none => 2

/-- Source `vp9_get_pred_context_comp_ref_p3`. -/
def vp9_get_pred_context_comp_ref_p3 (cm : VP9_COMMON) (xd : MACROBLOCKD) : Int :=
  let fix_ref_idx : Int := cm.ref_frame_sign_bias cm.comp_fixed_ref
  let var_ref_idx : Fin 2 := lnot fix_ref_idx
  match get_mbmi (get_above_mi xd), get_mbmi (get_left_mi xd) with
  | some above_mbmi, some left_mbmi =>
    let above_intra := !is_inter_block above_mbmi
    let left_intra := !is_inter_block left_mbmi
    if above_intra && left_intra then 2
    else if above_intra || left_intra then
      let edge_mbmi := if above_intra then left_mbmi else above_mbmi
      if !has_second_ref edge_mbmi then
        1 + 2 * b2i (edge_mbmi.ref_frame 0 != LAST3_FRAME)
      else
        1 + 2 * b2i (edge_mbmi.ref_frame var_ref_idx != LAST3_FRAME)
    else
      let l_sg := !has_second_ref left_mbmi
      let a_sg := !has_second_ref above_mbmi
      let vrfa := if a_sg then above_mbmi.ref_frame 0 else above_mbmi.ref_frame var_ref_idx
      let vrfl := if l_sg then left_mbmi.ref_frame 0 else left_mbmi.ref_frame var_ref_idx
      if vrfa == vrfl && vrfa == LAST3_FRAME then 0
      else if l_sg && a_sg then
        if vrfa == LAST3_FRAME || vrfl == LAST3_FRAME then 1
        else if CHECK_LAST_LAST2_GOLDEN vrfa || CHECK_LAST_LAST2_GOLDEN vrfl then
          2 + b2i (vrfa != vrfl)
        else if vrfa == vrfl then 3
        else 4
      else if l_sg || a_sg then
        let vrfc := if l_sg then vrfa else vrfl
        let rfs := if a_sg then vrfa else vrfl
        if vrfc == LAST3_FRAME && rfs != LAST3_FRAME then 1
        else if rfs == LAST3_FRAME && vrfc != LAST3_FRAME then 2
        else 3 + b2i (vrfc == LAST4_FRAME || CHECK_LAST_LAST2_GOLDEN rfs)
      else
        if vrfa == LAST3_FRAME || vrfl == LAST3_FRAME then 2
        else 3 + b2i (CHECK_LAST_LAST2_GOLDEN vrfa || CHECK_LAST_LAST2_GOLDEN vrfl)
  | some edge_mbmi, none | none, some edge_mbmi =>
    if !is_inter_block edge_mbmi then 2
    else if has_second_ref edge_mbmi then
      4 * b2i (edge_mbmi.ref_frame var_ref_idx != LAST3_FRAME)
    else
      if edge_mbmi.ref_frame 0 == LAST3_FRAME then 0
      else 2 + b2i (CHECK_LAST_LAST2_GOLDEN (edge_mbmi.ref_frame 0))
  | none, none => 2

/-- Source `vp9_get_pred_context_single_ref_p1` (extended variant). -/
def vp9_get_pred_context_single_ref_p1 (xd : MACROBLOCKD) : Int :=
  match get_mbmi (get_above_mi xd), get_mbmi (get_left_mi xd) with
  | some above_mbmi, some left_mbmi =>
    let above_intra := !is_inter_block above_mbmi
    let left_intra := !is_inter_block left_mbmi
    if above_intra && left_intra then 2
    else if above_intra || left_intra then
      let edge_mbmi := if above_intra then left_mbmi else above_mbmi
      if !has_second_ref edge_mbmi then
        4 * b2i (!CHECK_GOLDEN_OR_ALTREF (edge_mbmi.ref_frame 0))
      else
        1 + b2i (!CHECK_GOLDEN_OR_ALTREF (edge_mbmi.ref_frame 0) ||
                 !CHECK_GOLDEN_OR_ALTREF (edge_mbmi.ref_frame 1))
    else
      let above_has_second := has_second_ref above_mbmi
      let left_has_second := has_second_ref left_mbmi
      let above0 := above_mbmi.ref_frame 0
      let above1 := above_mbmi.ref_frame 1
      let left0 := left_mbmi.ref_frame 0
      let left1 := left_mbmi.ref_frame 1
      if above_has_second && left_has_second then
        1 + b2i (!CHECK_GOLDEN_OR_ALTREF above0 || !CHECK_GOLDEN_OR_ALTREF above1 ||
                 !CHECK_GOLDEN_OR_ALTREF left0 || !CHECK_GOLDEN_OR_ALTREF left1)
      else if above_has_second || left_has_second then
        let rfs := if !above_has_second then above0 else left0
        let crf1 := if above_has_second then above0 else left0
        let crf2 := if above_has_second then above1 else left1
        if !CHECK_GOLDEN_OR_ALTREF rfs then
          3 + b2i (!CHECK_GOLDEN_OR_ALTREF crf1 || !CHECK_GOLDEN_OR_ALTREF crf2)
        else
          b2i (!CHECK_GOLDEN_OR_ALTREF crf1 || !CHECK_GOLDEN_OR_ALTREF crf2)
      else
        2 * b2i (!CHECK_GOLDEN_OR_ALTREF above0) + 2 * b2i (!CHECK_GOLDEN_OR_ALTREF left0)
  | some edge_mbmi, none | none, some edge_mbmi =>
    if !is_inter_block edge_mbmi then 2
    else if !has_second_ref edge_mbmi then
      4 * b2i (!CHECK_GOLDEN_OR_ALTREF (edge_mbmi.ref_frame 0))
    else
      1 + b2i (!CHECK_GOLDEN_OR_ALTREF (edge_mbmi.ref_frame 0) ||
               !CHECK_GOLDEN_OR_ALTREF (edge_mbmi.ref_frame 1))
  | none, none => 2

/-- Source `vp9_get_pred_context_single_ref_p2` (extended variant). -/
def vp9_get_pred_context_single_ref_p2 (xd : MACROBLOCKD) : Int :=
  match get_mbmi (get_above_mi xd), get_mbmi (get_left_mi xd) with
  | some above_mbmi, some left_mbmi =>
    let above_intra := !is_inter_block above_mbmi
    let left_intra := !is_inter_block left_mbmi
    if above_intra && left_intra then 2
    else if above_intra || left_intra then
      let edge_mbmi := if above_intra then left_mbmi else above_mbmi
      if !has_second_ref edge_mbmi then
        if !CHECK_GOLDEN_OR_ALTREF (edge_mbmi.ref_frame 0) then 3
        else 4 * b2i (edge_mbmi.ref_frame 0 == GOLDEN_FRAME)
      else
        1 + 2 * b2i (edge_mbmi.ref_frame 0 == GOLDEN_FRAME || edge_mbmi.ref_frame 1 == GOLDEN_FRAME)
    else
      let above_has_second := has_second_ref above_mbmi
      let left_has_second := has_second_ref left_mbmi
      let above0 := above_mbmi.ref_frame 0
      let above1 := above_mbmi.ref_frame 1
      let left0 := left_mbmi.ref_frame 0
      let left1 := left_mbmi.ref_frame 1
      if above_has_second && left_has_second then
        if above0 == left0 && above1 == left1 then
          3 * b2i (above0 == GOLDEN_FRAME || above1 == GOLDEN_FRAME || left0 == GOLDEN_FRAME ||
              left1 == GOLDEN_FRAME)
        else 2
      else if above_has_second || left_has_second then
        let rfs := if !above_has_second then above0 else left0
        let crf1 := if above_has_second then above0 else left0
        let crf2 := if above_has_second then above1 else left1
        if rfs == GOLDEN_FRAME then 3 + b2i (crf1 == GOLDEN_FRAME || crf2 == GOLDEN_FRAME)
        else if rfs == ALTREF_FRAME then b2i (crf1 == GOLDEN_FRAME || crf2 == GOLDEN_FRAME)
        else 1 + 2 * b2i (crf1 == GOLDEN_FRAME || crf2 == GOLDEN_FRAME)
      else
        if !CHECK_GOLDEN_OR_ALTREF above0 && !CHECK_GOLDEN_OR_ALTREF left0 then
            2 + b2i (above0 == left0)
        else if !CHECK_GOLDEN_OR_ALTREF above0 || !CHECK_GOLDEN_OR_ALTREF left0 then
          let edge0 := if !CHECK_GOLDEN_OR_ALTREF above0 then left0 else above0
          4 * b2i (edge0 == GOLDEN_FRAME)
        else 2 * b2i (above0 == GOLDEN_FRAME) + 2 * b2i (left0 == GOLDEN_FRAME)
  | some edge_mbmi, none | none, some edge_mbmi =>
    if !is_inter_block edge_mbmi || (!CHECK_GOLDEN_OR_ALTREF (edge_mbmi.ref_frame 0) &&
        !has_second_ref edge_mbmi) then 2
    else if !has_second_ref edge_mbmi then 4 * b2i (edge_mbmi.ref_frame 0 == GOLDEN_FRAME)
    else 3 * b2i (edge_mbmi.ref_frame 0 == GOLDEN_FRAME || edge_mbmi.ref_frame 1 == GOLDEN_FRAME)
  | none, none => 2

/-- Source `vp9_get_pred_context_single_ref_p3`. -/
def vp9_get_pred_context_single_ref_p3 (xd : MACROBLOCKD) : Int :=
  match get_mbmi (get_above_mi xd), get_mbmi (get_left_mi xd) with
  | some above_mbmi, some left_mbmi =>
    let above_intra := !is_inter_block above_mbmi
    let left_intra := !is_inter_block left_mbmi
    if above_intra && left_intra then 2
    else if above_intra || left_intra then
      let edge_mbmi := if above_intra then left_mbmi else above_mbmi
      if !has_second_ref edge_mbmi then
        if CHECK_GOLDEN_OR_ALTREF (edge_mbmi.ref_frame 0) then 3
        else 4 * b2i (CHECK_LAST_OR_LAST2 (edge_mbmi.ref_frame 0))
      else
        1 + 2 * b2i (CHECK_LAST_OR_LAST2 (edge_mbmi.ref_frame 0) ||
            CHECK_LAST_OR_LAST2 (edge_mbmi.ref_frame 1))
    else
      let above_has_second := has_second_ref above_mbmi
      let left_has_second := has_second_ref left_mbmi
      let above0 := above_mbmi.ref_frame 0
      let above1 := above_mbmi.ref_frame 1
      let left0 := left_mbmi.ref_frame 0
      let left1 := left_mbmi.ref_frame 1
      if above_has_second && left_has_second then
        if above0 == left0 && above1 == left1 then
          3 * b2i (CHECK_LAST_OR_LAST2 above0 || CHECK_LAST_OR_LAST2 above1 ||
              CHECK_LAST_OR_LAST2 left0 || CHECK_LAST_OR_LAST2 left1)
        else 2
      else if above_has_second || left_has_second then
        let rfs := if !above_has_second then above0 else left0
        let crf1 := if above_has_second then above0 else left0
        let crf2 := if above_has_second then above1 else left1
        if CHECK_LAST_OR_LAST2 rfs then 3 + b2i (CHECK_LAST_OR_LAST2 crf1 ||
            CHECK_LAST_OR_LAST2 crf2)
        else if rfs == LAST3_FRAME || rfs == LAST4_FRAME then b2i (CHECK_LAST_OR_LAST2 crf1 ||
            CHECK_LAST_OR_LAST2 crf2)
        else 1 + 2 * b2i (CHECK_LAST_OR_LAST2 crf1 || CHECK_LAST_OR_LAST2 crf2)
      else
        if CHECK_GOLDEN_OR_ALTREF above0 && CHECK_GOLDEN_OR_ALTREF left0 then
            2 + b2i (above0 == left0)
        else if CHECK_GOLDEN_OR_ALTREF above0 || CHECK_GOLDEN_OR_ALTREF left0 then
          let edge0 := if CHECK_GOLDEN_OR_ALTREF above0 then left0 else above0
          4 * b2i (CHECK_LAST_OR_LAST2 edge0)
        else 2 * b2i (CHECK_LAST_OR_LAST2 above0) + 2 * b2i (CHECK_LAST_OR_LAST2 left0)
  | some edge_mbmi, none | none, some edge_mbmi =>
    if !is_inter_block edge_mbmi || (CHECK_GOLDEN_OR_ALTREF (edge_mbmi.ref_frame 0) &&
        !has_second_ref edge_mbmi) then 2
    else if !has_second_ref edge_mbmi then 4 * b2i (CHECK_LAST_OR_LAST2 (edge_mbmi.ref_frame 0))
    else 3 * b2i (CHECK_LAST_OR_LAST2 (edge_mbmi.ref_frame 0) ||
        CHECK_LAST_OR_LAST2 (edge_mbmi.ref_frame 1))
  | none, none => 2

/-- Source `vp9_get_pred_context_single_ref_p4`. -/
def vp9_get_pred_context_single_ref_p4 (xd : MACROBLOCKD) : Int :=
  match get_mbmi (get_above_mi xd), get_mbmi (get_left_mi xd) with
  | some above_mbmi, some left_mbmi =>
    let above_intra := !is_inter_block above_mbmi
    let left_intra := !is_inter_block left_mbmi
    if above_intra && left_intra then 2
    else if above_intra || left_intra then
      let edge_mbmi := if above_intra then left_mbmi else above_mbmi
      if !has_second_ref edge_mbmi then
        if !CHECK_LAST_OR_LAST2 (edge_mbmi.ref_frame 0) then 3
        else 4 * b2i (edge_mbmi.ref_frame 0 == LAST_FRAME)
      else
        1 + 2 * b2i (edge_mbmi.ref_frame 0 == LAST_FRAME || edge_mbmi.ref_frame 1 == LAST_FRAME)
    else
      let above_has_second := has_second_ref above_mbmi
      let left_has_second := has_second_ref left_mbmi
      let above0 := above_mbmi.ref_frame 0
      let above1 := above_mbmi.ref_frame 1
      let left0 := left_mbmi.ref_frame 0
      let left1 := left_mbmi.ref_frame 1
      if above_has_second && left_has_second then
        if above0 == left0 && above1 == left1 then
          3 * b2i (above0 == LAST_FRAME || above1 == LAST_FRAME || left0 == LAST_FRAME ||
              left1 == LAST_FRAME)
        else 2
      else if above_has_second || left_has_second then
        let rfs := if !above_has_second then above0 else left0
        let crf1 := if above_has_second then above0 else left0
        let crf2 := if above_has_second then above1 else left1
        if rfs == LAST_FRAME then 3 + b2i (crf1 == LAST_FRAME || crf2 == LAST_FRAME)
        else if rfs == LAST2_FRAME then b2i (crf1 == LAST_FRAME || crf2 == LAST_FRAME)
        else 1 + 2 * b2i (crf1 == LAST_FRAME || crf2 == LAST_FRAME)
      else
        if !CHECK_LAST_OR_LAST2 above0 && !CHECK_LAST_OR_LAST2 left0 then 2 + b2i (above0 == left0)
        else if !CHECK_LAST_OR_LAST2 above0 || !CHECK_LAST_OR_LAST2 left0 then
          let edge0 := if !CHECK_LAST_OR_LAST2 above0 then left0 else above0
          4 * b2i (edge0 == LAST_FRAME)
        else 2 * b2i (above0 == LAST_FRAME) + 2 * b2i (left0 == LAST_FRAME)
  | some edge_mbmi, none | none, some edge_mbmi =>
    if !is_inter_block edge_mbmi || (!CHECK_LAST_OR_LAST2 (edge_mbmi.ref_frame 0) &&
        !has_second_ref edge_mbmi) then 2
    else if !has_second_ref edge_mbmi then 4 * b2i (edge_mbmi.ref_frame 0 == LAST_FRAME)
    else 3 * b2i (edge_mbmi.ref_frame 0 == LAST_FRAME || edge_mbmi.ref_frame 1 == LAST_FRAME)
  | none, none => 2

/-- Source `vp9_get_pred_context_single_ref_p5`. -/
def vp9_get_pred_context_single_ref_p5 (xd : MACROBLOCKD) : Int :=
  match get_mbmi (get_above_mi xd), get_mbmi (get_left_mi xd) with
  | some above_mbmi, some left_mbmi =>
    let above_intra := !is_inter_block above_mbmi
    let left_intra := !is_inter_block left_mbmi
    if above_intra && left_intra then 2
    else if above_intra || left_intra then
      let edge_mbmi := if above_intra then left_mbmi else above_mbmi
      if !has_second_ref edge_mbmi then
        if !CHECK_LAST3_OR_LAST4 (edge_mbmi.ref_frame 0) then 3
        else 4 * b2i (edge_mbmi.ref_frame 0 == LAST3_FRAME)
      else
        1 + 2 * b2i (edge_mbmi.ref_frame 0 == LAST3_FRAME || edge_mbmi.ref_frame 1 == LAST3_FRAME)
    else
      let above_has_second := has_second_ref above_mbmi
      let left_has_second := has_second_ref left_mbmi
      let above0 := above_mbmi.ref_frame 0
      let above1 := above_mbmi.ref_frame 1
      let left0 := left_mbmi.ref_frame 0
      let left1 := left_mbmi.ref_frame 1
      if above_has_second && left_has_second then
        if above0 == left0 && above1 == left1 then
          3 * b2i (above0 == LAST3_FRAME || above1 == LAST3_FRAME || left0 == LAST3_FRAME ||
              left1 == LAST3_FRAME)
        else 2
      else if above_has_second || left_has_second then
        let rfs := if !above_has_second then above0 else left0
        let crf1 := if above_has_second then above0 else left0
        let crf2 := if above_has_second then above1 else left1
        if rfs == LAST3_FRAME then 3 + b2i (crf1 == LAST3_FRAME || crf2 == LAST3_FRAME)
        else if rfs == LAST4_FRAME then b2i (crf1 == LAST3_FRAME || crf2 == LAST3_FRAME)
        else 1 + 2 * b2i (crf1 == LAST3_FRAME || crf2 == LAST3_FRAME)
      else
        if !CHECK_LAST3_OR_LAST4 above0 && !CHECK_LAST3_OR_LAST4 left0 then
            2 + b2i (above0 == left0)
        else if !CHECK_LAST3_OR_LAST4 above0 || !CHECK_LAST3_OR_LAST4 left0 then
          let edge0 := if !CHECK_LAST3_OR_LAST4 above0 then left0 else above0
          4 * b2i (edge0 == LAST3_FRAME)
        else 2 * b2i (above0 == LAST3_FRAME) + 2 * b2i (left0 == LAST3_FRAME)
  | some edge_mbmi, none | none, some edge_mbmi =>
    if !is_inter_block edge_mbmi || (!CHECK_LAST3_OR_LAST4 (edge_mbmi.ref_frame 0) &&
        !has_second_ref edge_mbmi) then 2
    else if !has_second_ref edge_mbmi then 4 * b2i (edge_mbmi.ref_frame 0 == LAST3_FRAME)
    else 3 * b2i (edge_mbmi.ref_frame 0 == LAST3_FRAME || edge_mbmi.ref_frame 1 == LAST3_FRAME)
  | none, none => 2

end MultiRef

/-! ## Baseline reference set -/

namespace Baseline

/-- Source `vp9_get_pred_context_comp_ref_p` (baseline variant). -/
def vp9_get_pred_context_comp_ref_p (cm : VP9_COMMON) (xd : MACROBLOCKD) : Int :=
  let fix_ref_idx : Int := cm.ref_frame_sign_bias cm.comp_fixed_ref
  let var_ref_idx : Fin 2 := lnot fix_ref_idx
  match get_mbmi (get_above_mi xd), get_mbmi (get_left_mi xd) with
  | some above_mbmi, some left_mbmi =>
    let above_intra := !is_inter_block above_mbmi
    let left_intra := !is_inter_block left_mbmi
    if above_intra && left_intra then 2
    else if above_intra || left_intra then
      let edge_mbmi := if above_intra then left_mbmi else above_mbmi
      if !has_second_ref edge_mbmi then
        1 + 2 * b2i (edge_mbmi.ref_frame 0 != cm.comp_var_ref 1)
      else
        1 + 2 * b2i (edge_mbmi.ref_frame var_ref_idx != cm.comp_var_ref 1)
    else
      let l_sg := !has_second_ref left_mbmi
      let a_sg := !has_second_ref above_mbmi
      let vrfa := if a_sg then above_mbmi.ref_frame 0 else above_mbmi.ref_frame var_ref_idx
      let vrfl := if l_sg then left_mbmi.ref_frame 0 else left_mbmi.ref_frame var_ref_idx
      if vrfa == vrfl && cm.comp_var_ref 1 == vrfa then 0
      else if l_sg && a_sg then
        if (vrfa == cm.comp_fixed_ref && vrfl == cm.comp_var_ref 0) ||
           (vrfl == cm.comp_fixed_ref && vrfa == cm.comp_var_ref 0) then 4
        else if vrfa == vrfl then 3
        else 1
      else if l_sg || a_sg then
        let vrfc := if l_sg then vrfa else vrfl
        let rfs := if a_sg then vrfa else vrfl
        if vrfc == cm.comp_var_ref 1 && rfs != cm.comp_var_ref 1 then 1
        else if rfs == cm.comp_var_ref 1 && vrfc != cm.comp_var_ref 1 then 2
        else 4
      else if vrfa == vrfl then 4
      else 2
  | some edge_mbmi, none | none, some edge_mbmi =>
    if !is_inter_block edge_mbmi then 2
    else if has_second_ref edge_mbmi then
      4 * b2i (edge_mbmi.ref_frame var_ref_idx != cm.comp_var_ref 1)
    else
      3 * b2i (edge_mbmi.ref_frame 0 != cm.comp_var_ref 1)
  | none, none => 2

/-- Source `vp9_get_pred_context_single_ref_p1` (baseline variant). -/
def vp9_get_pred_context_single_ref_p1 (xd : MACROBLOCKD) : Int :=
  match get_mbmi (get_above_mi xd), get_mbmi (get_left_mi xd) with
  | some above_mbmi, some left_mbmi =>
    let above_intra := !is_inter_block above_mbmi
    let left_intra := !is_inter_block left_mbmi
    if above_intra && left_intra then 2
    else if above_intra || left_intra then
      let edge_mbmi := if above_intra then left_mbmi else above_mbmi
      if !has_second_ref edge_mbmi then
        4 * b2i (edge_mbmi.ref_frame 0 == LAST_FRAME)
      else
        1 + b2i (edge_mbmi.ref_frame 0 == LAST_FRAME || edge_mbmi.ref_frame 1 == LAST_FRAME)
    else
      let above_has_second := has_second_ref above_mbmi
      let left_has_second := has_second_ref left_mbmi
      let above0 := above_mbmi.ref_frame 0
      let above1 := above_mbmi.ref_frame 1
      let left0 := left_mbmi.ref_frame 0
      let left1 := left_mbmi.ref_frame 1
      if above_has_second && left_has_second then
        1 + b2i (above0 == LAST_FRAME || above1 == LAST_FRAME ||
                 left0 == LAST_FRAME || left1 == LAST_FRAME)
      else if above_has_second || left_has_second then
        let rfs := if !above_has_second then above0 else left0
        let crf1 := if above_has_second then above0 else left0
        let crf2 := if above_has_second then above1 else left1
        if rfs == LAST_FRAME then 3 + b2i (crf1 == LAST_FRAME || crf2 == LAST_FRAME)
        else b2i (crf1 == LAST_FRAME || crf2 == LAST_FRAME)
      else
        2 * b2i (above0 == LAST_FRAME) + 2 * b2i (left0 == LAST_FRAME)
  | some edge_mbmi, none | none, some edge_mbmi =>
    if !is_inter_block edge_mbmi then 2
    else if !has_second_ref edge_mbmi then 4 * b2i (edge_mbmi.ref_frame 0 == LAST_FRAME)
    else 1 + b2i (edge_mbmi.ref_frame 0 == LAST_FRAME || edge_mbmi.ref_frame 1 == LAST_FRAME)
  | none, none => 2

/-- Source `vp9_get_pred_context_single_ref_p2` (baseline variant). -/
def vp9_get_pred_context_single_ref_p2 (xd : MACROBLOCKD) : Int :=
  match get_mbmi (get_above_mi xd), get_mbmi (get_left_mi xd) with
  | some above_mbmi, some left_mbmi =>
    let above_intra := !is_inter_block above_mbmi
    let left_intra := !is_inter_block left_mbmi
    if above_intra && left_intra then 2
    else if above_intra || left_intra then
      let edge_mbmi := if above_intra then left_mbmi else above_mbmi
      if !has_second_ref edge_mbmi then
        if edge_mbmi.ref_frame 0 == LAST_FRAME then 3
        else 4 * b2i (edge_mbmi.ref_frame 0 == GOLDEN_FRAME)
      else
        1 + 2 * b2i (edge_mbmi.ref_frame 0 == GOLDEN_FRAME || edge_mbmi.ref_frame 1 == GOLDEN_FRAME)
    else
      let above_has_second := has_second_ref above_mbmi
      let left_has_second := has_second_ref left_mbmi
      let above0 := above_mbmi.ref_frame 0
      let above1 := above_mbmi.ref_frame 1
      let left0 := left_mbmi.ref_frame 0
      let left1 := left_mbmi.ref_frame 1
      if above_has_second && left_has_second then
        if above0 == left0 && above1 == left1 then
          3 * b2i (above0 == GOLDEN_FRAME || above1 == GOLDEN_FRAME || left0 == GOLDEN_FRAME ||
              left1 == GOLDEN_FRAME)
        else 2
      else if above_has_second || left_has_second then
        let rfs := if !above_has_second then above0 else left0
        let crf1 := if above_has_second then above0 else left0
        let crf2 := if above_has_second then above1 else left1
        if rfs == GOLDEN_FRAME then 3 + b2i (crf1 == GOLDEN_FRAME || crf2 == GOLDEN_FRAME)
        else if rfs == ALTREF_FRAME then b2i (crf1 == GOLDEN_FRAME || crf2 == GOLDEN_FRAME)
        else 1 + 2 * b2i (crf1 == GOLDEN_FRAME || crf2 == GOLDEN_FRAME)
      else
        if above0 == LAST_FRAME && left0 == LAST_FRAME then 3
        else if above0 == LAST_FRAME || left0 == LAST_FRAME then
          let edge0 := if above0 == LAST_FRAME then left0 else above0
          4 * b2i (edge0 == GOLDEN_FRAME)
        else 2 * b2i (above0 == GOLDEN_FRAME) + 2 * b2i (left0 == GOLDEN_FRAME)
  | some edge_mbmi, none | none, some edge_mbmi =>
    if !is_inter_block edge_mbmi || (edge_mbmi.ref_frame 0 == LAST_FRAME &&
        !has_second_ref edge_mbmi) then 2
    else if !has_second_ref edge_mbmi then 4 * b2i (edge_mbmi.ref_frame 0 == GOLDEN_FRAME)
    else 3 * b2i (edge_mbmi.ref_frame 0 == GOLDEN_FRAME || edge_mbmi.ref_frame 1 == GOLDEN_FRAME)
  | none, none => 2

end Baseline

/-! ## Proof support -/

/-- All values of `MV_REFERENCE_FRAME`. -/
def allFrames : List MV_REFERENCE_FRAME :=
  [NONE, INTRA_FRAME, LAST_FRAME, LAST2_FRAME, LAST3_FRAME, LAST4_FRAME, GOLDEN_FRAME, ALTREF_FRAME]

/-- A per-block record with the given reference frames and neutral remaining fields. -/
def mkMbmi (r0 r1 : MV_REFERENCE_FRAME) : MB_MODE_INFO :=
  { sb_type := 0, tx_size := 0, skip := false, segment_id := 0,
    ref_frame := fun i => if i = 0 then r0 else r1, interp_filter := 0, copy_mode := 0 }

/-- A per-block record of an inter block with the single reference `r0` and the given
interpolation filter. -/
def mkInterMbmi (r0 : MV_REFERENCE_FRAME) (filter : Int) : MB_MODE_INFO :=
  { mkMbmi r0 NONE with interp_filter := filter }

/-- A mode-info entry with the given reference frames and neutral remaining fields. -/
def mkMi (r0 r1 : MV_REFERENCE_FRAME) : MODE_INFO := ⟨mkMbmi r0 r1⟩

/-- A block context with the given neighbours; the current block is an intra block. -/
def mkXd (a l : Option MODE_INFO) : MACROBLOCKD := ⟨mkMi INTRA_FRAME NONE, a, l⟩

/-- A role configuration with the given fixed reference, variable references and a sign bias
that is `bias` on every frame. -/
def mkCm (fixed var0 var1 : MV_REFERENCE_FRAME) (bias : Int) : VP9_COMMON :=
  ⟨0, 0, fixed, fun i => if i = 0 then var0 else var1, fun _ => bias⟩

/-- The block context of `xd` with the above and left neighbours exchanged. -/
def swapXd (xd : MACROBLOCKD) : MACROBLOCKD :=
  { xd with above_mi := xd.left_mi, left_mi := xd.above_mi }

instance decidableForallFrame (p : MV_REFERENCE_FRAME → Prop) [DecidablePred p] :
    Decidable (∀ r, p r) :=
  decidable_of_iff (∀ r ∈ allFrames, p r)
    ⟨fun h r => h r (by cases r <;> simp [allFrames]), fun h r _ => h r⟩

/-- The neighbour `n` is present and intra. -/
def isIntraNb (n : Option MODE_INFO) : Prop :=
  ∃ m, n = some m ∧ is_inter_block m.mbmi = false

/-- The neighbour `n` is present and inter. -/
def isInterNb (n : Option MODE_INFO) : Prop :=
  ∃ m, n = some m ∧ is_inter_block m.mbmi = true

/-- The filter of a neighbour whose filter is known: the neighbour is present, inter, and its
`interp_filter` differs from `SWITCHABLE_FILTERS`; an absent or intra neighbour is unknown. -/
def knownFilter (SWITCHABLE_FILTERS : Int) (n : Option MODE_INFO) : Option Int :=
  match n with
  | some m =>
    if is_inter_block m.mbmi = true ∧ m.mbmi.interp_filter ≠ SWITCHABLE_FILTERS then
      some m.mbmi.interp_filter
    else none
  | none => none

/-- The documented outcome of the switchable-interpolation context in terms of the known
filters of the two neighbours: the common filter when both are known and equal, the known one
when exactly one is known, and `SWITCHABLE_FILTERS` otherwise. -/
def switchable_interp_spec (SWITCHABLE_FILTERS : Int) (above left : Option Int) : Int :=
  match above, left with
  | some x, some y => if x = y then x else SWITCHABLE_FILTERS
  | some x, none => x
  | none, some y => y
  | none, none => SWITCHABLE_FILTERS

/-- The neighbour `n` with an intra entry replaced by an absent one. -/
def dropIntra (n : Option MODE_INFO) : Option MODE_INFO :=
  match n with
  | some m => if is_inter_block m.mbmi then some m else none
  | none => none

/-- The effective transform size of a present neighbour: its `tx_size` when it is not skipped,
and the `max_tx_size` of the current block when it is skipped. -/
def effTx (max_tx_size : Int) (m : MB_MODE_INFO) : Int :=
  if m.skip = true then max_tx_size else (m.tx_size : Int)

/-- A per-block record of an inter block with the given skip flag and transform size. -/
def mkTxMbmi (skip : Bool) (tx_size : Nat) : MB_MODE_INFO :=
  { mkMbmi LAST_FRAME NONE with skip := skip, tx_size := tx_size }

/-- A frame geometry of `rows` by `cols` 8x8 units, with a standard role configuration. -/
def mkGeom (rows cols : Int) : VP9_COMMON :=
  ⟨rows, cols, ALTREF_FRAME, fun i => if i = 0 then LAST_FRAME else GOLDEN_FRAME, fun _ => 1⟩

/-- The pairs (row offset `y`, column offset `x`) that the two nested loops of
`vp9_get_segment_id` visit, in the order of the visits. -/
def segment_id_visits (num_8x8_blocks_wide_lookup num_8x8_blocks_high_lookup : Nat → Int)
    (cm : VP9_COMMON) (bsize : Nat) (mi_row mi_col : Int) : List (Nat × Nat) :=
  (List.range (MIN (cm.mi_rows - mi_row) (num_8x8_blocks_high_lookup bsize)).toNat).flatMap
    fun y => (List.range (MIN (cm.mi_cols - mi_col) (num_8x8_blocks_wide_lookup bsize)).toNat).map
      fun x => (y, x)

/-- The index `mi_offset + y * cm->mi_cols + x` of `segment_ids` read at the visit `p = (y, x)`. -/
def segment_id_index (cm : VP9_COMMON) (mi_row mi_col : Int) (p : Nat × Nat) : Int :=
  mi_row * cm.mi_cols + mi_col + (p.1 : Int) * cm.mi_cols + (p.2 : Int)

/-- The segment map of a frame two units wide with the ids 1, 3, 2, 0 in row-major order. -/
def segMap1320 (i : Int) : Fin 256 :=
  if i = 0 then 1 else if i = 1 then 3 else if i = 2 then 2 else 0

/-- The offsets `(y, x)` of the clamped footprint of a block at `(mi_row, mi_col)`:
`0 ≤ y < min(bh, mi_rows - mi_row)` and `0 ≤ x < min(bw, mi_cols - mi_col)`. -/
def inFootprint (num_8x8_blocks_wide_lookup num_8x8_blocks_high_lookup : Nat → Int)
    (cm : VP9_COMMON) (bsize : Nat) (mi_row mi_col y x : Int) : Prop :=
  0 ≤ y ∧ y < min (num_8x8_blocks_high_lookup bsize) (cm.mi_rows - mi_row) ∧
  0 ≤ x ∧ x < min (num_8x8_blocks_wide_lookup bsize) (cm.mi_cols - mi_col)

/-- The index of the segment-map entry of the unit at row `mi_row + y` and column
`mi_col + x`. -/
def footprintIndex (cm : VP9_COMMON) (mi_row mi_col y x : Int) : Int :=
  (mi_row + y) * cm.mi_cols + mi_col + x

/-- The contexts reachable with one neighbour for most per-reference-frame functions:
0, 2, 3 or 4. -/
@[reducible] def bins0234 (x : Int) : Prop := x = 0 ∨ x = 2 ∨ x = 3 ∨ x = 4

/-- The contexts reachable with one neighbour for `single_ref_p1`: 0, 1, 2 or 4. -/
@[reducible] def bins0124 (x : Int) : Prop := x = 0 ∨ x = 1 ∨ x = 2 ∨ x = 4

/-- The reference of an inter neighbour that the compound-reference functions examine:
`ref_frame[0]` when the neighbour is single-reference and `ref_frame[var_ref_idx]` when it is
compound. -/
def examinedRef (cm : VP9_COMMON) (m : MB_MODE_INFO) : MV_REFERENCE_FRAME :=
  if has_second_ref m = true then m.ref_frame (lnot (cm.ref_frame_sign_bias cm.comp_fixed_ref))
  else m.ref_frame 0

/-- The state of a neighbour as the copy-mode context distinguishes it: absent, intra, inter
with `copy_mode != NOREF`, or inter with `copy_mode == NOREF`. -/
inductive CopyNb
  | absent
  | intra
  | interCopy
  | interNoCopy
  deriving DecidableEq, Repr

/-- The state of the neighbour `n` for the copy-mode context. -/
def copyNb (NOREF : Int) (n : Option MODE_INFO) : CopyNb :=
  match n with
  | none => CopyNb.absent
  | some m =>
    if is_inter_block m.mbmi = false then CopyNb.intra
    else if m.mbmi.copy_mode ≠ NOREF then CopyNb.interCopy
    else CopyNb.interNoCopy

/-- The documented table of the copy-mode context: with both neighbours present, 4 if both are
intra, 3 if exactly one is intra, and 0, 1 or 2 according as two, one or none of two inter
neighbours has `copy_mode != NOREF`; with one neighbour present, 3 if it is intra, 0 if it is
inter with `copy_mode != NOREF` and 1 otherwise; with no neighbour, 0. -/
def copy_mode_table : CopyNb → CopyNb → Int
  | CopyNb.intra, CopyNb.intra => 4
  | CopyNb.intra, CopyNb.interCopy => 3
  | CopyNb.intra, CopyNb.interNoCopy => 3
  | CopyNb.interCopy, CopyNb.intra => 3
  | CopyNb.interNoCopy, CopyNb.intra => 3
  | CopyNb.interCopy, CopyNb.interCopy => 0
  | CopyNb.interCopy, CopyNb.interNoCopy => 1
  | CopyNb.interNoCopy, CopyNb.interCopy => 1
  | CopyNb.interNoCopy, CopyNb.interNoCopy => 2
  | CopyNb.intra, CopyNb.absent => 3
  | CopyNb.absent, CopyNb.intra => 3
  | CopyNb.interCopy, CopyNb.absent => 0
  | CopyNb.absent, CopyNb.interCopy => 0
  | CopyNb.interNoCopy, CopyNb.absent => 1
  | CopyNb.absent, CopyNb.interNoCopy => 1
  | CopyNb.absent, CopyNb.absent => 0

/-- A per-block record of an inter block with the given copy mode. -/
def mkCopyMbmi (copy_mode : Int) : MB_MODE_INFO :=
  { mkMbmi LAST_FRAME NONE with copy_mode := copy_mode }

/-- An inter reference frame: one of the six frames other than `NONE` and `INTRA_FRAME`. -/
def isInterFrame (r : MV_REFERENCE_FRAME) : Bool := r != NONE && r != INTRA_FRAME

/-- The slot of `ref_frame[2]` other than the slot `i`. -/
def otherSlot (i : Fin 2) : Fin 2 := if i = 0 then 1 else 0

/-- The entry `m` with `ref_frame[i]` replaced by `r`. -/
def setRef (m : MODE_INFO) (i : Fin 2) (r : MV_REFERENCE_FRAME) : MODE_INFO :=
  ⟨{ m.mbmi with ref_frame := fun j => if j = i then r else m.mbmi.ref_frame j }⟩

/-- The entry `m` with the renaming `s` of reference frames applied to both reference slots
when `m` is inter; an intra entry is left as it is. -/
def renameNb (s : MV_REFERENCE_FRAME → MV_REFERENCE_FRAME) (m : MODE_INFO) : MODE_INFO :=
  if is_inter_block m.mbmi = true then
    ⟨{ m.mbmi with ref_frame := fun j => s (m.mbmi.ref_frame j) }⟩
  else m

/-- The block context `xd` with the renaming `s` applied to each present inter neighbour. -/
def renameXd (s : MV_REFERENCE_FRAME → MV_REFERENCE_FRAME) (xd : MACROBLOCKD) : MACROBLOCKD :=
  ⟨xd.mi, xd.above_mi.map (renameNb s), xd.left_mi.map (renameNb s)⟩

/-- The renaming of frames that exchanges `LAST` with `GOLDEN` and `LAST2` with `ALTREF`. -/
def swapLastGolden : MV_REFERENCE_FRAME → MV_REFERENCE_FRAME
  | LAST_FRAME => GOLDEN_FRAME
  | GOLDEN_FRAME => LAST_FRAME
  | LAST2_FRAME => ALTREF_FRAME
  | ALTREF_FRAME => LAST2_FRAME
  | r => r

/-- The renaming of frames that exchanges `LAST3` with `GOLDEN` and `LAST4` with `ALTREF`. -/
def swapLast3Golden : MV_REFERENCE_FRAME → MV_REFERENCE_FRAME
  | LAST3_FRAME => GOLDEN_FRAME
  | GOLDEN_FRAME => LAST3_FRAME
  | LAST4_FRAME => ALTREF_FRAME
  | ALTREF_FRAME => LAST4_FRAME
  | r => r

/-- The renaming of frames that exchanges `LAST` with `LAST3` and `LAST2` with `LAST4` and
fixes every other frame. -/
def swapLastLast3 : MV_REFERENCE_FRAME → MV_REFERENCE_FRAME
  | LAST_FRAME => LAST3_FRAME
  | LAST3_FRAME => LAST_FRAME
  | LAST2_FRAME => LAST4_FRAME
  | LAST4_FRAME => LAST2_FRAME
  | r => r

/-- The condition on a neighbour under which the inner assertions of the extended
`vp9_get_pred_context_comp_ref_p` are examined: an inter neighbour has an inter frame in slot
`0`, and a compound neighbour moreover has an inter frame in slot `1` and a reference other
than `ALTREF` in the variable slot. -/
def interRefsValid (cm : VP9_COMMON) (m : MB_MODE_INFO) : Bool :=
  !is_inter_block m ||
    (isInterFrame (m.ref_frame 0) &&
      (!has_second_ref m ||
        (isInterFrame (m.ref_frame 1) &&
          m.ref_frame (lnot (cm.ref_frame_sign_bias cm.comp_fixed_ref)) != ALTREF_FRAME)))

/-- A frame of the baseline reference set: `LAST`, `GOLDEN` or `ALTREF`. -/
def isBaselineFrame (r : MV_REFERENCE_FRAME) : Bool :=
  r == LAST_FRAME || r == GOLDEN_FRAME || r == ALTREF_FRAME

/-- The references of the block `m` are drawn from the baseline set: an inter block has a
baseline frame in slot `0`, and a compound block also has one in slot `1`. -/
def baselineRefs (m : MB_MODE_INFO) : Bool :=
  !is_inter_block m ||
    (isBaselineFrame (m.ref_frame 0) && (!has_second_ref m || isBaselineFrame (m.ref_frame 1)))

/-- The references of the block `m` are drawn from the baseline set and, when `m` is compound,
its variable slot `ref_frame[var_ref_idx]` holds `LAST` or `GOLDEN`. -/
def baselineCompRefs (cm : VP9_COMMON) (m : MB_MODE_INFO) : Bool :=
  baselineRefs m &&
    (!is_inter_block m || !has_second_ref m ||
      (m.ref_frame (lnot (cm.ref_frame_sign_bias cm.comp_fixed_ref)) == LAST_FRAME ||
        m.ref_frame (lnot (cm.ref_frame_sign_bias cm.comp_fixed_ref)) == GOLDEN_FRAME))

/-- The neighbour `n` is a state of the reference set `ok`: it is absent; or intra, with
`ref_frame = (INTRA_FRAME, NONE)`; or single-reference, with a frame of the set in slot `0` and
`NONE` in slot `1`; or compound, with frames of the set in both slots. -/
def nbOfSet (ok : MV_REFERENCE_FRAME → Bool) (n : Option MODE_INFO) : Bool :=
  match n with
  | none => true
  | some m =>
    (m.mbmi.ref_frame 0 == INTRA_FRAME && m.mbmi.ref_frame 1 == NONE) ||
      (ok (m.mbmi.ref_frame 0) && (m.mbmi.ref_frame 1 == NONE || ok (m.mbmi.ref_frame 1)))

/-- The context function `f` returns `c` on some pair of neighbours that are states of the
reference set `ok`. -/
def reaches (ok : MV_REFERENCE_FRAME → Bool) (f : MACROBLOCKD → Int) (c : Int) : Prop :=
  ∃ a l : Option MODE_INFO, nbOfSet ok a = true ∧ nbOfSet ok l = true ∧ f (mkXd a l) = c

/-- Source `vp9_get_segment_id` with its `assert` kept: the result is `none` when the
assertion `segment_id >= 0 && segment_id < MAX_SEGMENTS` fails.  The constant `MAX_SEGMENTS`
(declared in `vp9_seg_common.h`) is a parameter. -/
def vp9_get_segment_id_asserted (num_8x8_blocks_wide_lookup num_8x8_blocks_high_lookup : Nat → Int)
    (MAX_SEGMENTS : Int) (cm : VP9_COMMON) (segment_ids : Int → Fin 256) (bsize : Nat)
    (mi_row mi_col : Int) : Option Int :=
  let segment_id := vp9_get_segment_id num_8x8_blocks_wide_lookup num_8x8_blocks_high_lookup cm
    segment_ids bsize mi_row mi_col
  if 0 ≤ segment_id ∧ segment_id < MAX_SEGMENTS then some segment_id else none

theorem ite_range {c : Prop} [Decidable c] {x y n : Int} (hx : 0 ≤ x ∧ x < n)
    (hy : 0 ≤ y ∧ y < n) : 0 ≤ (if c then x else y) ∧ (if c then x else y) < n := by
  split <;> assumption

theorem b2i_eq (b : Bool) : b2i b = 0 ∨ b2i b = 1 := by
  cases b <;> simp [b2i]

/-! ## Range of the per-reference-frame contexts -/

namespace MultiRef

theorem ext_comp_ref_p_range (cm : VP9_COMMON) (xd : MACROBLOCKD) :
    0 ≤ vp9_get_pred_context_comp_ref_p cm xd ∧
      vp9_get_pred_context_comp_ref_p cm xd < REF_CONTEXTS := by
  rcases xd with ⟨mi, _ | ⟨⟨a⟩⟩, _ | ⟨⟨l⟩⟩⟩ <;>
    simp only [vp9_get_pred_context_comp_ref_p, get_mbmi, get_above_mi, get_left_mi,
      REF_CONTEXTS] <;>
    repeat' (first | apply ite_range | decide | (simp only [b2i]; split_ifs <;> decide))

theorem ext_comp_ref_p1_range (cm : VP9_COMMON) (xd : MACROBLOCKD) :
    0 ≤ vp9_get_pred_context_comp_ref_p1 cm xd ∧
      vp9_get_pred_context_comp_ref_p1 cm xd < REF_CONTEXTS := by
  rcases xd with ⟨mi, _ | ⟨⟨a⟩⟩, _ | ⟨⟨l⟩⟩⟩ <;>
    simp only [vp9_get_pred_context_comp_ref_p1, get_mbmi, get_above_mi, get_left_mi,
      REF_CONTEXTS] <;>
    repeat' (first | apply ite_range | decide | (simp only [b2i]; split_ifs <;> decide))

theorem ext_comp_ref_p2_range (cm : VP9_COMMON) (xd : MACROBLOCKD) :
    0 ≤ vp9_get_pred_context_comp_ref_p2 cm xd ∧
      vp9_get_pred_context_comp_ref_p2 cm xd < REF_CONTEXTS := by
  rcases xd with ⟨mi, _ | ⟨⟨a⟩⟩, _ | ⟨⟨l⟩⟩⟩ <;>
    simp only [vp9_get_pred_context_comp_ref_p2, get_mbmi, get_above_mi, get_left_mi,
      REF_CONTEXTS] <;>
    repeat' (first | apply ite_range | decide | (simp only [b2i]; split_ifs <;> decide))

theorem ext_comp_ref_p3_range (cm : VP9_COMMON) (xd : MACROBLOCKD) :
    0 ≤ vp9_get_pred_context_comp_ref_p3 cm xd ∧
      vp9_get_pred_context_comp_ref_p3 cm xd < REF_CONTEXTS := by
  rcases xd with ⟨mi, _ | ⟨⟨a⟩⟩, _ | ⟨⟨l⟩⟩⟩ <;>
    simp only [vp9_get_pred_context_comp_ref_p3, get_mbmi, get_above_mi, get_left_mi,
      REF_CONTEXTS] <;>
    repeat' (first | apply ite_range | decide | (simp only [b2i]; split_ifs <;> decide))

theorem ext_single_ref_p1_range (xd : MACROBLOCKD) :
    0 ≤ vp9_get_pred_context_single_ref_p1 xd ∧
      vp9_get_pred_context_single_ref_p1 xd < REF_CONTEXTS := by
  rcases xd with ⟨mi, _ | ⟨⟨a⟩⟩, _ | ⟨⟨l⟩⟩⟩ <;>
    simp only [vp9_get_pred_context_single_ref_p1, get_mbmi, get_above_mi, get_left_mi,
      REF_CONTEXTS] <;>
    repeat' (first | apply ite_range | decide | (simp only [b2i]; split_ifs <;> decide))

theorem ext_single_ref_p2_range (xd : MACROBLOCKD) :
    0 ≤ vp9_get_pred_context_single_ref_p2 xd ∧
      vp9_get_pred_context_single_ref_p2 xd < REF_CONTEXTS := by
  rcases xd with ⟨mi, _ | ⟨⟨a⟩⟩, _ | ⟨⟨l⟩⟩⟩ <;>
    simp only [vp9_get_pred_context_single_ref_p2, get_mbmi, get_above_mi, get_left_mi,
      REF_CONTEXTS] <;>
    repeat' (first | apply ite_range | decide | (simp only [b2i]; split_ifs <;> decide))

theorem ext_single_ref_p3_range (xd : MACROBLOCKD) :
    0 ≤ vp9_get_pred_context_single_ref_p3 xd ∧
      vp9_get_pred_context_single_ref_p3 xd < REF_CONTEXTS := by
  rcases xd with ⟨mi, _ | ⟨⟨a⟩⟩, _ | ⟨⟨l⟩⟩⟩ <;>
    simp only [vp9_get_pred_context_single_ref_p3, get_mbmi, get_above_mi, get_left_mi,
      REF_CONTEXTS] <;>
    repeat' (first | apply ite_range | decide | (simp only [b2i]; split_ifs <;> decide))

theorem ext_single_ref_p4_range (xd : MACROBLOCKD) :
    0 ≤ vp9_get_pred_context_single_ref_p4 xd ∧
      vp9_get_pred_context_single_ref_p4 xd < REF_CONTEXTS := by
  rcases xd with ⟨mi, _ | ⟨⟨a⟩⟩, _ | ⟨⟨l⟩⟩⟩ <;>
    simp only [vp9_get_pred_context_single_ref_p4, get_mbmi, get_above_mi, get_left_mi,
      REF_CONTEXTS] <;>
    repeat' (first | apply ite_range | decide | (simp only [b2i]; split_ifs <;> decide))

theorem ext_single_ref_p5_range (xd : MACROBLOCKD) :
    0 ≤ vp9_get_pred_context_single_ref_p5 xd ∧
      vp9_get_pred_context_single_ref_p5 xd < REF_CONTEXTS := by
  rcases xd with ⟨mi, _ | ⟨⟨a⟩⟩, _ | ⟨⟨l⟩⟩⟩ <;>
    simp only [vp9_get_pred_context_single_ref_p5, get_mbmi, get_above_mi, get_left_mi,
      REF_CONTEXTS] <;>
    repeat' (first | apply ite_range | decide | (simp only [b2i]; split_ifs <;> decide))

end MultiRef

namespace Baseline

theorem base_comp_ref_p_range (cm : VP9_COMMON) (xd : MACROBLOCKD) :
    0 ≤ vp9_get_pred_context_comp_ref_p cm xd ∧
      vp9_get_pred_context_comp_ref_p cm xd < REF_CONTEXTS := by
  rcases xd with ⟨mi, _ | ⟨⟨a⟩⟩, _ | ⟨⟨l⟩⟩⟩ <;>
    simp only [vp9_get_pred_context_comp_ref_p, get_mbmi, get_above_mi, get_left_mi,
      REF_CONTEXTS] <;>
    repeat' (first | apply ite_range | decide | (simp only [b2i]; split_ifs <;> decide))

theorem base_single_ref_p1_range (xd : MACROBLOCKD) :
    0 ≤ vp9_get_pred_context_single_ref_p1 xd ∧
      vp9_get_pred_context_single_ref_p1 xd < REF_CONTEXTS := by
  rcases xd with ⟨mi, _ | ⟨⟨a⟩⟩, _ | ⟨⟨l⟩⟩⟩ <;>
    simp only [vp9_get_pred_context_single_ref_p1, get_mbmi, get_above_mi, get_left_mi,
      REF_CONTEXTS] <;>
    repeat' (first | apply ite_range | decide | (simp only [b2i]; split_ifs <;> decide))

theorem base_single_ref_p2_range (xd : MACROBLOCKD) :
    0 ≤ vp9_get_pred_context_single_ref_p2 xd ∧
      vp9_get_pred_context_single_ref_p2 xd < REF_CONTEXTS := by
  rcases xd with ⟨mi, _ | ⟨⟨a⟩⟩, _ | ⟨⟨l⟩⟩⟩ <;>
    simp only [vp9_get_pred_context_single_ref_p2, get_mbmi, get_above_mi, get_left_mi,
      REF_CONTEXTS] <;>
    repeat' (first | apply ite_range | decide | (simp only [b2i]; split_ifs <;> decide))

end Baseline

/-- C1: every per-reference-frame context function of both reference-set variants returns a
value `pred_context` with `0 ≤ pred_context < REF_CONTEXTS`, for every role configuration `cm`
(whatever its sign bias) and every state of the two neighbours, so the final assertion of each
function holds. -/
theorem C1_pred_context_in_range (cm : VP9_COMMON) (xd : MACROBLOCKD) :
    (0 ≤ MultiRef.vp9_get_pred_context_comp_ref_p cm xd ∧
      MultiRef.vp9_get_pred_context_comp_ref_p cm xd < REF_CONTEXTS) ∧
    (0 ≤ MultiRef.vp9_get_pred_context_comp_ref_p1 cm xd ∧
      MultiRef.vp9_get_pred_context_comp_ref_p1 cm xd < REF_CONTEXTS) ∧
    (0 ≤ MultiRef.vp9_get_pred_context_comp_ref_p2 cm xd ∧
      MultiRef.vp9_get_pred_context_comp_ref_p2 cm xd < REF_CONTEXTS) ∧
    (0 ≤ MultiRef.vp9_get_pred_context_comp_ref_p3 cm xd ∧
      MultiRef.vp9_get_pred_context_comp_ref_p3 cm xd < REF_CONTEXTS) ∧
    (0 ≤ MultiRef.vp9_get_pred_context_single_ref_p1 xd ∧
      MultiRef.vp9_get_pred_context_single_ref_p1 xd < REF_CONTEXTS) ∧
    (0 ≤ MultiRef.vp9_get_pred_context_single_ref_p2 xd ∧
      MultiRef.vp9_get_pred_context_single_ref_p2 xd < REF_CONTEXTS) ∧
    (0 ≤ MultiRef.vp9_get_pred_context_single_ref_p3 xd ∧
      MultiRef.vp9_get_pred_context_single_ref_p3 xd < REF_CONTEXTS) ∧
    (0 ≤ MultiRef.vp9_get_pred_context_single_ref_p4 xd ∧
      MultiRef.vp9_get_pred_context_single_ref_p4 xd < REF_CONTEXTS) ∧
    (0 ≤ MultiRef.vp9_get_pred_context_single_ref_p5 xd ∧
      MultiRef.vp9_get_pred_context_single_ref_p5 xd < REF_CONTEXTS) ∧
    (0 ≤ Baseline.vp9_get_pred_context_comp_ref_p cm xd ∧
      Baseline.vp9_get_pred_context_comp_ref_p cm xd < REF_CONTEXTS) ∧
    (0 ≤ Baseline.vp9_get_pred_context_single_ref_p1 xd ∧
      Baseline.vp9_get_pred_context_single_ref_p1 xd < REF_CONTEXTS) ∧
    (0 ≤ Baseline.vp9_get_pred_context_single_ref_p2 xd ∧
      Baseline.vp9_get_pred_context_single_ref_p2 xd < REF_CONTEXTS) :=
  ⟨MultiRef.ext_comp_ref_p_range cm xd,
   MultiRef.ext_comp_ref_p1_range cm xd,
   MultiRef.ext_comp_ref_p2_range cm xd,
   MultiRef.ext_comp_ref_p3_range cm xd,
   MultiRef.ext_single_ref_p1_range xd,
   MultiRef.ext_single_ref_p2_range xd,
   MultiRef.ext_single_ref_p3_range xd,
   MultiRef.ext_single_ref_p4_range xd,
   MultiRef.ext_single_ref_p5_range xd,
   Baseline.base_comp_ref_p_range cm xd,
   Baseline.base_single_ref_p1_range xd,
   Baseline.base_single_ref_p2_range xd⟩

/-! ## No-information constants -/

/-- C2: when both the above and the left neighbour are absent, every context function returns
its fixed no-information constant, whatever the role configuration `cm` and in both
reference-set variants: the intra/inter context is 0, the reference-mode context is 1, every
per-reference-frame context is 2, the switchable-interpolation context is `SWITCHABLE_FILTERS`
and the copy-mode context is 0. -/
theorem C2_no_neighbour_constants (cm : VP9_COMMON) (SWITCHABLE_FILTERS NOREF : Int)
    (xd : MACROBLOCKD) (ha : get_above_mi xd = none) (hl : get_left_mi xd = none) :
    vp9_get_intra_inter_context xd = 0 ∧
    vp9_get_reference_mode_context cm xd = 1 ∧
    MultiRef.vp9_get_pred_context_comp_ref_p cm xd = 2 ∧
    MultiRef.vp9_get_pred_context_comp_ref_p1 cm xd = 2 ∧
    MultiRef.vp9_get_pred_context_comp_ref_p2 cm xd = 2 ∧
    MultiRef.vp9_get_pred_context_comp_ref_p3 cm xd = 2 ∧
    MultiRef.vp9_get_pred_context_single_ref_p1 xd = 2 ∧
    MultiRef.vp9_get_pred_context_single_ref_p2 xd = 2 ∧
    MultiRef.vp9_get_pred_context_single_ref_p3 xd = 2 ∧
    MultiRef.vp9_get_pred_context_single_ref_p4 xd = 2 ∧
    MultiRef.vp9_get_pred_context_single_ref_p5 xd = 2 ∧
    Baseline.vp9_get_pred_context_comp_ref_p cm xd = 2 ∧
    Baseline.vp9_get_pred_context_single_ref_p1 xd = 2 ∧
    Baseline.vp9_get_pred_context_single_ref_p2 xd = 2 ∧
    vp9_get_pred_context_switchable_interp SWITCHABLE_FILTERS xd = SWITCHABLE_FILTERS ∧
    vp9_get_copy_mode_context NOREF xd = 0 := by
  obtain ⟨mi, a, l⟩ := xd
  simp only [get_above_mi, get_left_mi] at ha hl
  subst ha hl
  refine ⟨rfl, rfl, rfl, rfl, rfl, rfl, rfl, rfl, rfl, rfl, rfl, rfl, rfl, rfl, ?_, rfl⟩
  simp [vp9_get_pred_context_switchable_interp, get_mbmi, get_above_mi, get_left_mi]

/-- Witness for C2: a block at the top-left corner, with a role configuration whose fixed
reference is `ALTREF_FRAME` and `SWITCHABLE_FILTERS = 3`. -/
theorem C2_no_neighbour_constants_witness :
    get_above_mi (mkXd none none) = none ∧ get_left_mi (mkXd none none) = none ∧
    vp9_get_intra_inter_context (mkXd none none) = 0 ∧
    vp9_get_reference_mode_context (mkCm ALTREF_FRAME LAST_FRAME GOLDEN_FRAME 1) (mkXd none none) = 1 ∧
    MultiRef.vp9_get_pred_context_comp_ref_p (mkCm ALTREF_FRAME LAST_FRAME GOLDEN_FRAME 1) (mkXd none none) = 2 ∧
    MultiRef.vp9_get_pred_context_comp_ref_p1 (mkCm ALTREF_FRAME LAST_FRAME GOLDEN_FRAME 1) (mkXd none none) = 2 ∧
    MultiRef.vp9_get_pred_context_comp_ref_p2 (mkCm ALTREF_FRAME LAST_FRAME GOLDEN_FRAME 1) (mkXd none none) = 2 ∧
    MultiRef.vp9_get_pred_context_comp_ref_p3 (mkCm ALTREF_FRAME LAST_FRAME GOLDEN_FRAME 1) (mkXd none none) = 2 ∧
    MultiRef.vp9_get_pred_context_single_ref_p1 (mkXd none none) = 2 ∧
    MultiRef.vp9_get_pred_context_single_ref_p2 (mkXd none none) = 2 ∧
    MultiRef.vp9_get_pred_context_single_ref_p3 (mkXd none none) = 2 ∧
    MultiRef.vp9_get_pred_context_single_ref_p4 (mkXd none none) = 2 ∧
    MultiRef.vp9_get_pred_context_single_ref_p5 (mkXd none none) = 2 ∧
    Baseline.vp9_get_pred_context_comp_ref_p (mkCm ALTREF_FRAME LAST_FRAME GOLDEN_FRAME 1) (mkXd none none) = 2 ∧
    Baseline.vp9_get_pred_context_single_ref_p1 (mkXd none none) = 2 ∧
    Baseline.vp9_get_pred_context_single_ref_p2 (mkXd none none) = 2 ∧
    vp9_get_pred_context_switchable_interp 3 (mkXd none none) = 3 ∧
    vp9_get_copy_mode_context 0 (mkXd none none) = 0 :=
  ⟨rfl, rfl, C2_no_neighbour_constants (mkCm ALTREF_FRAME LAST_FRAME GOLDEN_FRAME 1) 3 0
    (mkXd none none) rfl rfl⟩

/-! ## Symmetry in the two neighbours -/

set_option linter.unnecessarySeqFocus false
set_option linter.unusedTactic false

namespace MultiRef

theorem ext_comp_ref_p_symm (cm : VP9_COMMON) (xd : MACROBLOCKD) :
    vp9_get_pred_context_comp_ref_p cm (swapXd xd) = vp9_get_pred_context_comp_ref_p cm xd := by
  rcases xd with ⟨mi, _ | ⟨⟨a⟩⟩, _ | ⟨⟨l⟩⟩⟩ <;>
    simp only [vp9_get_pred_context_comp_ref_p, get_mbmi, get_above_mi, get_left_mi, swapXd]
  generalize lnot (cm.ref_frame_sign_bias cm.comp_fixed_ref) = v
  generalize is_inter_block l = il
  generalize is_inter_block a = ia
  cases ia <;> cases il <;>
    (try simp only [Bool.not_true, Bool.not_false, Bool.and_true, Bool.and_false,
      Bool.true_and, Bool.false_and, Bool.or_true, Bool.or_false, Bool.true_or, Bool.false_or,
      if_true, if_false, Bool.false_eq_true, reduceIte]) <;>
    generalize has_second_ref l = sl <;>
    generalize l.ref_frame 0 = l0 <;>
    generalize l.ref_frame v = lv <;>
    generalize has_second_ref a = sa <;>
    generalize a.ref_frame 0 = a0 <;>
    generalize a.ref_frame v = av <;>
    cases sa <;> cases sl <;>
    (try simp only [Bool.not_true, Bool.not_false, Bool.and_true, Bool.and_false,
      Bool.true_and, Bool.false_and, Bool.or_true, Bool.or_false, Bool.true_or, Bool.false_or,
      if_true, if_false, Bool.false_eq_true, reduceIte]) <;>
    (try clear a0) <;> (try clear av) <;> (try clear l0) <;> (try clear lv) <;>
    (try revert a0) <;> (try revert av) <;> (try revert l0) <;> (try revert lv) <;>
    decide!

theorem ext_comp_ref_p1_symm (cm : VP9_COMMON) (xd : MACROBLOCKD) :
    vp9_get_pred_context_comp_ref_p1 cm (swapXd xd) = vp9_get_pred_context_comp_ref_p1 cm xd := by
  rcases xd with ⟨mi, _ | ⟨⟨a⟩⟩, _ | ⟨⟨l⟩⟩⟩ <;>
    simp only [vp9_get_pred_context_comp_ref_p1, get_mbmi, get_above_mi, get_left_mi, swapXd]
  generalize lnot (cm.ref_frame_sign_bias cm.comp_fixed_ref) = v
  generalize is_inter_block l = il
  generalize is_inter_block a = ia
  cases ia <;> cases il <;>
    (try simp only [Bool.not_true, Bool.not_false, Bool.and_true, Bool.and_false,
      Bool.true_and, Bool.false_and, Bool.or_true, Bool.or_false, Bool.true_or, Bool.false_or,
      if_true, if_false, Bool.false_eq_true, reduceIte]) <;>
    generalize has_second_ref l = sl <;>
    generalize l.ref_frame 0 = l0 <;>
    generalize l.ref_frame v = lv <;>
    generalize has_second_ref a = sa <;>
    generalize a.ref_frame 0 = a0 <;>
    generalize a.ref_frame v = av <;>
    cases sa <;> cases sl <;>
    (try simp only [Bool.not_true, Bool.not_false, Bool.and_true, Bool.and_false,
      Bool.true_and, Bool.false_and, Bool.or_true, Bool.or_false, Bool.true_or, Bool.false_or,
      if_true, if_false, Bool.false_eq_true, reduceIte]) <;>
    (try clear a0) <;> (try clear av) <;> (try clear l0) <;> (try clear lv) <;>
    (try revert a0) <;> (try revert av) <;> (try revert l0) <;> (try revert lv) <;>
    decide!

theorem ext_comp_ref_p2_symm (cm : VP9_COMMON) (xd : MACROBLOCKD) :
    vp9_get_pred_context_comp_ref_p2 cm (swapXd xd) = vp9_get_pred_context_comp_ref_p2 cm xd := by
  rcases xd with ⟨mi, _ | ⟨⟨a⟩⟩, _ | ⟨⟨l⟩⟩⟩ <;>
    simp only [vp9_get_pred_context_comp_ref_p2, get_mbmi, get_above_mi, get_left_mi, swapXd]
  generalize lnot (cm.ref_frame_sign_bias cm.comp_fixed_ref) = v
  generalize is_inter_block l = il
  generalize is_inter_block a = ia
  cases ia <;> cases il <;>
    (try simp only [Bool.not_true, Bool.not_false, Bool.and_true, Bool.and_false,
      Bool.true_and, Bool.false_and, Bool.or_true, Bool.or_false, Bool.true_or, Bool.false_or,
      if_true, if_false, Bool.false_eq_true, reduceIte]) <;>
    generalize has_second_ref l = sl <;>
    generalize l.ref_frame 0 = l0 <;>
    generalize l.ref_frame v = lv <;>
    generalize has_second_ref a = sa <;>
    generalize a.ref_frame 0 = a0 <;>
    generalize a.ref_frame v = av <;>
    cases sa <;> cases sl <;>
    (try simp only [Bool.not_true, Bool.not_false, Bool.and_true, Bool.and_false,
      Bool.true_and, Bool.false_and, Bool.or_true, Bool.or_false, Bool.true_or, Bool.false_or,
      if_true, if_false, Bool.false_eq_true, reduceIte]) <;>
    (try clear a0) <;> (try clear av) <;> (try clear l0) <;> (try clear lv) <;>
    (try revert a0) <;> (try revert av) <;> (try revert l0) <;> (try revert lv) <;>
    decide!

theorem ext_comp_ref_p3_symm (cm : VP9_COMMON) (xd : MACROBLOCKD) :
    vp9_get_pred_context_comp_ref_p3 cm (swapXd xd) = vp9_get_pred_context_comp_ref_p3 cm xd := by
  rcases xd with ⟨mi, _ | ⟨⟨a⟩⟩, _ | ⟨⟨l⟩⟩⟩ <;>
    simp only [vp9_get_pred_context_comp_ref_p3, get_mbmi, get_above_mi, get_left_mi, swapXd]
  generalize lnot (cm.ref_frame_sign_bias cm.comp_fixed_ref) = v
  generalize is_inter_block l = il
  generalize is_inter_block a = ia
  cases ia <;> cases il <;>
    (try simp only [Bool.not_true, Bool.not_false, Bool.and_true, Bool.and_false,
      Bool.true_and, Bool.false_and, Bool.or_true, Bool.or_false, Bool.true_or, Bool.false_or,
      if_true, if_false, Bool.false_eq_true, reduceIte]) <;>
    generalize has_second_ref l = sl <;>
    generalize l.ref_frame 0 = l0 <;>
    generalize l.ref_frame v = lv <;>
    generalize has_second_ref a = sa <;>
    generalize a.ref_frame 0 = a0 <;>
    generalize a.ref_frame v = av <;>
    cases sa <;> cases sl <;>
    (try simp only [Bool.not_true, Bool.not_false, Bool.and_true, Bool.and_false,
      Bool.true_and, Bool.false_and, Bool.or_true, Bool.or_false, Bool.true_or, Bool.false_or,
      if_true, if_false, Bool.false_eq_true, reduceIte]) <;>
    (try clear a0) <;> (try clear av) <;> (try clear l0) <;> (try clear lv) <;>
    (try revert a0) <;> (try revert av) <;> (try revert l0) <;> (try revert lv) <;>
    decide!

theorem ext_single_ref_p1_symm (xd : MACROBLOCKD) :
    vp9_get_pred_context_single_ref_p1 (swapXd xd) =
      vp9_get_pred_context_single_ref_p1 xd := by
  rcases xd with ⟨mi, _ | ⟨⟨a⟩⟩, _ | ⟨⟨l⟩⟩⟩ <;>
    simp only [vp9_get_pred_context_single_ref_p1, get_mbmi, get_above_mi, get_left_mi, swapXd]
  generalize is_inter_block l = il
  generalize is_inter_block a = ia
  cases ia <;> cases il <;>
    (try simp only [Bool.not_true, Bool.not_false, Bool.and_true, Bool.and_false,
      Bool.true_and, Bool.false_and, Bool.or_true, Bool.or_false, Bool.true_or, Bool.false_or,
      if_true, if_false, Bool.false_eq_true, reduceIte]) <;>
    generalize has_second_ref l = sl <;>
    generalize l.ref_frame 0 = l0 <;>
    generalize l.ref_frame 1 = l1 <;>
    generalize has_second_ref a = sa <;>
    generalize a.ref_frame 0 = a0 <;>
    generalize a.ref_frame 1 = a1 <;>
    cases sa <;> cases sl <;>
    (try simp only [Bool.not_true, Bool.not_false, Bool.and_true, Bool.and_false,
      Bool.true_and, Bool.false_and, Bool.or_true, Bool.or_false, Bool.true_or, Bool.false_or,
      if_true, if_false, Bool.false_eq_true, reduceIte]) <;>
    (try clear a0) <;> (try clear a1) <;> (try clear l0) <;> (try clear l1) <;>
    (try revert a0) <;> (try revert a1) <;> (try revert l0) <;> (try revert l1) <;>
    decide!

theorem ext_single_ref_p2_symm (xd : MACROBLOCKD) :
    vp9_get_pred_context_single_ref_p2 (swapXd xd) =
      vp9_get_pred_context_single_ref_p2 xd := by
  rcases xd with ⟨mi, _ | ⟨⟨a⟩⟩, _ | ⟨⟨l⟩⟩⟩ <;>
    simp only [vp9_get_pred_context_single_ref_p2, get_mbmi, get_above_mi, get_left_mi, swapXd]
  generalize is_inter_block l = il
  generalize is_inter_block a = ia
  cases ia <;> cases il <;>
    (try simp only [Bool.not_true, Bool.not_false, Bool.and_true, Bool.and_false,
      Bool.true_and, Bool.false_and, Bool.or_true, Bool.or_false, Bool.true_or, Bool.false_or,
      if_true, if_false, Bool.false_eq_true, reduceIte]) <;>
    generalize has_second_ref l = sl <;>
    generalize l.ref_frame 0 = l0 <;>
    generalize l.ref_frame 1 = l1 <;>
    generalize has_second_ref a = sa <;>
    generalize a.ref_frame 0 = a0 <;>
    generalize a.ref_frame 1 = a1 <;>
    cases sa <;> cases sl <;>
    (try simp only [Bool.not_true, Bool.not_false, Bool.and_true, Bool.and_false,
      Bool.true_and, Bool.false_and, Bool.or_true, Bool.or_false, Bool.true_or, Bool.false_or,
      if_true, if_false, Bool.false_eq_true, reduceIte]) <;>
    (try clear a0) <;> (try clear a1) <;> (try clear l0) <;> (try clear l1) <;>
    (try revert a0) <;> (try revert a1) <;> (try revert l0) <;> (try revert l1) <;>
    decide!

theorem ext_single_ref_p3_symm (xd : MACROBLOCKD) :
    vp9_get_pred_context_single_ref_p3 (swapXd xd) =
      vp9_get_pred_context_single_ref_p3 xd := by
  rcases xd with ⟨mi, _ | ⟨⟨a⟩⟩, _ | ⟨⟨l⟩⟩⟩ <;>
    simp only [vp9_get_pred_context_single_ref_p3, get_mbmi, get_above_mi, get_left_mi, swapXd]
  generalize is_inter_block l = il
  generalize is_inter_block a = ia
  cases ia <;> cases il <;>
    (try simp only [Bool.not_true, Bool.not_false, Bool.and_true, Bool.and_false,
      Bool.true_and, Bool.false_and, Bool.or_true, Bool.or_false, Bool.true_or, Bool.false_or,
      if_true, if_false, Bool.false_eq_true, reduceIte]) <;>
    generalize has_second_ref l = sl <;>
    generalize l.ref_frame 0 = l0 <;>
    generalize l.ref_frame 1 = l1 <;>
    generalize has_second_ref a = sa <;>
    generalize a.ref_frame 0 = a0 <;>
    generalize a.ref_frame 1 = a1 <;>
    cases sa <;> cases sl <;>
    (try simp only [Bool.not_true, Bool.not_false, Bool.and_true, Bool.and_false,
      Bool.true_and, Bool.false_and, Bool.or_true, Bool.or_false, Bool.true_or, Bool.false_or,
      if_true, if_false, Bool.false_eq_true, reduceIte]) <;>
    (try clear a0) <;> (try clear a1) <;> (try clear l0) <;> (try clear l1) <;>
    (try revert a0) <;> (try revert a1) <;> (try revert l0) <;> (try revert l1) <;>
    decide!

theorem ext_single_ref_p4_symm (xd : MACROBLOCKD) :
    vp9_get_pred_context_single_ref_p4 (swapXd xd) =
      vp9_get_pred_context_single_ref_p4 xd := by
  rcases xd with ⟨mi, _ | ⟨⟨a⟩⟩, _ | ⟨⟨l⟩⟩⟩ <;>
    simp only [vp9_get_pred_context_single_ref_p4, get_mbmi, get_above_mi, get_left_mi, swapXd]
  generalize is_inter_block l = il
  generalize is_inter_block a = ia
  cases ia <;> cases il <;>
    (try simp only [Bool.not_true, Bool.not_false, Bool.and_true, Bool.and_false,
      Bool.true_and, Bool.false_and, Bool.or_true, Bool.or_false, Bool.true_or, Bool.false_or,
      if_true, if_false, Bool.false_eq_true, reduceIte]) <;>
    generalize has_second_ref l = sl <;>
    generalize l.ref_frame 0 = l0 <;>
    generalize l.ref_frame 1 = l1 <;>
    generalize has_second_ref a = sa <;>
    generalize a.ref_frame 0 = a0 <;>
    generalize a.ref_frame 1 = a1 <;>
    cases sa <;> cases sl <;>
    (try simp only [Bool.not_true, Bool.not_false, Bool.and_true, Bool.and_false,
      Bool.true_and, Bool.false_and, Bool.or_true, Bool.or_false, Bool.true_or, Bool.false_or,
      if_true, if_false, Bool.false_eq_true, reduceIte]) <;>
    (try clear a0) <;> (try clear a1) <;> (try clear l0) <;> (try clear l1) <;>
    (try revert a0) <;> (try revert a1) <;> (try revert l0) <;> (try revert l1) <;>
    decide!

theorem ext_single_ref_p5_symm (xd : MACROBLOCKD) :
    vp9_get_pred_context_single_ref_p5 (swapXd xd) =
      vp9_get_pred_context_single_ref_p5 xd := by
  rcases xd with ⟨mi, _ | ⟨⟨a⟩⟩, _ | ⟨⟨l⟩⟩⟩ <;>
    simp only [vp9_get_pred_context_single_ref_p5, get_mbmi, get_above_mi, get_left_mi, swapXd]
  generalize is_inter_block l = il
  generalize is_inter_block a = ia
  cases ia <;> cases il <;>
    (try simp only [Bool.not_true, Bool.not_false, Bool.and_true, Bool.and_false,
      Bool.true_and, Bool.false_and, Bool.or_true, Bool.or_false, Bool.true_or, Bool.false_or,
      if_true, if_false, Bool.false_eq_true, reduceIte]) <;>
    generalize has_second_ref l = sl <;>
    generalize l.ref_frame 0 = l0 <;>
    generalize l.ref_frame 1 = l1 <;>
    generalize has_second_ref a = sa <;>
    generalize a.ref_frame 0 = a0 <;>
    generalize a.ref_frame 1 = a1 <;>
    cases sa <;> cases sl <;>
    (try simp only [Bool.not_true, Bool.not_false, Bool.and_true, Bool.and_false,
      Bool.true_and, Bool.false_and, Bool.or_true, Bool.or_false, Bool.true_or, Bool.false_or,
      if_true, if_false, Bool.false_eq_true, reduceIte]) <;>
    (try clear a0) <;> (try clear a1) <;> (try clear l0) <;> (try clear l1) <;>
    (try revert a0) <;> (try revert a1) <;> (try revert l0) <;> (try revert l1) <;>
    decide!

end MultiRef

namespace Baseline

theorem base_comp_ref_p_single_single_symm (a l c0 c1 cf : MV_REFERENCE_FRAME) :
    (if (l == a && c1 == l) = true then (0 : Int)
      else if (l == cf && a == c0 || a == cf && l == c0) = true then 4
      else if (l == a) = true then 3 else 1) =
    (if (a == l && c1 == a) = true then (0 : Int)
      else if (a == cf && l == c0 || l == cf && a == c0) = true then 4
      else if (a == l) = true then 3 else 1) := by
  by_cases h : a = l
  · subst h
    simp only [Bool.or_self, beq_self_eq_true, Bool.true_and]
  · have h2 : l ≠ a := fun e => h e.symm
    simp only [beq_eq_false_iff_ne.mpr h, beq_eq_false_iff_ne.mpr h2, Bool.false_and,
      Bool.false_eq_true, if_false, Bool.or_comm]

theorem base_comp_ref_p_symm (cm : VP9_COMMON) (xd : MACROBLOCKD) :
    vp9_get_pred_context_comp_ref_p cm (swapXd xd) = vp9_get_pred_context_comp_ref_p cm xd := by
  rcases xd with ⟨mi, _ | ⟨⟨a⟩⟩, _ | ⟨⟨l⟩⟩⟩ <;>
    simp only [vp9_get_pred_context_comp_ref_p, get_mbmi, get_above_mi, get_left_mi, swapXd]
  generalize lnot (cm.ref_frame_sign_bias cm.comp_fixed_ref) = v
  generalize cm.comp_var_ref 0 = c0
  generalize cm.comp_var_ref 1 = c1
  generalize cm.comp_fixed_ref = cf
  generalize is_inter_block l = il
  generalize is_inter_block a = ia
  cases ia <;> cases il <;>
    (try simp only [Bool.not_true, Bool.not_false, Bool.and_true, Bool.and_false,
      Bool.true_and, Bool.false_and, Bool.or_true, Bool.or_false, Bool.true_or, Bool.false_or,
      if_true, if_false, Bool.false_eq_true, reduceIte]) <;>
    generalize has_second_ref l = sl <;>
    generalize l.ref_frame 0 = l0 <;>
    generalize l.ref_frame v = lv <;>
    generalize has_second_ref a = sa <;>
    generalize a.ref_frame 0 = a0 <;>
    generalize a.ref_frame v = av <;>
    cases sa <;> cases sl <;>
    (try simp only [Bool.not_true, Bool.not_false, Bool.and_true, Bool.and_false,
      Bool.true_and, Bool.false_and, Bool.or_true, Bool.or_false, Bool.true_or, Bool.false_or,
      if_true, if_false, Bool.false_eq_true, reduceIte]) <;>
    first
    | exact base_comp_ref_p_single_single_symm _ _ _ _ _
    | ((try clear a0) <;> (try clear av) <;> (try clear l0) <;> (try clear lv) <;>
       (try clear c0) <;> (try clear c1) <;> (try clear cf) <;>
       (try revert a0) <;> (try revert av) <;> (try revert l0) <;> (try revert lv) <;>
       (try revert c0) <;> (try revert c1) <;> (try revert cf) <;>
       decide!)

theorem base_single_ref_p1_symm (xd : MACROBLOCKD) :
    vp9_get_pred_context_single_ref_p1 (swapXd xd) =
      vp9_get_pred_context_single_ref_p1 xd := by
  rcases xd with ⟨mi, _ | ⟨⟨a⟩⟩, _ | ⟨⟨l⟩⟩⟩ <;>
    simp only [vp9_get_pred_context_single_ref_p1, get_mbmi, get_above_mi, get_left_mi, swapXd]
  generalize is_inter_block l = il
  generalize is_inter_block a = ia
  cases ia <;> cases il <;>
    (try simp only [Bool.not_true, Bool.not_false, Bool.and_true, Bool.and_false,
      Bool.true_and, Bool.false_and, Bool.or_true, Bool.or_false, Bool.true_or, Bool.false_or,
      if_true, if_false, Bool.false_eq_true, reduceIte]) <;>
    generalize has_second_ref l = sl <;>
    generalize l.ref_frame 0 = l0 <;>
    generalize l.ref_frame 1 = l1 <;>
    generalize has_second_ref a = sa <;>
    generalize a.ref_frame 0 = a0 <;>
    generalize a.ref_frame 1 = a1 <;>
    cases sa <;> cases sl <;>
    (try simp only [Bool.not_true, Bool.not_false, Bool.and_true, Bool.and_false,
      Bool.true_and, Bool.false_and, Bool.or_true, Bool.or_false, Bool.true_or, Bool.false_or,
      if_true, if_false, Bool.false_eq_true, reduceIte]) <;>
    (try clear a0) <;> (try clear a1) <;> (try clear l0) <;> (try clear l1) <;>
    (try revert a0) <;> (try revert a1) <;> (try revert l0) <;> (try revert l1) <;>
    decide!

theorem base_single_ref_p2_symm (xd : MACROBLOCKD) :
    vp9_get_pred_context_single_ref_p2 (swapXd xd) =
      vp9_get_pred_context_single_ref_p2 xd := by
  rcases xd with ⟨mi, _ | ⟨⟨a⟩⟩, _ | ⟨⟨l⟩⟩⟩ <;>
    simp only [vp9_get_pred_context_single_ref_p2, get_mbmi, get_above_mi, get_left_mi, swapXd]
  generalize is_inter_block l = il
  generalize is_inter_block a = ia
  cases ia <;> cases il <;>
    (try simp only [Bool.not_true, Bool.not_false, Bool.and_true, Bool.and_false,
      Bool.true_and, Bool.false_and, Bool.or_true, Bool.or_false, Bool.true_or, Bool.false_or,
      if_true, if_false, Bool.false_eq_true, reduceIte]) <;>
    generalize has_second_ref l = sl <;>
    generalize l.ref_frame 0 = l0 <;>
    generalize l.ref_frame 1 = l1 <;>
    generalize has_second_ref a = sa <;>
    generalize a.ref_frame 0 = a0 <;>
    generalize a.ref_frame 1 = a1 <;>
    cases sa <;> cases sl <;>
    (try simp only [Bool.not_true, Bool.not_false, Bool.and_true, Bool.and_false,
      Bool.true_and, Bool.false_and, Bool.or_true, Bool.or_false, Bool.true_or, Bool.false_or,
      if_true, if_false, Bool.false_eq_true, reduceIte]) <;>
    (try clear a0) <;> (try clear a1) <;> (try clear l0) <;> (try clear l1) <;>
    (try revert a0) <;> (try revert a1) <;> (try revert l0) <;> (try revert l1) <;>
    decide!

end Baseline

theorem intra_inter_symm (xd : MACROBLOCKD) :
    vp9_get_intra_inter_context (swapXd xd) = vp9_get_intra_inter_context xd := by
  rcases xd with ⟨mi, _ | ⟨⟨a⟩⟩, _ | ⟨⟨l⟩⟩⟩ <;>
    simp only [vp9_get_intra_inter_context, get_mbmi, get_above_mi, get_left_mi, swapXd]
  generalize is_inter_block l = il
  generalize is_inter_block a = ia
  revert ia il
  decide

theorem reference_mode_symm (cm : VP9_COMMON) (xd : MACROBLOCKD) :
    vp9_get_reference_mode_context cm (swapXd xd) = vp9_get_reference_mode_context cm xd := by
  rcases xd with ⟨mi, _ | ⟨⟨a⟩⟩, _ | ⟨⟨l⟩⟩⟩ <;>
    simp only [vp9_get_reference_mode_context, get_mbmi, get_above_mi, get_left_mi, swapXd]
  generalize is_inter_block l = il
  generalize is_inter_block a = ia
  generalize has_second_ref l = sl
  generalize has_second_ref a = sa
  generalize (l.ref_frame 0 == cm.comp_fixed_ref) = el
  generalize (a.ref_frame 0 == cm.comp_fixed_ref) = ea
  revert ia il sa sl ea el
  decide

/-- C3: each compound-reference context function (extended `comp_ref_p`, `_p1`, `_p2`, `_p3` and
baseline `comp_ref_p`) returns the same context when the above and the left neighbour entries,
present or absent, are exchanged, for every role configuration. -/
theorem C3_comp_ref_symmetric (cm : VP9_COMMON) (mi : MODE_INFO) (a l : Option MODE_INFO) :
    MultiRef.vp9_get_pred_context_comp_ref_p cm ⟨mi, a, l⟩ =
      MultiRef.vp9_get_pred_context_comp_ref_p cm ⟨mi, l, a⟩ ∧
    MultiRef.vp9_get_pred_context_comp_ref_p1 cm ⟨mi, a, l⟩ =
      MultiRef.vp9_get_pred_context_comp_ref_p1 cm ⟨mi, l, a⟩ ∧
    MultiRef.vp9_get_pred_context_comp_ref_p2 cm ⟨mi, a, l⟩ =
      MultiRef.vp9_get_pred_context_comp_ref_p2 cm ⟨mi, l, a⟩ ∧
    MultiRef.vp9_get_pred_context_comp_ref_p3 cm ⟨mi, a, l⟩ =
      MultiRef.vp9_get_pred_context_comp_ref_p3 cm ⟨mi, l, a⟩ ∧
    Baseline.vp9_get_pred_context_comp_ref_p cm ⟨mi, a, l⟩ =
      Baseline.vp9_get_pred_context_comp_ref_p cm ⟨mi, l, a⟩ :=
  ⟨MultiRef.ext_comp_ref_p_symm cm ⟨mi, l, a⟩, MultiRef.ext_comp_ref_p1_symm cm ⟨mi, l, a⟩,
   MultiRef.ext_comp_ref_p2_symm cm ⟨mi, l, a⟩, MultiRef.ext_comp_ref_p3_symm cm ⟨mi, l, a⟩,
   Baseline.base_comp_ref_p_symm cm ⟨mi, l, a⟩⟩

/-- C4: each single-reference context function (extended `single_ref_p1` to `_p5` and baseline
`single_ref_p1`, `_p2`) returns the same context when the above and the left neighbour entries,
present or absent, are exchanged. -/
theorem C4_single_ref_symmetric (mi : MODE_INFO) (a l : Option MODE_INFO) :
    MultiRef.vp9_get_pred_context_single_ref_p1 ⟨mi, a, l⟩ =
      MultiRef.vp9_get_pred_context_single_ref_p1 ⟨mi, l, a⟩ ∧
    MultiRef.vp9_get_pred_context_single_ref_p2 ⟨mi, a, l⟩ =
      MultiRef.vp9_get_pred_context_single_ref_p2 ⟨mi, l, a⟩ ∧
    MultiRef.vp9_get_pred_context_single_ref_p3 ⟨mi, a, l⟩ =
      MultiRef.vp9_get_pred_context_single_ref_p3 ⟨mi, l, a⟩ ∧
    MultiRef.vp9_get_pred_context_single_ref_p4 ⟨mi, a, l⟩ =
      MultiRef.vp9_get_pred_context_single_ref_p4 ⟨mi, l, a⟩ ∧
    MultiRef.vp9_get_pred_context_single_ref_p5 ⟨mi, a, l⟩ =
      MultiRef.vp9_get_pred_context_single_ref_p5 ⟨mi, l, a⟩ ∧
    Baseline.vp9_get_pred_context_single_ref_p1 ⟨mi, a, l⟩ =
      Baseline.vp9_get_pred_context_single_ref_p1 ⟨mi, l, a⟩ ∧
    Baseline.vp9_get_pred_context_single_ref_p2 ⟨mi, a, l⟩ =
      Baseline.vp9_get_pred_context_single_ref_p2 ⟨mi, l, a⟩ :=
  ⟨MultiRef.ext_single_ref_p1_symm ⟨mi, l, a⟩, MultiRef.ext_single_ref_p2_symm ⟨mi, l, a⟩,
   MultiRef.ext_single_ref_p3_symm ⟨mi, l, a⟩, MultiRef.ext_single_ref_p4_symm ⟨mi, l, a⟩,
   MultiRef.ext_single_ref_p5_symm ⟨mi, l, a⟩, Baseline.base_single_ref_p1_symm ⟨mi, l, a⟩,
   Baseline.base_single_ref_p2_symm ⟨mi, l, a⟩⟩

/-- C5: the intra/inter context and the reference-mode context are each unchanged when the
above and the left neighbour entries, present or absent, are exchanged, for every role
configuration. -/
theorem C5_intra_inter_reference_mode_symmetric (cm : VP9_COMMON) (mi : MODE_INFO)
    (a l : Option MODE_INFO) :
    vp9_get_intra_inter_context ⟨mi, a, l⟩ = vp9_get_intra_inter_context ⟨mi, l, a⟩ ∧
    vp9_get_reference_mode_context cm ⟨mi, a, l⟩ =
      vp9_get_reference_mode_context cm ⟨mi, l, a⟩ :=
  ⟨intra_inter_symm ⟨mi, l, a⟩, reference_mode_symm cm ⟨mi, l, a⟩⟩

/-! ## Intra/inter and reference-mode tables -/

/-- C6: the intra/inter context is the documented table: it is 3 exactly when both neighbours
are present and intra, 1 exactly when both are present and exactly one is intra, 2 exactly when
one neighbour is present and intra and the other is absent, and 0 exactly in the remaining
cases (both inter, one inter and one absent, or both absent). -/
theorem C6_intra_inter_table (xd : MACROBLOCKD) :
    (vp9_get_intra_inter_context xd = 3 ↔
      isIntraNb (get_above_mi xd) ∧ isIntraNb (get_left_mi xd)) ∧
    (vp9_get_intra_inter_context xd = 1 ↔
      (isIntraNb (get_above_mi xd) ∧ isInterNb (get_left_mi xd)) ∨
      (isInterNb (get_above_mi xd) ∧ isIntraNb (get_left_mi xd))) ∧
    (vp9_get_intra_inter_context xd = 2 ↔
      (isIntraNb (get_above_mi xd) ∧ get_left_mi xd = none) ∨
      (get_above_mi xd = none ∧ isIntraNb (get_left_mi xd))) ∧
    (vp9_get_intra_inter_context xd = 0 ↔
      (isInterNb (get_above_mi xd) ∧ isInterNb (get_left_mi xd)) ∨
      (isInterNb (get_above_mi xd) ∧ get_left_mi xd = none) ∨
      (get_above_mi xd = none ∧ isInterNb (get_left_mi xd)) ∨
      (get_above_mi xd = none ∧ get_left_mi xd = none)) := by
  rcases xd with ⟨mi, _ | ⟨⟨a⟩⟩, _ | ⟨⟨l⟩⟩⟩ <;>
    simp only [vp9_get_intra_inter_context, get_mbmi, get_above_mi, get_left_mi, isIntraNb,
      isInterNb]
  · simp
  · cases hl : is_inter_block l <;> simp [b2i, hl]
  · cases ha : is_inter_block a <;> simp [b2i, ha]
  · cases ha : is_inter_block a <;> cases hl : is_inter_block l <;> simp [b2i, ha, hl]

/-- C7: in the reference-mode context with both neighbours present, when neither neighbour is
compound the context is the exclusive-or of the two tests that the first reference equals
`cm.comp_fixed_ref` (0 when both or neither match, 1 when exactly one matches), and when both
neighbours are compound the context is 4. -/
theorem C7_reference_mode_both_alike (cm : VP9_COMMON) (mi a l : MODE_INFO)
    (h : has_second_ref a.mbmi = has_second_ref l.mbmi) :
    vp9_get_reference_mode_context cm ⟨mi, some a, some l⟩ =
      if has_second_ref a.mbmi = true then 4
      else if (a.mbmi.ref_frame 0 = cm.comp_fixed_ref ↔ l.mbmi.ref_frame 0 = cm.comp_fixed_ref)
        then 0 else 1 := by
  simp only [vp9_get_reference_mode_context, get_mbmi, get_above_mi, get_left_mi, ← h]
  cases has_second_ref a.mbmi
  · by_cases h1 : a.mbmi.ref_frame 0 = cm.comp_fixed_ref <;>
      by_cases h2 : l.mbmi.ref_frame 0 = cm.comp_fixed_ref <;> simp [h1, h2, b2i]
  · simp

/-- Witness for C7: above refers to `LAST_FRAME`, left to `ALTREF_FRAME`, both with a single
reference, and the fixed reference is `ALTREF_FRAME`. -/
theorem C7_reference_mode_both_alike_witness :
    has_second_ref (mkMi LAST_FRAME NONE).mbmi = has_second_ref (mkMi ALTREF_FRAME NONE).mbmi ∧
    vp9_get_reference_mode_context (mkCm ALTREF_FRAME LAST_FRAME GOLDEN_FRAME 1)
      ⟨mkMi INTRA_FRAME NONE, some (mkMi LAST_FRAME NONE), some (mkMi ALTREF_FRAME NONE)⟩ =
      if has_second_ref (mkMi LAST_FRAME NONE).mbmi = true then 4
      else if ((mkMi LAST_FRAME NONE).mbmi.ref_frame 0 =
          (mkCm ALTREF_FRAME LAST_FRAME GOLDEN_FRAME 1).comp_fixed_ref ↔
        (mkMi ALTREF_FRAME NONE).mbmi.ref_frame 0 =
          (mkCm ALTREF_FRAME LAST_FRAME GOLDEN_FRAME 1).comp_fixed_ref)
        then 0 else 1 :=
  ⟨rfl, C7_reference_mode_both_alike (mkCm ALTREF_FRAME LAST_FRAME GOLDEN_FRAME 1)
    (mkMi INTRA_FRAME NONE) (mkMi LAST_FRAME NONE) (mkMi ALTREF_FRAME NONE) rfl⟩

/-- C8 fails as stated: with the fixed reference `ALTREF_FRAME`, an intra above neighbour (not
compound, first reference `INTRA_FRAME`, which differs from the fixed reference) and a compound
left neighbour, the context is 3 and not `2 + 0`. -/
theorem C8_counterexample :
    has_second_ref (mkMi INTRA_FRAME NONE).mbmi = false ∧
    has_second_ref (mkMi LAST_FRAME ALTREF_FRAME).mbmi = true ∧
    (mkMi INTRA_FRAME NONE).mbmi.ref_frame 0 ≠
      (mkCm ALTREF_FRAME LAST_FRAME GOLDEN_FRAME 1).comp_fixed_ref ∧
    vp9_get_reference_mode_context (mkCm ALTREF_FRAME LAST_FRAME GOLDEN_FRAME 1)
      (mkXd (some (mkMi INTRA_FRAME NONE)) (some (mkMi LAST_FRAME ALTREF_FRAME))) = 3 ∧
    vp9_get_reference_mode_context (mkCm ALTREF_FRAME LAST_FRAME GOLDEN_FRAME 1)
      (mkXd (some (mkMi INTRA_FRAME NONE)) (some (mkMi LAST_FRAME ALTREF_FRAME))) ≠
      2 + b2i ((mkMi INTRA_FRAME NONE).mbmi.ref_frame 0 ==
        (mkCm ALTREF_FRAME LAST_FRAME GOLDEN_FRAME 1).comp_fixed_ref) := by
  decide

/-- C8 (amended): in the reference-mode context with both neighbours present and exactly one of
them compound, the context is `2 + m`, where `m` is 1 if the non-compound neighbour's first
reference equals `cm.comp_fixed_ref` or the non-compound neighbour is intra, and 0 otherwise;
this holds whichever side the compound neighbour is on. -/
theorem C8_reference_mode_one_compound (cm : VP9_COMMON) (mi s c : MODE_INFO)
    (hs : has_second_ref s.mbmi = false) (hc : has_second_ref c.mbmi = true) :
    vp9_get_reference_mode_context cm ⟨mi, some s, some c⟩ =
      2 + b2i (s.mbmi.ref_frame 0 == cm.comp_fixed_ref || !is_inter_block s.mbmi) ∧
    vp9_get_reference_mode_context cm ⟨mi, some c, some s⟩ =
      2 + b2i (s.mbmi.ref_frame 0 == cm.comp_fixed_ref || !is_inter_block s.mbmi) := by
  simp [vp9_get_reference_mode_context, get_mbmi, get_above_mi, get_left_mi, hs, hc]

/-- Witness for the amended C8: an intra neighbour next to a compound one, in both orders. -/
theorem C8_reference_mode_one_compound_witness :
    has_second_ref (mkMi INTRA_FRAME NONE).mbmi = false ∧
    has_second_ref (mkMi LAST_FRAME ALTREF_FRAME).mbmi = true ∧
    vp9_get_reference_mode_context (mkCm ALTREF_FRAME LAST_FRAME GOLDEN_FRAME 1)
      ⟨mkMi INTRA_FRAME NONE, some (mkMi INTRA_FRAME NONE), some (mkMi LAST_FRAME ALTREF_FRAME)⟩ =
      2 + b2i ((mkMi INTRA_FRAME NONE).mbmi.ref_frame 0 ==
        (mkCm ALTREF_FRAME LAST_FRAME GOLDEN_FRAME 1).comp_fixed_ref ||
        !is_inter_block (mkMi INTRA_FRAME NONE).mbmi) ∧
    vp9_get_reference_mode_context (mkCm ALTREF_FRAME LAST_FRAME GOLDEN_FRAME 1)
      ⟨mkMi INTRA_FRAME NONE, some (mkMi LAST_FRAME ALTREF_FRAME), some (mkMi INTRA_FRAME NONE)⟩ =
      2 + b2i ((mkMi INTRA_FRAME NONE).mbmi.ref_frame 0 ==
        (mkCm ALTREF_FRAME LAST_FRAME GOLDEN_FRAME 1).comp_fixed_ref ||
        !is_inter_block (mkMi INTRA_FRAME NONE).mbmi) :=
  ⟨rfl, rfl, C8_reference_mode_one_compound (mkCm ALTREF_FRAME LAST_FRAME GOLDEN_FRAME 1)
    (mkMi INTRA_FRAME NONE) (mkMi INTRA_FRAME NONE) (mkMi LAST_FRAME ALTREF_FRAME) rfl rfl⟩

/-! ## Range of the remaining contexts -/

theorem reference_mode_range (cm : VP9_COMMON) (xd : MACROBLOCKD) :
    0 ≤ vp9_get_reference_mode_context cm xd ∧
      vp9_get_reference_mode_context cm xd < COMP_INTER_CONTEXTS := by
  rcases xd with ⟨mi, _ | ⟨⟨a⟩⟩, _ | ⟨⟨l⟩⟩⟩ <;>
    simp only [vp9_get_reference_mode_context, get_mbmi, get_above_mi, get_left_mi,
      COMP_INTER_CONTEXTS] <;>
    repeat' (first | apply ite_range | decide | (simp only [b2i]; split_ifs <;> decide))

theorem intra_inter_range (xd : MACROBLOCKD) :
    0 ≤ vp9_get_intra_inter_context xd ∧ vp9_get_intra_inter_context xd < 4 := by
  rcases xd with ⟨mi, _ | ⟨⟨a⟩⟩, _ | ⟨⟨l⟩⟩⟩ <;>
    simp only [vp9_get_intra_inter_context, get_mbmi, get_above_mi, get_left_mi] <;>
    repeat' (first | apply ite_range | decide | (simp only [b2i]; split_ifs <;> decide))

theorem copy_mode_range (NOREF : Int) (xd : MACROBLOCKD) :
    0 ≤ vp9_get_copy_mode_context NOREF xd ∧ vp9_get_copy_mode_context NOREF xd < 5 := by
  rcases xd with ⟨mi, _ | ⟨⟨a⟩⟩, _ | ⟨⟨l⟩⟩⟩ <;>
    simp only [vp9_get_copy_mode_context, get_mbmi, get_above_mi, get_left_mi] <;>
    repeat' (first | apply ite_range | decide)

theorem switchable_interp_range (SWITCHABLE_FILTERS : Int) (xd : MACROBLOCKD)
    (hS : 0 ≤ SWITCHABLE_FILTERS)
    (ha : ∀ m, get_mbmi (get_above_mi xd) = some m → is_inter_block m = true →
      0 ≤ m.interp_filter ∧ m.interp_filter ≤ SWITCHABLE_FILTERS)
    (hl : ∀ m, get_mbmi (get_left_mi xd) = some m → is_inter_block m = true →
      0 ≤ m.interp_filter ∧ m.interp_filter ≤ SWITCHABLE_FILTERS) :
    0 ≤ vp9_get_pred_context_switchable_interp SWITCHABLE_FILTERS xd ∧
      vp9_get_pred_context_switchable_interp SWITCHABLE_FILTERS xd ≤ SWITCHABLE_FILTERS := by
  have hA : ∀ x, x = (match get_mbmi (get_above_mi xd) with
      | some above_mbmi => if is_inter_block above_mbmi then above_mbmi.interp_filter
                           else SWITCHABLE_FILTERS
      | none => SWITCHABLE_FILTERS) → 0 ≤ x ∧ x ≤ SWITCHABLE_FILTERS := by
    intro x hx
    cases hm : get_mbmi (get_above_mi xd) with
    | none => rw [hm] at hx; subst hx; exact ⟨hS, le_refl _⟩
    | some m =>
      rw [hm] at hx
      simp only at hx
      by_cases hi : is_inter_block m = true
      · rw [if_pos hi] at hx; subst hx; exact ha m hm hi
      · rw [if_neg hi] at hx; subst hx; exact ⟨hS, le_refl _⟩
  have hL : ∀ x, x = (match get_mbmi (get_left_mi xd) with
      | some left_mbmi => if is_inter_block left_mbmi then left_mbmi.interp_filter
                          else SWITCHABLE_FILTERS
      | none => SWITCHABLE_FILTERS) → 0 ≤ x ∧ x ≤ SWITCHABLE_FILTERS := by
    intro x hx
    cases hm : get_mbmi (get_left_mi xd) with
    | none => rw [hm] at hx; subst hx; exact ⟨hS, le_refl _⟩
    | some m =>
      rw [hm] at hx
      simp only at hx
      by_cases hi : is_inter_block m = true
      · rw [if_pos hi] at hx; subst hx; exact hl m hm hi
      · rw [if_neg hi] at hx; subst hx; exact ⟨hS, le_refl _⟩
  have h1 := hA _ rfl
  have h2 := hL _ rfl
  unfold vp9_get_pred_context_switchable_interp
  simp only []
  split_ifs <;> first | exact h1 | exact h2 | exact ⟨hS, le_refl _⟩

/-- C9: the contexts that are not per-reference-frame stay in their ranges for every state of
the neighbours: the reference-mode context lies in `[0, COMP_INTER_CONTEXTS)`, the intra/inter
context in `[0, 4)`, the transform-size context is 0 or 1, the copy-mode context lies in
`[0, 5)`, and the switchable-interpolation context lies in `[0, SWITCHABLE_FILTERS]` provided
`SWITCHABLE_FILTERS` is not negative and the `interp_filter` of every inter neighbour lies in
`[0, SWITCHABLE_FILTERS]`. -/
theorem C9_other_contexts_in_range (cm : VP9_COMMON) (max_txsize_lookup : Nat → Int)
    (SWITCHABLE_FILTERS NOREF : Int) (xd : MACROBLOCKD)
    (hS : 0 ≤ SWITCHABLE_FILTERS)
    (ha : ∀ m, get_mbmi (get_above_mi xd) = some m → is_inter_block m = true →
      0 ≤ m.interp_filter ∧ m.interp_filter ≤ SWITCHABLE_FILTERS)
    (hl : ∀ m, get_mbmi (get_left_mi xd) = some m → is_inter_block m = true →
      0 ≤ m.interp_filter ∧ m.interp_filter ≤ SWITCHABLE_FILTERS) :
    (0 ≤ vp9_get_reference_mode_context cm xd ∧
      vp9_get_reference_mode_context cm xd < COMP_INTER_CONTEXTS) ∧
    (0 ≤ vp9_get_intra_inter_context xd ∧ vp9_get_intra_inter_context xd < 4) ∧
    (vp9_get_tx_size_context max_txsize_lookup xd = 0 ∨
      vp9_get_tx_size_context max_txsize_lookup xd = 1) ∧
    (0 ≤ vp9_get_copy_mode_context NOREF xd ∧ vp9_get_copy_mode_context NOREF xd < 5) ∧
    (0 ≤ vp9_get_pred_context_switchable_interp SWITCHABLE_FILTERS xd ∧
      vp9_get_pred_context_switchable_interp SWITCHABLE_FILTERS xd ≤ SWITCHABLE_FILTERS) :=
  ⟨reference_mode_range cm xd, intra_inter_range xd, b2i_eq _, copy_mode_range NOREF xd,
   switchable_interp_range SWITCHABLE_FILTERS xd hS ha hl⟩

/-- Witness for C9: an inter above neighbour with interpolation filter 2, no left neighbour,
`SWITCHABLE_FILTERS = 3`. -/
theorem C9_other_contexts_in_range_witness :
    (0 : Int) ≤ 3 ∧
    (0 ≤ vp9_get_reference_mode_context (mkCm ALTREF_FRAME LAST_FRAME GOLDEN_FRAME 1)
        (mkXd (some ⟨mkInterMbmi LAST_FRAME 2⟩) none) ∧
      vp9_get_reference_mode_context (mkCm ALTREF_FRAME LAST_FRAME GOLDEN_FRAME 1)
        (mkXd (some ⟨mkInterMbmi LAST_FRAME 2⟩) none) < COMP_INTER_CONTEXTS) ∧
    (0 ≤ vp9_get_intra_inter_context (mkXd (some ⟨mkInterMbmi LAST_FRAME 2⟩) none) ∧
      vp9_get_intra_inter_context (mkXd (some ⟨mkInterMbmi LAST_FRAME 2⟩) none) < 4) ∧
    (vp9_get_tx_size_context (fun _ => 3) (mkXd (some ⟨mkInterMbmi LAST_FRAME 2⟩) none) = 0 ∨
      vp9_get_tx_size_context (fun _ => 3) (mkXd (some ⟨mkInterMbmi LAST_FRAME 2⟩) none) = 1) ∧
    (0 ≤ vp9_get_copy_mode_context 0 (mkXd (some ⟨mkInterMbmi LAST_FRAME 2⟩) none) ∧
      vp9_get_copy_mode_context 0 (mkXd (some ⟨mkInterMbmi LAST_FRAME 2⟩) none) < 5) ∧
    (0 ≤ vp9_get_pred_context_switchable_interp 3 (mkXd (some ⟨mkInterMbmi LAST_FRAME 2⟩) none) ∧
      vp9_get_pred_context_switchable_interp 3 (mkXd (some ⟨mkInterMbmi LAST_FRAME 2⟩) none) ≤ 3) :=
  ⟨by decide,
   C9_other_contexts_in_range (mkCm ALTREF_FRAME LAST_FRAME GOLDEN_FRAME 1) (fun _ => 3) 3 0
    (mkXd (some ⟨mkInterMbmi LAST_FRAME 2⟩) none) (by decide)
    (fun m hm _ => by
      have e : mkInterMbmi LAST_FRAME 2 = m := Option.some.inj hm
      subst e
      decide)
    (fun m hm _ => by cases hm)⟩

/-! ## Switchable interpolation filter -/

theorem knownFilter_ne (SWITCHABLE_FILTERS : Int) (n : Option MODE_INFO) (x : Int)
    (h : knownFilter SWITCHABLE_FILTERS n = some x) : x ≠ SWITCHABLE_FILTERS := by
  rcases n with _ | ⟨⟨m⟩⟩
  · simp [knownFilter] at h
  · simp only [knownFilter] at h
    split_ifs at h with hc
    cases h
    exact hc.2

theorem neighbour_type_eq (SWITCHABLE_FILTERS : Int) (n : Option MODE_INFO) :
    (match get_mbmi n with
      | some m => if is_inter_block m then m.interp_filter else SWITCHABLE_FILTERS
      | none => SWITCHABLE_FILTERS) = (knownFilter SWITCHABLE_FILTERS n).getD SWITCHABLE_FILTERS := by
  rcases n with _ | ⟨⟨m⟩⟩
  · rfl
  · simp only [get_mbmi, knownFilter]
    by_cases hi : is_inter_block m = true
    · by_cases hf : m.interp_filter = SWITCHABLE_FILTERS
      · simp [hi, hf]
      · simp [hi, hf]
    · simp [hi]

theorem knownFilter_dropIntra (SWITCHABLE_FILTERS : Int) (n : Option MODE_INFO) :
    knownFilter SWITCHABLE_FILTERS (dropIntra n) = knownFilter SWITCHABLE_FILTERS n := by
  rcases n with _ | ⟨⟨m⟩⟩
  · rfl
  · simp only [dropIntra]
    by_cases hi : is_inter_block m = true
    · simp [hi]
    · simp [hi, knownFilter]

theorem switchable_interp_eq_spec (SWITCHABLE_FILTERS : Int) (xd : MACROBLOCKD) :
    vp9_get_pred_context_switchable_interp SWITCHABLE_FILTERS xd =
      switchable_interp_spec SWITCHABLE_FILTERS (knownFilter SWITCHABLE_FILTERS (get_above_mi xd))
        (knownFilter SWITCHABLE_FILTERS (get_left_mi xd)) := by
  simp only [vp9_get_pred_context_switchable_interp, neighbour_type_eq]
  rcases ha : knownFilter SWITCHABLE_FILTERS (get_above_mi xd) with _ | x <;>
    rcases hl : knownFilter SWITCHABLE_FILTERS (get_left_mi xd) with _ | y <;>
    simp only [Option.getD, switchable_interp_spec]
  · simp
  · have := knownFilter_ne _ _ _ hl
    simp [this]
  · have := knownFilter_ne _ _ _ ha
    simp [this]
  · have h1 := knownFilter_ne _ _ _ ha
    have h2 := knownFilter_ne _ _ _ hl
    by_cases hxy : x = y
    · simp [hxy]
    · have hyx : ¬ y = x := fun e => hxy e.symm
      simp [hxy, hyx, h1, h2]

/-- C10: the switchable-interpolation context is the documented function of the known filters
of the two neighbours (the common filter when both are known and equal, the known one when
exactly one is known, `SWITCHABLE_FILTERS` when both are known and differ or none is known),
and replacing intra neighbours by absent ones does not change it. -/
theorem C10_switchable_interp_table (SWITCHABLE_FILTERS : Int) (mi : MODE_INFO)
    (a l : Option MODE_INFO) :
    vp9_get_pred_context_switchable_interp SWITCHABLE_FILTERS ⟨mi, a, l⟩ =
      switchable_interp_spec SWITCHABLE_FILTERS (knownFilter SWITCHABLE_FILTERS a)
        (knownFilter SWITCHABLE_FILTERS l) ∧
    vp9_get_pred_context_switchable_interp SWITCHABLE_FILTERS ⟨mi, a, l⟩ =
      vp9_get_pred_context_switchable_interp SWITCHABLE_FILTERS
        ⟨mi, dropIntra a, dropIntra l⟩ := by
  refine ⟨switchable_interp_eq_spec _ _, ?_⟩
  rw [switchable_interp_eq_spec, switchable_interp_eq_spec]
  simp only [get_above_mi, get_left_mi, knownFilter_dropIntra]

/-! ## Transform-size context -/

theorem tx_size_both_present (max_txsize_lookup : Nat → Int) (mi a l : MODE_INFO) :
    vp9_get_tx_size_context max_txsize_lookup ⟨mi, some a, some l⟩ =
      if effTx (max_txsize_lookup mi.mbmi.sb_type) a.mbmi +
          effTx (max_txsize_lookup mi.mbmi.sb_type) l.mbmi > max_txsize_lookup mi.mbmi.sb_type
      then 1 else 0 := by
  by_cases ha : a.mbmi.skip = true <;> by_cases hl : l.mbmi.skip = true <;>
    simp [vp9_get_tx_size_context, get_mbmi, get_above_mi, get_left_mi, effTx, b2i, ha, hl]

theorem tx_size_above_only (max_txsize_lookup : Nat → Int) (mi m : MODE_INFO) :
    vp9_get_tx_size_context max_txsize_lookup ⟨mi, some m, none⟩ =
      if 2 * effTx (max_txsize_lookup mi.mbmi.sb_type) m.mbmi > max_txsize_lookup mi.mbmi.sb_type
      then 1 else 0 := by
  by_cases hm : m.mbmi.skip = true <;>
    simp [vp9_get_tx_size_context, get_mbmi, get_above_mi, get_left_mi, effTx, b2i, hm, two_mul]

theorem tx_size_left_only (max_txsize_lookup : Nat → Int) (mi m : MODE_INFO) :
    vp9_get_tx_size_context max_txsize_lookup ⟨mi, none, some m⟩ =
      if 2 * effTx (max_txsize_lookup mi.mbmi.sb_type) m.mbmi > max_txsize_lookup mi.mbmi.sb_type
      then 1 else 0 := by
  by_cases hm : m.mbmi.skip = true <;>
    simp [vp9_get_tx_size_context, get_mbmi, get_above_mi, get_left_mi, effTx, b2i, hm, two_mul]

theorem tx_size_none (max_txsize_lookup : Nat → Int) (mi : MODE_INFO) :
    vp9_get_tx_size_context max_txsize_lookup ⟨mi, none, none⟩ =
      if 0 < max_txsize_lookup mi.mbmi.sb_type then 1 else 0 := by
  simp [vp9_get_tx_size_context, get_mbmi, get_above_mi, get_left_mi, b2i]

/-- C11 fails as stated: with `max_tx_size = 3` and both neighbours present and skipped, the
transform-size context is 1, not 0. -/
theorem C11_counterexample :
    (mkTxMbmi true 0).skip = true ∧
    vp9_get_tx_size_context (fun _ => 3)
      (mkXd (some ⟨mkTxMbmi true 0⟩) (some ⟨mkTxMbmi true 0⟩)) = 1 ∧
    vp9_get_tx_size_context (fun _ => 3)
      (mkXd (some ⟨mkTxMbmi true 0⟩) (some ⟨mkTxMbmi true 0⟩)) ≠ 0 := by
  decide

/-- C11 (amended): with both neighbours present and both skipped, the transform-size context is
1 when the `max_tx_size` of the current block is positive and 0 when it is zero (or less). -/
theorem C11_tx_size_both_skipped (max_txsize_lookup : Nat → Int) (mi a l : MODE_INFO)
    (ha : a.mbmi.skip = true) (hl : l.mbmi.skip = true) :
    vp9_get_tx_size_context max_txsize_lookup ⟨mi, some a, some l⟩ =
      if 0 < max_txsize_lookup mi.mbmi.sb_type then 1 else 0 := by
  rw [tx_size_both_present]
  simp [effTx, ha, hl]

/-- Witness for the amended C11: both neighbours skipped, `max_tx_size = 3`. -/
theorem C11_tx_size_both_skipped_witness :
    (mkTxMbmi true 0).skip = true ∧
    vp9_get_tx_size_context (fun _ => 3)
      ⟨mkMi INTRA_FRAME NONE, some ⟨mkTxMbmi true 0⟩, some ⟨mkTxMbmi true 0⟩⟩ =
      if 0 < (fun _ => (3 : Int)) (mkMi INTRA_FRAME NONE).mbmi.sb_type then 1 else 0 :=
  ⟨rfl, C11_tx_size_both_skipped (fun _ => 3) (mkMi INTRA_FRAME NONE) ⟨mkTxMbmi true 0⟩
    ⟨mkTxMbmi true 0⟩ rfl rfl⟩

/-- C12 fails as stated: with `max_tx_size = 3` and both neighbours absent, the transform-size
context is 1, not 0. -/
theorem C12_counterexample :
    vp9_get_tx_size_context (fun _ => 3) (mkXd none none) = 1 ∧
    vp9_get_tx_size_context (fun _ => 3) (mkXd none none) ≠ 0 := by
  decide

/-- C12 (amended): with both neighbours absent, the transform-size context is 1 when the
`max_tx_size` of the current block is positive and 0 when it is zero (or less). -/
theorem C12_tx_size_both_absent (max_txsize_lookup : Nat → Int) (mi : MODE_INFO) :
    vp9_get_tx_size_context max_txsize_lookup ⟨mi, none, none⟩ =
      if 0 < max_txsize_lookup mi.mbmi.sb_type then 1 else 0 :=
  tx_size_none max_txsize_lookup mi

/-- C13: with exactly one neighbour present, on either side, the transform-size context is 1
exactly when twice the effective size of that neighbour exceeds `max_tx_size`, and 0 otherwise;
in particular when the neighbour is not skipped and its `tx_size` equals `max_tx_size`, the
context is 1 when `max_tx_size` is positive and 0 when it is zero. -/
theorem C13_tx_size_one_neighbour (max_txsize_lookup : Nat → Int) (mi m : MODE_INFO) :
    (vp9_get_tx_size_context max_txsize_lookup ⟨mi, some m, none⟩ =
      if 2 * effTx (max_txsize_lookup mi.mbmi.sb_type) m.mbmi >
        max_txsize_lookup mi.mbmi.sb_type then 1 else 0) ∧
    (vp9_get_tx_size_context max_txsize_lookup ⟨mi, none, some m⟩ =
      if 2 * effTx (max_txsize_lookup mi.mbmi.sb_type) m.mbmi >
        max_txsize_lookup mi.mbmi.sb_type then 1 else 0) ∧
    (m.mbmi.skip = false → (m.mbmi.tx_size : Int) = max_txsize_lookup mi.mbmi.sb_type →
      (vp9_get_tx_size_context max_txsize_lookup ⟨mi, some m, none⟩ =
        if 0 < max_txsize_lookup mi.mbmi.sb_type then 1 else 0) ∧
      (vp9_get_tx_size_context max_txsize_lookup ⟨mi, none, some m⟩ =
        if 0 < max_txsize_lookup mi.mbmi.sb_type then 1 else 0)) := by
  refine ⟨tx_size_above_only _ _ _, tx_size_left_only _ _ _, fun hs ht => ?_⟩
  rw [tx_size_above_only, tx_size_left_only]
  simp only [effTx, hs, ht, Bool.false_eq_true, if_false]
  have e : (2 * max_txsize_lookup mi.mbmi.sb_type > max_txsize_lookup mi.mbmi.sb_type) ↔
      0 < max_txsize_lookup mi.mbmi.sb_type := by
    constructor <;> intro h <;> omega
  simp only [e, and_self]

/-- Witness for C13: the above neighbour is not skipped and has `tx_size = 2 = max_tx_size`,
the left neighbour is absent, and the same with the sides exchanged: the context is 1. -/
theorem C13_tx_size_one_neighbour_witness :
    vp9_get_tx_size_context (fun _ => 2) (mkXd (some ⟨mkTxMbmi false 2⟩) none) = 1 ∧
    vp9_get_tx_size_context (fun _ => 2) (mkXd none (some ⟨mkTxMbmi false 2⟩)) = 1 :=
  (C13_tx_size_one_neighbour (fun _ => 2) (mkMi INTRA_FRAME NONE) ⟨mkTxMbmi false 2⟩).2.2
    rfl rfl

/-- C14: with both neighbours present, the transform-size context is 1 exactly when the sum of
the effective sizes of the two neighbours exceeds `max_tx_size`, and 0 otherwise; the
`tx_size` of a neighbour that is not skipped enters the sum unclamped. -/
theorem C14_tx_size_both_present (max_txsize_lookup : Nat → Int) (mi a l : MODE_INFO) :
    (vp9_get_tx_size_context max_txsize_lookup ⟨mi, some a, some l⟩ =
      if effTx (max_txsize_lookup mi.mbmi.sb_type) a.mbmi +
          effTx (max_txsize_lookup mi.mbmi.sb_type) l.mbmi > max_txsize_lookup mi.mbmi.sb_type
      then 1 else 0) ∧
    (a.mbmi.skip = false → l.mbmi.skip = false →
      vp9_get_tx_size_context max_txsize_lookup ⟨mi, some a, some l⟩ =
        if (a.mbmi.tx_size : Int) + (l.mbmi.tx_size : Int) > max_txsize_lookup mi.mbmi.sb_type
        then 1 else 0) := by
  refine ⟨tx_size_both_present _ _ _ _, fun ha hl => ?_⟩
  rw [tx_size_both_present]
  simp [effTx, ha, hl]

/-- Witness for C14: neighbours with `tx_size` 3 and 0, neither skipped, and `max_tx_size = 1`:
the sum 3 exceeds 1 although the above size alone already exceeds `max_tx_size`. -/
theorem C14_tx_size_both_present_witness :
    vp9_get_tx_size_context (fun _ => 1)
      ⟨mkMi INTRA_FRAME NONE, some ⟨mkTxMbmi false 3⟩, some ⟨mkTxMbmi false 0⟩⟩ =
      if (((mkTxMbmi false 3).tx_size : Nat) : Int) + (((mkTxMbmi false 0).tx_size : Nat) : Int) >
        (fun _ => (1 : Int)) (mkMi INTRA_FRAME NONE).mbmi.sb_type then 1 else 0 :=
  (C14_tx_size_both_present (fun _ => 1) (mkMi INTRA_FRAME NONE) ⟨mkTxMbmi false 3⟩
    ⟨mkTxMbmi false 0⟩).2 rfl rfl

/-! ## Segment-id reduction -/

theorem MIN_eq_min (x y : Int) : MIN x y = min x y := by
  unfold MIN
  split <;> omega

theorem foldl_flatMap_eq {α β γ : Type} (f : α → List β) (h : γ → β → γ) (l : List α)
    (init : γ) :
    (l.flatMap f).foldl h init = l.foldl (fun s y => (f y).foldl h s) init := by
  induction l generalizing init with
  | nil => rfl
  | cons a l ih => simp only [List.flatMap_cons, List.foldl_append, List.foldl_cons, ih]

theorem foldl_MIN_le_init {α : Type} (g : α → Int) (l : List α) (init : Int) :
    l.foldl (fun s p => MIN s (g p)) init ≤ init := by
  induction l generalizing init with
  | nil => exact le_refl _
  | cons a l ih =>
    have h1 := ih (MIN init (g a))
    have h2 := MIN_eq_min init (g a)
    simp only [List.foldl_cons]
    omega

theorem foldl_MIN_le_mem {α : Type} (g : α → Int) (l : List α) (init : Int) (p : α)
    (hp : p ∈ l) : l.foldl (fun s p => MIN s (g p)) init ≤ g p := by
  induction l generalizing init with
  | nil => cases hp
  | cons a l ih =>
    simp only [List.foldl_cons]
    rcases List.mem_cons.mp hp with e | hm
    · subst e
      have h1 := foldl_MIN_le_init g l (MIN init (g p))
      have h2 := MIN_eq_min init (g p)
      omega
    · exact ih _ hm

theorem foldl_MIN_attained {α : Type} (g : α → Int) (l : List α) (init : Int) :
    l.foldl (fun s p => MIN s (g p)) init = init ∨
      ∃ p ∈ l, l.foldl (fun s p => MIN s (g p)) init = g p := by
  induction l generalizing init with
  | nil => exact Or.inl rfl
  | cons a l ih =>
    simp only [List.foldl_cons]
    rcases ih (MIN init (g a)) with h | ⟨p, hp, h⟩
    · have h2 := MIN_eq_min init (g a)
      by_cases hlt : init ≤ g a
      · left
        rw [h]
        omega
      · right
        refine ⟨a, List.mem_cons_self _ _, ?_⟩
        rw [h]
        omega
    · exact Or.inr ⟨p, List.mem_cons_of_mem _ hp, h⟩

theorem foldl_MIN_congr {α : Type} (g g' : α → Int) (l : List α) (init : Int)
    (h : ∀ p ∈ l, g p = g' p) :
    l.foldl (fun s p => MIN s (g p)) init = l.foldl (fun s p => MIN s (g' p)) init := by
  induction l generalizing init with
  | nil => rfl
  | cons a l ih =>
    simp only [List.foldl_cons]
    rw [h a (List.mem_cons_self _ _)]
    exact ih _ (fun p hp => h p (List.mem_cons_of_mem _ hp))

theorem segment_id_eq_fold_visits (W H : Nat → Int) (cm : VP9_COMMON)
    (segment_ids : Int → Fin 256) (bsize : Nat) (mi_row mi_col : Int) :
    vp9_get_segment_id W H cm segment_ids bsize mi_row mi_col =
      (segment_id_visits W H cm bsize mi_row mi_col).foldl
        (fun s p => MIN s ((segment_ids (segment_id_index cm mi_row mi_col p)).val : Int))
        INT_MAX := by
  simp only [vp9_get_segment_id, segment_id_visits, segment_id_index, foldl_flatMap_eq,
    List.foldl_map]

theorem mem_segment_id_visits (W H : Nat → Int) (cm : VP9_COMMON) (bsize : Nat)
    (mi_row mi_col : Int) (p : Nat × Nat) :
    p ∈ segment_id_visits W H cm bsize mi_row mi_col ↔
      (p.1 : Int) < MIN (cm.mi_rows - mi_row) (H bsize) ∧
      (p.2 : Int) < MIN (cm.mi_cols - mi_col) (W bsize) := by
  rcases p with ⟨y, x⟩
  simp only [segment_id_visits, List.mem_flatMap, List.mem_map, List.mem_range, Prod.mk.injEq]
  constructor
  · rintro ⟨y', hy, x', hx, rfl, rfl⟩
    omega
  · intro h
    exact ⟨y, by omega, x, by omega, rfl, rfl⟩

theorem segment_id_index_eq (cm : VP9_COMMON) (mi_row mi_col : Int) (y x : Nat) :
    segment_id_index cm mi_row mi_col (y, x) = footprintIndex cm mi_row mi_col y x := by
  simp only [segment_id_index, footprintIndex]
  ring

theorem mem_visits_iff_inFootprint (W H : Nat → Int) (cm : VP9_COMMON) (bsize : Nat)
    (mi_row mi_col : Int) (y x : Nat) :
    (y, x) ∈ segment_id_visits W H cm bsize mi_row mi_col ↔
      inFootprint W H cm bsize mi_row mi_col y x := by
  rw [mem_segment_id_visits]
  simp only [inFootprint, MIN_eq_min]
  omega

theorem segment_id_le_footprint (W H : Nat → Int) (cm : VP9_COMMON)
    (segment_ids : Int → Fin 256) (bsize : Nat) (mi_row mi_col y x : Int)
    (h : inFootprint W H cm bsize mi_row mi_col y x) :
    vp9_get_segment_id W H cm segment_ids bsize mi_row mi_col ≤
      ((segment_ids (footprintIndex cm mi_row mi_col y x)).val : Int) := by
  have hy : ((y.toNat : Nat) : Int) = y := Int.toNat_of_nonneg h.1
  have hx : ((x.toNat : Nat) : Int) = x := Int.toNat_of_nonneg h.2.2.1
  have hm : (y.toNat, x.toNat) ∈ segment_id_visits W H cm bsize mi_row mi_col := by
    rw [mem_visits_iff_inFootprint, hy, hx]
    exact h
  have := foldl_MIN_le_mem
    (fun p => ((segment_ids (segment_id_index cm mi_row mi_col p)).val : Int))
    _ INT_MAX _ hm
  rw [segment_id_eq_fold_visits]
  simpa only [segment_id_index_eq, hy, hx] using this

theorem segment_id_attained (W H : Nat → Int) (cm : VP9_COMMON)
    (segment_ids : Int → Fin 256) (bsize : Nat) (mi_row mi_col : Int)
    (hr : mi_row < cm.mi_rows) (hc : mi_col < cm.mi_cols)
    (hw : 1 ≤ W bsize) (hh : 1 ≤ H bsize) :
    ∃ y x : Int, inFootprint W H cm bsize mi_row mi_col y x ∧
      vp9_get_segment_id W H cm segment_ids bsize mi_row mi_col =
        ((segment_ids (footprintIndex cm mi_row mi_col y x)).val : Int) := by
  have h00 : inFootprint W H cm bsize mi_row mi_col 0 0 := by
    simp only [inFootprint]
    omega
  have hle := segment_id_le_footprint W H cm segment_ids bsize mi_row mi_col 0 0 h00
  have hval : ((segment_ids (footprintIndex cm mi_row mi_col 0 0)).val : Int) < 256 := by
    have := (segment_ids (footprintIndex cm mi_row mi_col 0 0)).isLt
    omega
  rcases foldl_MIN_attained
    (fun p => ((segment_ids (segment_id_index cm mi_row mi_col p)).val : Int))
    (segment_id_visits W H cm bsize mi_row mi_col) INT_MAX with h | ⟨⟨y, x⟩, hp, h⟩
  · rw [← segment_id_eq_fold_visits] at h
    rw [h] at hle
    simp only [INT_MAX] at hle
    omega
  · rw [← segment_id_eq_fold_visits] at h
    refine ⟨y, x, (mem_visits_iff_inFootprint W H cm bsize mi_row mi_col y x).mp hp, ?_⟩
    rw [h, segment_id_index_eq]

theorem segment_id_congr (W H : Nat → Int) (cm : VP9_COMMON)
    (segment_ids segment_ids' : Int → Fin 256) (bsize : Nat) (mi_row mi_col : Int)
    (h : ∀ y x : Int, inFootprint W H cm bsize mi_row mi_col y x →
      segment_ids' (footprintIndex cm mi_row mi_col y x) =
        segment_ids (footprintIndex cm mi_row mi_col y x)) :
    vp9_get_segment_id W H cm segment_ids' bsize mi_row mi_col =
      vp9_get_segment_id W H cm segment_ids bsize mi_row mi_col := by
  rw [segment_id_eq_fold_visits, segment_id_eq_fold_visits]
  apply foldl_MIN_congr
  rintro ⟨y, x⟩ hp
  have := h y x ((mem_visits_iff_inFootprint W H cm bsize mi_row mi_col y x).mp hp)
  simp only [segment_id_index_eq, this]

/-- C15: for a block whose origin row and column lie below the frame extent (in particular
for an origin inside the frame) and that is at least one unit wide and high, `vp9_get_segment_id` returns the minimum of the segment map over the clamped footprint:
the result is at most every entry of the footprint, it equals one of them, and it does not
change when the map is changed outside the footprint. -/
theorem C15_segment_id_is_minimum (num_8x8_blocks_wide_lookup num_8x8_blocks_high_lookup : Nat → Int)
    (cm : VP9_COMMON) (segment_ids : Int → Fin 256) (bsize : Nat) (mi_row mi_col : Int)
    (hr : mi_row < cm.mi_rows) (hc : mi_col < cm.mi_cols)
    (hw : 1 ≤ num_8x8_blocks_wide_lookup bsize) (hh : 1 ≤ num_8x8_blocks_high_lookup bsize) :
    (∀ y x : Int,
      inFootprint num_8x8_blocks_wide_lookup num_8x8_blocks_high_lookup cm bsize mi_row mi_col
        y x →
      vp9_get_segment_id num_8x8_blocks_wide_lookup num_8x8_blocks_high_lookup cm segment_ids
          bsize mi_row mi_col ≤
        ((segment_ids (footprintIndex cm mi_row mi_col y x)).val : Int)) ∧
    (∃ y x : Int,
      inFootprint num_8x8_blocks_wide_lookup num_8x8_blocks_high_lookup cm bsize mi_row mi_col
        y x ∧
      vp9_get_segment_id num_8x8_blocks_wide_lookup num_8x8_blocks_high_lookup cm segment_ids
          bsize mi_row mi_col =
        ((segment_ids (footprintIndex cm mi_row mi_col y x)).val : Int)) ∧
    (∀ segment_ids' : Int → Fin 256,
      (∀ y x : Int,
        inFootprint num_8x8_blocks_wide_lookup num_8x8_blocks_high_lookup cm bsize mi_row mi_col
          y x →
        segment_ids' (footprintIndex cm mi_row mi_col y x) =
          segment_ids (footprintIndex cm mi_row mi_col y x)) →
      vp9_get_segment_id num_8x8_blocks_wide_lookup num_8x8_blocks_high_lookup cm segment_ids'
          bsize mi_row mi_col =
        vp9_get_segment_id num_8x8_blocks_wide_lookup num_8x8_blocks_high_lookup cm segment_ids
          bsize mi_row mi_col) := by
  exact ⟨fun y x h => segment_id_le_footprint _ _ _ _ _ _ _ _ _ h,
    segment_id_attained _ _ _ _ _ _ _ hr hc hw hh,
    fun s' h => segment_id_congr _ _ _ _ _ _ _ _ h⟩

/-- Witness for C15: a 2x2 block at the origin of a 2x2 frame whose segment ids are 1, 3, 2, 0
in row-major order; the result is 0. -/
theorem C15_segment_id_is_minimum_witness :
    vp9_get_segment_id (fun _ => 2) (fun _ => 2) (mkGeom 2 2) segMap1320 0 0 0 = 0 ∧
    ∃ y x : Int, inFootprint (fun _ => 2) (fun _ => 2) (mkGeom 2 2) 0 0 0 y x ∧
      vp9_get_segment_id (fun _ => 2) (fun _ => 2) (mkGeom 2 2) segMap1320 0 0 0 =
        ((segMap1320 (footprintIndex (mkGeom 2 2) 0 0 y x)).val : Int) :=
  ⟨by decide,
   (C15_segment_id_is_minimum (fun _ => 2) (fun _ => 2) (mkGeom 2 2) segMap1320 0 0 0
    (by decide) (by decide) (by decide) (by decide)).2.1⟩

/-- C16: for a block origin with `0 ≤ mi_row` and `0 ≤ mi_col` (in particular inside the
frame) and any block size, the result of `vp9_get_segment_id` is computed from the entries at
the indices of the visits of its loops alone, and every such index lies in
`[0, mi_rows * mi_cols)`, with its row below `mi_rows` and its column below `mi_cols`. -/
theorem C16_segment_id_reads_in_frame
    (num_8x8_blocks_wide_lookup num_8x8_blocks_high_lookup : Nat → Int)
    (cm : VP9_COMMON) (segment_ids : Int → Fin 256) (bsize : Nat) (mi_row mi_col : Int)
    (hr0 : 0 ≤ mi_row) (hc0 : 0 ≤ mi_col) :
    vp9_get_segment_id num_8x8_blocks_wide_lookup num_8x8_blocks_high_lookup cm segment_ids
        bsize mi_row mi_col =
      ((segment_id_visits num_8x8_blocks_wide_lookup num_8x8_blocks_high_lookup cm bsize
          mi_row mi_col).map (segment_id_index cm mi_row mi_col)).foldl
        (fun s i => MIN s ((segment_ids i).val : Int)) INT_MAX ∧
    ∀ p ∈ segment_id_visits num_8x8_blocks_wide_lookup num_8x8_blocks_high_lookup cm bsize
        mi_row mi_col,
      0 ≤ segment_id_index cm mi_row mi_col p ∧
      segment_id_index cm mi_row mi_col p < cm.mi_rows * cm.mi_cols ∧
      mi_row + (p.1 : Int) < cm.mi_rows ∧ mi_col + (p.2 : Int) < cm.mi_cols := by
  refine ⟨?_, ?_⟩
  · rw [segment_id_eq_fold_visits, List.foldl_map]
  · rintro ⟨y, x⟩ hp
    rw [mem_segment_id_visits] at hp
    simp only [MIN_eq_min] at hp
    have hy : mi_row + (y : Int) + 1 ≤ cm.mi_rows := by omega
    have hx : mi_col + (x : Int) < cm.mi_cols := by omega
    have hcols : 0 ≤ cm.mi_cols := by omega
    have h1 : 0 ≤ (mi_row + (y : Int)) * cm.mi_cols := mul_nonneg (by omega) hcols
    have h2 : (mi_row + (y : Int) + 1) * cm.mi_cols ≤ cm.mi_rows * cm.mi_cols :=
      mul_le_mul_of_nonneg_right hy hcols
    have e : segment_id_index cm mi_row mi_col (y, x) =
        (mi_row + (y : Int)) * cm.mi_cols + (mi_col + (x : Int)) := by
      simp only [segment_id_index]
      ring
    have e2 : (mi_row + (y : Int) + 1) * cm.mi_cols =
        (mi_row + (y : Int)) * cm.mi_cols + cm.mi_cols := by ring
    rw [e]
    refine ⟨by omega, by omega, by omega, hx⟩

/-- Witness for C16: a 64x64 block (8 by 8 units) at row 1, column 1 of a frame of 2 by 2
units. -/
theorem C16_segment_id_reads_in_frame_witness :
    vp9_get_segment_id (fun _ => 8) (fun _ => 8) (mkGeom 2 2) segMap1320 0 1 1 =
      ((segment_id_visits (fun _ => 8) (fun _ => 8) (mkGeom 2 2) 0 1 1).map
          (segment_id_index (mkGeom 2 2) 1 1)).foldl
        (fun s i => MIN s ((segMap1320 i).val : Int)) INT_MAX ∧
    ∀ p ∈ segment_id_visits (fun _ => 8) (fun _ => 8) (mkGeom 2 2) 0 1 1,
      0 ≤ segment_id_index (mkGeom 2 2) 1 1 p ∧
      segment_id_index (mkGeom 2 2) 1 1 p < (mkGeom 2 2).mi_rows * (mkGeom 2 2).mi_cols ∧
      (1 : Int) + (p.1 : Int) < (mkGeom 2 2).mi_rows ∧
      (1 : Int) + (p.2 : Int) < (mkGeom 2 2).mi_cols :=
  C16_segment_id_reads_in_frame (fun _ => 8) (fun _ => 8) (mkGeom 2 2) segMap1320 0 1 1
    (by decide) (by decide)

theorem segment_id_visits_outside (W H : Nat → Int) (cm : VP9_COMMON) (bsize : Nat)
    (mi_row mi_col : Int) (h : cm.mi_rows ≤ mi_row ∨ cm.mi_cols ≤ mi_col) :
    segment_id_visits W H cm bsize mi_row mi_col = [] := by
  apply List.eq_nil_iff_forall_not_mem.mpr
  rintro ⟨y, x⟩ hp
  rw [mem_segment_id_visits] at hp
  simp only [MIN_eq_min] at hp
  omega

theorem segment_id_origin_outside (W H : Nat → Int) (cm : VP9_COMMON)
    (segment_ids : Int → Fin 256) (bsize : Nat) (mi_row mi_col : Int)
    (h : cm.mi_rows ≤ mi_row ∨ cm.mi_cols ≤ mi_col) :
    vp9_get_segment_id W H cm segment_ids bsize mi_row mi_col = INT_MAX := by
  rw [segment_id_eq_fold_visits, segment_id_visits_outside W H cm bsize mi_row mi_col h]
  rfl

theorem footprintIndex_in_frame (W H : Nat → Int) (cm : VP9_COMMON) (bsize : Nat)
    (mi_row mi_col y x : Int) (hr0 : 0 ≤ mi_row) (hc0 : 0 ≤ mi_col)
    (hf : inFootprint W H cm bsize mi_row mi_col y x) :
    0 ≤ footprintIndex cm mi_row mi_col y x ∧
    footprintIndex cm mi_row mi_col y x < cm.mi_rows * cm.mi_cols := by
  obtain ⟨hy0, hy, hx0, hx⟩ := hf
  have hy1 : mi_row + y + 1 ≤ cm.mi_rows := by omega
  have hx1 : mi_col + x < cm.mi_cols := by omega
  have hcols : 0 ≤ cm.mi_cols := by omega
  have h1 : 0 ≤ (mi_row + y) * cm.mi_cols := mul_nonneg (by omega) hcols
  have h2 : (mi_row + y + 1) * cm.mi_cols ≤ cm.mi_rows * cm.mi_cols :=
    mul_le_mul_of_nonneg_right hy1 hcols
  have e2 : (mi_row + y + 1) * cm.mi_cols = (mi_row + y) * cm.mi_cols + cm.mi_cols := by ring
  simp only [footprintIndex]
  refine ⟨by omega, by omega⟩

theorem segment_id_in_range (W H : Nat → Int) (cm : VP9_COMMON)
    (segment_ids : Int → Fin 256) (bsize : Nat) (mi_row mi_col MAX_SEGMENTS : Int)
    (hr : mi_row < cm.mi_rows) (hc : mi_col < cm.mi_cols)
    (hw : 1 ≤ W bsize) (hh : 1 ≤ H bsize)
    (hseg : ∀ y x : Int, inFootprint W H cm bsize mi_row mi_col y x →
      ((segment_ids (footprintIndex cm mi_row mi_col y x)).val : Int) < MAX_SEGMENTS) :
    0 ≤ vp9_get_segment_id W H cm segment_ids bsize mi_row mi_col ∧
    vp9_get_segment_id W H cm segment_ids bsize mi_row mi_col < MAX_SEGMENTS ∧
    vp9_get_segment_id W H cm segment_ids bsize mi_row mi_col < INT_MAX := by
  obtain ⟨y, x, hf, he⟩ := segment_id_attained W H cm segment_ids bsize mi_row mi_col hr hc hw hh
  have h1 := hseg y x hf
  have h2 := (segment_ids (footprintIndex cm mi_row mi_col y x)).isLt
  rw [he]
  simp only [INT_MAX]
  omega

/-- The clamp that the code does provide: for a block whose origin lies inside the frame
(`0 ≤ mi_row < mi_rows`, `0 ≤ mi_col < mi_cols`) and that is at least one unit wide and high,
however far its footprint extends past the frame edge, and a segment map whose
`mi_rows * mi_cols` entries are all below `MAX_SEGMENTS` (nothing is assumed of any index
outside the map), the assertion of `vp9_get_segment_id` holds and the call returns. -/
theorem segment_id_clamps_origin_in_frame
    (num_8x8_blocks_wide_lookup num_8x8_blocks_high_lookup : Nat → Int)
    (cm : VP9_COMMON) (segment_ids : Int → Fin 256) (bsize : Nat)
    (mi_row mi_col MAX_SEGMENTS : Int)
    (hr0 : 0 ≤ mi_row) (hr : mi_row < cm.mi_rows) (hc0 : 0 ≤ mi_col) (hc : mi_col < cm.mi_cols)
    (hw : 1 ≤ num_8x8_blocks_wide_lookup bsize) (hh : 1 ≤ num_8x8_blocks_high_lookup bsize)
    (hseg : ∀ i : Int, 0 ≤ i → i < cm.mi_rows * cm.mi_cols →
      ((segment_ids i).val : Int) < MAX_SEGMENTS) :
    vp9_get_segment_id_asserted num_8x8_blocks_wide_lookup num_8x8_blocks_high_lookup
        MAX_SEGMENTS cm segment_ids bsize mi_row mi_col =
      some (vp9_get_segment_id num_8x8_blocks_wide_lookup num_8x8_blocks_high_lookup cm
        segment_ids bsize mi_row mi_col) := by
  have h := segment_id_in_range num_8x8_blocks_wide_lookup num_8x8_blocks_high_lookup cm
    segment_ids bsize mi_row mi_col MAX_SEGMENTS hr hc hw hh (fun y x hf =>
      have hb := footprintIndex_in_frame num_8x8_blocks_wide_lookup num_8x8_blocks_high_lookup
        cm bsize mi_row mi_col y x hr0 hc0 hf
      hseg _ hb.1 hb.2)
  simp only [vp9_get_segment_id_asserted]
  rw [if_pos ⟨h.1, h.2.1⟩]

/-- For every block origin outside the frame in either coordinate (`mi_row ≥ mi_rows` or
`mi_col ≥ mi_cols`), every block size and every segment map, the assertion of
`vp9_get_segment_id` fails as soon as `MAX_SEGMENTS ≤ INT_MAX`: the loops read nothing and the
result is the initial value `INT_MAX`. -/
theorem segment_id_asserted_outside (W H : Nat → Int) (MAX_SEGMENTS : Int) (cm : VP9_COMMON)
    (segment_ids : Int → Fin 256) (bsize : Nat) (mi_row mi_col : Int)
    (h : cm.mi_rows ≤ mi_row ∨ cm.mi_cols ≤ mi_col) (hM : MAX_SEGMENTS ≤ INT_MAX) :
    vp9_get_segment_id_asserted W H MAX_SEGMENTS cm segment_ids bsize mi_row mi_col = none := by
  simp only [vp9_get_segment_id_asserted,
    segment_id_origin_outside W H cm segment_ids bsize mi_row mi_col h]
  rw [if_neg]
  omega

/-- C18: when the block origin lies inside the frame, the block is at least one unit wide and
high, and every segment-map entry of the clamped footprint is below `MAX_SEGMENTS`, the result
of `vp9_get_segment_id` satisfies `0 ≤ segment_id < MAX_SEGMENTS`, and the initial value
`INT_MAX` has been replaced. -/
theorem C18_segment_id_assertion (num_8x8_blocks_wide_lookup num_8x8_blocks_high_lookup : Nat → Int)
    (cm : VP9_COMMON) (segment_ids : Int → Fin 256) (bsize : Nat)
    (mi_row mi_col MAX_SEGMENTS : Int)
    (hr : mi_row < cm.mi_rows) (hc : mi_col < cm.mi_cols)
    (hw : 1 ≤ num_8x8_blocks_wide_lookup bsize) (hh : 1 ≤ num_8x8_blocks_high_lookup bsize)
    (hseg : ∀ y x : Int,
      inFootprint num_8x8_blocks_wide_lookup num_8x8_blocks_high_lookup cm bsize mi_row mi_col
        y x →
      ((segment_ids (footprintIndex cm mi_row mi_col y x)).val : Int) < MAX_SEGMENTS) :
    0 ≤ vp9_get_segment_id num_8x8_blocks_wide_lookup num_8x8_blocks_high_lookup cm segment_ids
      bsize mi_row mi_col ∧
    vp9_get_segment_id num_8x8_blocks_wide_lookup num_8x8_blocks_high_lookup cm segment_ids
      bsize mi_row mi_col < MAX_SEGMENTS ∧
    vp9_get_segment_id num_8x8_blocks_wide_lookup num_8x8_blocks_high_lookup cm segment_ids
      bsize mi_row mi_col ≠ INT_MAX :=
  have h := segment_id_in_range num_8x8_blocks_wide_lookup num_8x8_blocks_high_lookup cm
    segment_ids bsize mi_row mi_col MAX_SEGMENTS hr hc hw hh hseg
  ⟨h.1, h.2.1, ne_of_lt h.2.2⟩

/-- Witness for C18: a 2x2 block at the origin of a frame of 2 by 2 units with the segment ids
1, 3, 2, 0 and `MAX_SEGMENTS = 8`. -/
theorem C18_segment_id_assertion_witness :
    0 ≤ vp9_get_segment_id (fun _ => 2) (fun _ => 2) (mkGeom 2 2) segMap1320 0 0 0 ∧
    vp9_get_segment_id (fun _ => 2) (fun _ => 2) (mkGeom 2 2) segMap1320 0 0 0 < 8 ∧
    vp9_get_segment_id (fun _ => 2) (fun _ => 2) (mkGeom 2 2) segMap1320 0 0 0 ≠ INT_MAX :=
  C18_segment_id_assertion (fun _ => 2) (fun _ => 2) (mkGeom 2 2) segMap1320 0 0 0 8
    (by decide) (by decide) (by decide) (by decide)
    (fun y x _ => by
      unfold segMap1320
      split_ifs <;> decide)

/-! ## Zero endpoints of the per-reference-frame contexts -/

/-- C19: when both neighbours are present, inter and single-reference, with the same first
reference `r`, each compound-reference context is 0 as soon as `r` lies in the target set of
the function: `GOLDEN`, `LAST3` or `LAST4` for the extended `comp_ref_p`, `LAST` for
`comp_ref_p1`, `GOLDEN` for `comp_ref_p2`, `LAST3` for `comp_ref_p3`, and `cm.comp_var_ref 1`
for the baseline `comp_ref_p`. -/
theorem C19_comp_ref_zero_endpoint (cm : VP9_COMMON) (mi a l : MODE_INFO)
    (r : MV_REFERENCE_FRAME)
    (hai : is_inter_block a.mbmi = true) (hli : is_inter_block l.mbmi = true)
    (has : has_second_ref a.mbmi = false) (hls : has_second_ref l.mbmi = false)
    (ha0 : a.mbmi.ref_frame 0 = r) (hl0 : l.mbmi.ref_frame 0 = r) :
    (r = GOLDEN_FRAME ∨ r = LAST3_FRAME ∨ r = LAST4_FRAME →
      MultiRef.vp9_get_pred_context_comp_ref_p cm ⟨mi, some a, some l⟩ = 0) ∧
    (r = LAST_FRAME → MultiRef.vp9_get_pred_context_comp_ref_p1 cm ⟨mi, some a, some l⟩ = 0) ∧
    (r = GOLDEN_FRAME →
      MultiRef.vp9_get_pred_context_comp_ref_p2 cm ⟨mi, some a, some l⟩ = 0) ∧
    (r = LAST3_FRAME → MultiRef.vp9_get_pred_context_comp_ref_p3 cm ⟨mi, some a, some l⟩ = 0) ∧
    (r = cm.comp_var_ref 1 →
      Baseline.vp9_get_pred_context_comp_ref_p cm ⟨mi, some a, some l⟩ = 0) := by
  refine ⟨?_, ?_, ?_, ?_, ?_⟩
  · intro h
    rcases h with h | h | h <;>
      simp [MultiRef.vp9_get_pred_context_comp_ref_p, get_mbmi, get_above_mi, get_left_mi,
        hai, hli, has, hls, ha0, hl0, h, MultiRef.CHECK_GOLDEN_LAST3_LAST4]
  · intro h
    simp [MultiRef.vp9_get_pred_context_comp_ref_p1, get_mbmi, get_above_mi, get_left_mi,
      hai, hli, has, hls, ha0, hl0, h]
  · intro h
    simp [MultiRef.vp9_get_pred_context_comp_ref_p2, get_mbmi, get_above_mi, get_left_mi,
      hai, hli, has, hls, ha0, hl0, h]
  · intro h
    simp [MultiRef.vp9_get_pred_context_comp_ref_p3, get_mbmi, get_above_mi, get_left_mi,
      hai, hli, has, hls, ha0, hl0, h]
  · intro h
    simp [Baseline.vp9_get_pred_context_comp_ref_p, get_mbmi, get_above_mi, get_left_mi,
      hai, hli, has, hls, ha0, hl0, h]

/-- Witness for C19: both neighbours are single-reference blocks that refer to `GOLDEN_FRAME`,
and the second variable reference of the configuration is `GOLDEN_FRAME`. -/
theorem C19_comp_ref_zero_endpoint_witness :
    MultiRef.vp9_get_pred_context_comp_ref_p (mkCm ALTREF_FRAME LAST_FRAME GOLDEN_FRAME 1)
      ⟨mkMi INTRA_FRAME NONE, some (mkMi GOLDEN_FRAME NONE), some (mkMi GOLDEN_FRAME NONE)⟩ = 0 ∧
    MultiRef.vp9_get_pred_context_comp_ref_p2 (mkCm ALTREF_FRAME LAST_FRAME GOLDEN_FRAME 1)
      ⟨mkMi INTRA_FRAME NONE, some (mkMi GOLDEN_FRAME NONE), some (mkMi GOLDEN_FRAME NONE)⟩ = 0 ∧
    Baseline.vp9_get_pred_context_comp_ref_p (mkCm ALTREF_FRAME LAST_FRAME GOLDEN_FRAME 1)
      ⟨mkMi INTRA_FRAME NONE, some (mkMi GOLDEN_FRAME NONE), some (mkMi GOLDEN_FRAME NONE)⟩ = 0 :=
  have h := C19_comp_ref_zero_endpoint (mkCm ALTREF_FRAME LAST_FRAME GOLDEN_FRAME 1)
    (mkMi INTRA_FRAME NONE) (mkMi GOLDEN_FRAME NONE) (mkMi GOLDEN_FRAME NONE) GOLDEN_FRAME
    rfl rfl rfl rfl rfl rfl
  ⟨h.1 (Or.inl rfl), h.2.2.1 rfl, h.2.2.2.2 rfl⟩

/-- C20: when both neighbours are present, inter and single-reference and both first
references lie in the target of the function, each single-reference context is 0: the target is
`GOLDEN` or `ALTREF` for `single_ref_p1` (both variants), `ALTREF` for `single_ref_p2` (both
variants), `LAST3` or `LAST4` for `single_ref_p3`, `LAST2` for `single_ref_p4` and `LAST4` for
`single_ref_p5`. -/
theorem C20_single_ref_zero_endpoint (mi a l : MODE_INFO)
    (hai : is_inter_block a.mbmi = true) (hli : is_inter_block l.mbmi = true)
    (has : has_second_ref a.mbmi = false) (hls : has_second_ref l.mbmi = false) :
    ((a.mbmi.ref_frame 0 = GOLDEN_FRAME ∨ a.mbmi.ref_frame 0 = ALTREF_FRAME) →
      (l.mbmi.ref_frame 0 = GOLDEN_FRAME ∨ l.mbmi.ref_frame 0 = ALTREF_FRAME) →
      MultiRef.vp9_get_pred_context_single_ref_p1 ⟨mi, some a, some l⟩ = 0) ∧
    (a.mbmi.ref_frame 0 = ALTREF_FRAME → l.mbmi.ref_frame 0 = ALTREF_FRAME →
      MultiRef.vp9_get_pred_context_single_ref_p2 ⟨mi, some a, some l⟩ = 0) ∧
    ((a.mbmi.ref_frame 0 = LAST3_FRAME ∨ a.mbmi.ref_frame 0 = LAST4_FRAME) →
      (l.mbmi.ref_frame 0 = LAST3_FRAME ∨ l.mbmi.ref_frame 0 = LAST4_FRAME) →
      MultiRef.vp9_get_pred_context_single_ref_p3 ⟨mi, some a, some l⟩ = 0) ∧
    (a.mbmi.ref_frame 0 = LAST2_FRAME → l.mbmi.ref_frame 0 = LAST2_FRAME →
      MultiRef.vp9_get_pred_context_single_ref_p4 ⟨mi, some a, some l⟩ = 0) ∧
    (a.mbmi.ref_frame 0 = LAST4_FRAME → l.mbmi.ref_frame 0 = LAST4_FRAME →
      MultiRef.vp9_get_pred_context_single_ref_p5 ⟨mi, some a, some l⟩ = 0) ∧
    ((a.mbmi.ref_frame 0 = GOLDEN_FRAME ∨ a.mbmi.ref_frame 0 = ALTREF_FRAME) →
      (l.mbmi.ref_frame 0 = GOLDEN_FRAME ∨ l.mbmi.ref_frame 0 = ALTREF_FRAME) →
      Baseline.vp9_get_pred_context_single_ref_p1 ⟨mi, some a, some l⟩ = 0) ∧
    (a.mbmi.ref_frame 0 = ALTREF_FRAME → l.mbmi.ref_frame 0 = ALTREF_FRAME →
      Baseline.vp9_get_pred_context_single_ref_p2 ⟨mi, some a, some l⟩ = 0) := by
  refine ⟨?_, ?_, ?_, ?_, ?_, ?_, ?_⟩
  · intro h1 h2
    rcases h1 with h1 | h1 <;> rcases h2 with h2 | h2 <;>
      simp [MultiRef.vp9_get_pred_context_single_ref_p1, get_mbmi, get_above_mi, get_left_mi,
        hai, hli, has, hls, h1, h2, b2i, MultiRef.CHECK_GOLDEN_OR_ALTREF]
  · intro h1 h2
    simp [MultiRef.vp9_get_pred_context_single_ref_p2, get_mbmi, get_above_mi, get_left_mi,
      hai, hli, has, hls, h1, h2, b2i, MultiRef.CHECK_GOLDEN_OR_ALTREF]
  · intro h1 h2
    rcases h1 with h1 | h1 <;> rcases h2 with h2 | h2 <;>
      simp [MultiRef.vp9_get_pred_context_single_ref_p3, get_mbmi, get_above_mi, get_left_mi,
        hai, hli, has, hls, h1, h2, b2i, MultiRef.CHECK_GOLDEN_OR_ALTREF,
        MultiRef.CHECK_LAST_OR_LAST2]
  · intro h1 h2
    simp [MultiRef.vp9_get_pred_context_single_ref_p4, get_mbmi, get_above_mi, get_left_mi,
      hai, hli, has, hls, h1, h2, b2i, MultiRef.CHECK_LAST_OR_LAST2]
  · intro h1 h2
    simp [MultiRef.vp9_get_pred_context_single_ref_p5, get_mbmi, get_above_mi, get_left_mi,
      hai, hli, has, hls, h1, h2, b2i, MultiRef.CHECK_LAST3_OR_LAST4]
  · intro h1 h2
    rcases h1 with h1 | h1 <;> rcases h2 with h2 | h2 <;>
      simp [Baseline.vp9_get_pred_context_single_ref_p1, get_mbmi, get_above_mi, get_left_mi,
        hai, hli, has, hls, h1, h2, b2i]
  · intro h1 h2
    simp [Baseline.vp9_get_pred_context_single_ref_p2, get_mbmi, get_above_mi, get_left_mi,
      hai, hli, has, hls, h1, h2, b2i]

/-- Witness for C20: both neighbours are single-reference blocks that refer to
`ALTREF_FRAME`. -/
theorem C20_single_ref_zero_endpoint_witness :
    MultiRef.vp9_get_pred_context_single_ref_p1
      ⟨mkMi INTRA_FRAME NONE, some (mkMi ALTREF_FRAME NONE), some (mkMi ALTREF_FRAME NONE)⟩ = 0 ∧
    MultiRef.vp9_get_pred_context_single_ref_p2
      ⟨mkMi INTRA_FRAME NONE, some (mkMi ALTREF_FRAME NONE), some (mkMi ALTREF_FRAME NONE)⟩ = 0 ∧
    Baseline.vp9_get_pred_context_single_ref_p1
      ⟨mkMi INTRA_FRAME NONE, some (mkMi ALTREF_FRAME NONE), some (mkMi ALTREF_FRAME NONE)⟩ = 0 ∧
    Baseline.vp9_get_pred_context_single_ref_p2
      ⟨mkMi INTRA_FRAME NONE, some (mkMi ALTREF_FRAME NONE), some (mkMi ALTREF_FRAME NONE)⟩ = 0 :=
  have h := C20_single_ref_zero_endpoint (mkMi INTRA_FRAME NONE) (mkMi ALTREF_FRAME NONE)
    (mkMi ALTREF_FRAME NONE) rfl rfl rfl rfl
  ⟨h.1 (Or.inr rfl) (Or.inr rfl), h.2.1 rfl rfl, h.2.2.2.2.2.1 (Or.inr rfl) (Or.inr rfl),
   h.2.2.2.2.2.2 rfl rfl⟩

/-! ## Leaves of the per-reference-frame contexts -/

/-- C21: when both neighbours are present and both are intra, every per-reference-frame context
function of both reference-set variants returns 2. -/
theorem C21_both_intra (cm : VP9_COMMON) (mi a l : MODE_INFO)
    (hai : is_inter_block a.mbmi = false) (hli : is_inter_block l.mbmi = false) :
    MultiRef.vp9_get_pred_context_comp_ref_p cm ⟨mi, some a, some l⟩ = 2 ∧
    MultiRef.vp9_get_pred_context_comp_ref_p1 cm ⟨mi, some a, some l⟩ = 2 ∧
    MultiRef.vp9_get_pred_context_comp_ref_p2 cm ⟨mi, some a, some l⟩ = 2 ∧
    MultiRef.vp9_get_pred_context_comp_ref_p3 cm ⟨mi, some a, some l⟩ = 2 ∧
    MultiRef.vp9_get_pred_context_single_ref_p1 ⟨mi, some a, some l⟩ = 2 ∧
    MultiRef.vp9_get_pred_context_single_ref_p2 ⟨mi, some a, some l⟩ = 2 ∧
    MultiRef.vp9_get_pred_context_single_ref_p3 ⟨mi, some a, some l⟩ = 2 ∧
    MultiRef.vp9_get_pred_context_single_ref_p4 ⟨mi, some a, some l⟩ = 2 ∧
    MultiRef.vp9_get_pred_context_single_ref_p5 ⟨mi, some a, some l⟩ = 2 ∧
    Baseline.vp9_get_pred_context_comp_ref_p cm ⟨mi, some a, some l⟩ = 2 ∧
    Baseline.vp9_get_pred_context_single_ref_p1 ⟨mi, some a, some l⟩ = 2 ∧
    Baseline.vp9_get_pred_context_single_ref_p2 ⟨mi, some a, some l⟩ = 2 := by
  refine ⟨?_, ?_, ?_, ?_, ?_, ?_, ?_, ?_, ?_, ?_, ?_, ?_⟩ <;>
    simp [MultiRef.vp9_get_pred_context_comp_ref_p, MultiRef.vp9_get_pred_context_comp_ref_p1,
      MultiRef.vp9_get_pred_context_comp_ref_p2, MultiRef.vp9_get_pred_context_comp_ref_p3,
      MultiRef.vp9_get_pred_context_single_ref_p1, MultiRef.vp9_get_pred_context_single_ref_p2,
      MultiRef.vp9_get_pred_context_single_ref_p3, MultiRef.vp9_get_pred_context_single_ref_p4,
      MultiRef.vp9_get_pred_context_single_ref_p5, Baseline.vp9_get_pred_context_comp_ref_p,
      Baseline.vp9_get_pred_context_single_ref_p1, Baseline.vp9_get_pred_context_single_ref_p2,
      get_mbmi, get_above_mi, get_left_mi, hai, hli]

/-- Witness for C21: two intra neighbours. -/
theorem C21_both_intra_witness :
    is_inter_block (mkMi INTRA_FRAME NONE).mbmi = false ∧
    MultiRef.vp9_get_pred_context_comp_ref_p (mkCm ALTREF_FRAME LAST_FRAME GOLDEN_FRAME 1) ⟨mkMi INTRA_FRAME NONE, some (mkMi INTRA_FRAME NONE), some (mkMi INTRA_FRAME NONE)⟩ = 2 ∧
    MultiRef.vp9_get_pred_context_comp_ref_p1 (mkCm ALTREF_FRAME LAST_FRAME GOLDEN_FRAME 1) ⟨mkMi INTRA_FRAME NONE, some (mkMi INTRA_FRAME NONE), some (mkMi INTRA_FRAME NONE)⟩ = 2 ∧
    MultiRef.vp9_get_pred_context_comp_ref_p2 (mkCm ALTREF_FRAME LAST_FRAME GOLDEN_FRAME 1) ⟨mkMi INTRA_FRAME NONE, some (mkMi INTRA_FRAME NONE), some (mkMi INTRA_FRAME NONE)⟩ = 2 ∧
    MultiRef.vp9_get_pred_context_comp_ref_p3 (mkCm ALTREF_FRAME LAST_FRAME GOLDEN_FRAME 1) ⟨mkMi INTRA_FRAME NONE, some (mkMi INTRA_FRAME NONE), some (mkMi INTRA_FRAME NONE)⟩ = 2 ∧
    MultiRef.vp9_get_pred_context_single_ref_p1 ⟨mkMi INTRA_FRAME NONE, some (mkMi INTRA_FRAME NONE), some (mkMi INTRA_FRAME NONE)⟩ = 2 ∧
    MultiRef.vp9_get_pred_context_single_ref_p2 ⟨mkMi INTRA_FRAME NONE, some (mkMi INTRA_FRAME NONE), some (mkMi INTRA_FRAME NONE)⟩ = 2 ∧
    MultiRef.vp9_get_pred_context_single_ref_p3 ⟨mkMi INTRA_FRAME NONE, some (mkMi INTRA_FRAME NONE), some (mkMi INTRA_FRAME NONE)⟩ = 2 ∧
    MultiRef.vp9_get_pred_context_single_ref_p4 ⟨mkMi INTRA_FRAME NONE, some (mkMi INTRA_FRAME NONE), some (mkMi INTRA_FRAME NONE)⟩ = 2 ∧
    MultiRef.vp9_get_pred_context_single_ref_p5 ⟨mkMi INTRA_FRAME NONE, some (mkMi INTRA_FRAME NONE), some (mkMi INTRA_FRAME NONE)⟩ = 2 ∧
    Baseline.vp9_get_pred_context_comp_ref_p (mkCm ALTREF_FRAME LAST_FRAME GOLDEN_FRAME 1) ⟨mkMi INTRA_FRAME NONE, some (mkMi INTRA_FRAME NONE), some (mkMi INTRA_FRAME NONE)⟩ = 2 ∧
    Baseline.vp9_get_pred_context_single_ref_p1 ⟨mkMi INTRA_FRAME NONE, some (mkMi INTRA_FRAME NONE), some (mkMi INTRA_FRAME NONE)⟩ = 2 ∧
    Baseline.vp9_get_pred_context_single_ref_p2 ⟨mkMi INTRA_FRAME NONE, some (mkMi INTRA_FRAME NONE), some (mkMi INTRA_FRAME NONE)⟩ = 2 :=
  ⟨rfl, C21_both_intra (mkCm ALTREF_FRAME LAST_FRAME GOLDEN_FRAME 1) (mkMi INTRA_FRAME NONE) (mkMi INTRA_FRAME NONE)
    (mkMi INTRA_FRAME NONE) rfl rfl⟩

/-! ## The fixed slot of a compound neighbour -/

theorem isInterFrame_ne (r : MV_REFERENCE_FRAME) (h : isInterFrame r = true) :
    (r != INTRA_FRAME) = true ∧ (r != NONE) = true := by
  cases r <;> simp_all [isInterFrame]

theorem setRef_other_ref (m : MODE_INFO) (i : Fin 2) (r : MV_REFERENCE_FRAME) :
    (setRef m (otherSlot i) r).mbmi.ref_frame i = m.mbmi.ref_frame i := by
  fin_cases i <;> simp [setRef, otherSlot]

theorem setRef_is_inter (m : MODE_INFO) (i : Fin 2) (r : MV_REFERENCE_FRAME)
    (h0 : isInterFrame (m.mbmi.ref_frame 0) = true) (hr : isInterFrame r = true) :
    is_inter_block (setRef m i r).mbmi = true := by
  have h0' := (isInterFrame_ne _ h0).1
  have hr' := (isInterFrame_ne _ hr).1
  fin_cases i <;> simp_all [setRef, is_inter_block]

theorem setRef_has_second (m : MODE_INFO) (i : Fin 2) (r : MV_REFERENCE_FRAME)
    (h1 : isInterFrame (m.mbmi.ref_frame 1) = true) (hr : isInterFrame r = true) :
    has_second_ref (setRef m i r).mbmi = true := by
  have h1' := (isInterFrame_ne _ h1).2
  have hr' := (isInterFrame_ne _ hr).2
  fin_cases i <;> simp_all [setRef, has_second_ref]

/-- C22: the compound-reference context functions read a compound neighbour only through its
variable slot `var_ref_idx = !fix_ref_idx`: for a compound neighbour whose two references are
inter frames, on either side, replacing the reference in the other (fixed) slot by any inter
frame `r` leaves the context of the extended `comp_ref_p`, `_p1`, `_p2`, `_p3` and of the
baseline `comp_ref_p` unchanged, whatever the other neighbour `o` is; and when the sign bias of
the fixed reference is 0 or 1, `var_ref_idx` is `1 - bias` and the fixed slot is `bias`. -/
theorem C22_comp_ref_fixed_slot_irrelevant (cm : VP9_COMMON) (mi m : MODE_INFO)
    (o : Option MODE_INFO) (r : MV_REFERENCE_FRAME)
    (h0 : isInterFrame (m.mbmi.ref_frame 0) = true)
    (h1 : isInterFrame (m.mbmi.ref_frame 1) = true) (hr : isInterFrame r = true) :
    (MultiRef.vp9_get_pred_context_comp_ref_p cm ⟨mi, some (setRef m (otherSlot (lnot (cm.ref_frame_sign_bias cm.comp_fixed_ref))) r), o⟩ =
      MultiRef.vp9_get_pred_context_comp_ref_p cm ⟨mi, some m, o⟩) ∧
    (MultiRef.vp9_get_pred_context_comp_ref_p cm ⟨mi, o, some (setRef m (otherSlot (lnot (cm.ref_frame_sign_bias cm.comp_fixed_ref))) r)⟩ =
      MultiRef.vp9_get_pred_context_comp_ref_p cm ⟨mi, o, some m⟩) ∧
    (MultiRef.vp9_get_pred_context_comp_ref_p1 cm ⟨mi, some (setRef m (otherSlot (lnot (cm.ref_frame_sign_bias cm.comp_fixed_ref))) r), o⟩ =
      MultiRef.vp9_get_pred_context_comp_ref_p1 cm ⟨mi, some m, o⟩) ∧
    (MultiRef.vp9_get_pred_context_comp_ref_p1 cm ⟨mi, o, some (setRef m (otherSlot (lnot (cm.ref_frame_sign_bias cm.comp_fixed_ref))) r)⟩ =
      MultiRef.vp9_get_pred_context_comp_ref_p1 cm ⟨mi, o, some m⟩) ∧
    (MultiRef.vp9_get_pred_context_comp_ref_p2 cm ⟨mi, some (setRef m (otherSlot (lnot (cm.ref_frame_sign_bias cm.comp_fixed_ref))) r), o⟩ =
      MultiRef.vp9_get_pred_context_comp_ref_p2 cm ⟨mi, some m, o⟩) ∧
    (MultiRef.vp9_get_pred_context_comp_ref_p2 cm ⟨mi, o, some (setRef m (otherSlot (lnot (cm.ref_frame_sign_bias cm.comp_fixed_ref))) r)⟩ =
      MultiRef.vp9_get_pred_context_comp_ref_p2 cm ⟨mi, o, some m⟩) ∧
    (MultiRef.vp9_get_pred_context_comp_ref_p3 cm ⟨mi, some (setRef m (otherSlot (lnot (cm.ref_frame_sign_bias cm.comp_fixed_ref))) r), o⟩ =
      MultiRef.vp9_get_pred_context_comp_ref_p3 cm ⟨mi, some m, o⟩) ∧
    (MultiRef.vp9_get_pred_context_comp_ref_p3 cm ⟨mi, o, some (setRef m (otherSlot (lnot (cm.ref_frame_sign_bias cm.comp_fixed_ref))) r)⟩ =
      MultiRef.vp9_get_pred_context_comp_ref_p3 cm ⟨mi, o, some m⟩) ∧
    (Baseline.vp9_get_pred_context_comp_ref_p cm ⟨mi, some (setRef m (otherSlot (lnot (cm.ref_frame_sign_bias cm.comp_fixed_ref))) r), o⟩ =
      Baseline.vp9_get_pred_context_comp_ref_p cm ⟨mi, some m, o⟩) ∧
    (Baseline.vp9_get_pred_context_comp_ref_p cm ⟨mi, o, some (setRef m (otherSlot (lnot (cm.ref_frame_sign_bias cm.comp_fixed_ref))) r)⟩ =
      Baseline.vp9_get_pred_context_comp_ref_p cm ⟨mi, o, some m⟩) ∧
    (cm.ref_frame_sign_bias cm.comp_fixed_ref = 0 ∨ cm.ref_frame_sign_bias cm.comp_fixed_ref = 1 →
      ((lnot (cm.ref_frame_sign_bias cm.comp_fixed_ref)).val : Int) =
        1 - cm.ref_frame_sign_bias cm.comp_fixed_ref ∧
      ((otherSlot (lnot (cm.ref_frame_sign_bias cm.comp_fixed_ref))).val : Int) =
        cm.ref_frame_sign_bias cm.comp_fixed_ref) := by
  have e1 := setRef_is_inter m (otherSlot (lnot (cm.ref_frame_sign_bias cm.comp_fixed_ref))) r
    h0 hr
  have e2 := setRef_has_second m (otherSlot (lnot (cm.ref_frame_sign_bias cm.comp_fixed_ref))) r
    h1 hr
  have e3 := setRef_other_ref m (lnot (cm.ref_frame_sign_bias cm.comp_fixed_ref)) r
  have e4 : is_inter_block m.mbmi = true := (isInterFrame_ne _ h0).1
  have e5 : has_second_ref m.mbmi = true := (isInterFrame_ne _ h1).2
  refine ⟨?_, ?_, ?_, ?_, ?_, ?_, ?_, ?_, ?_, ?_, ?_⟩
  case refine_11 =>
    intro hb
    rcases hb with hb | hb <;> rw [hb] <;> decide
  all_goals
    rcases o with _ | o
    · simp only [MultiRef.vp9_get_pred_context_comp_ref_p,
        MultiRef.vp9_get_pred_context_comp_ref_p1, MultiRef.vp9_get_pred_context_comp_ref_p2,
        MultiRef.vp9_get_pred_context_comp_ref_p3, Baseline.vp9_get_pred_context_comp_ref_p,
        get_mbmi, get_above_mi, get_left_mi, e1, e2, e3, e4, e5, Bool.not_true,
        Bool.not_false, Bool.and_true, Bool.and_false, Bool.true_and, Bool.false_and,
        Bool.or_true, Bool.or_false, Bool.true_or, Bool.false_or, if_true, if_false,
        Bool.false_eq_true, reduceIte]
    · by_cases hio : is_inter_block o.mbmi = true <;>
      simp only [MultiRef.vp9_get_pred_context_comp_ref_p,
        MultiRef.vp9_get_pred_context_comp_ref_p1, MultiRef.vp9_get_pred_context_comp_ref_p2,
        MultiRef.vp9_get_pred_context_comp_ref_p3, Baseline.vp9_get_pred_context_comp_ref_p,
        get_mbmi, get_above_mi, get_left_mi, e1, e2, e3, e4, e5, hio, Bool.not_true,
        Bool.not_false, Bool.and_true, Bool.and_false, Bool.true_and, Bool.false_and,
        Bool.or_true, Bool.or_false, Bool.true_or, Bool.false_or, if_true, if_false,
        Bool.false_eq_true, reduceIte]

/-- Witness for C22: with sign bias 1 the fixed slot is slot 1; a compound above neighbour
`(GOLDEN, ALTREF)` next to a single-reference `LAST` neighbour gives the same extended
`comp_ref_p` context when its slot 1 is replaced by `LAST2_FRAME`. -/
theorem C22_comp_ref_fixed_slot_irrelevant_witness :
    MultiRef.vp9_get_pred_context_comp_ref_p (mkCm ALTREF_FRAME LAST_FRAME GOLDEN_FRAME 1)
      ⟨mkMi INTRA_FRAME NONE, some (setRef (mkMi GOLDEN_FRAME ALTREF_FRAME)
        (otherSlot (lnot ((mkCm ALTREF_FRAME LAST_FRAME GOLDEN_FRAME 1).ref_frame_sign_bias
          (mkCm ALTREF_FRAME LAST_FRAME GOLDEN_FRAME 1).comp_fixed_ref))) LAST2_FRAME),
        some (mkMi LAST_FRAME NONE)⟩ =
    MultiRef.vp9_get_pred_context_comp_ref_p (mkCm ALTREF_FRAME LAST_FRAME GOLDEN_FRAME 1)
      ⟨mkMi INTRA_FRAME NONE, some (mkMi GOLDEN_FRAME ALTREF_FRAME),
        some (mkMi LAST_FRAME NONE)⟩ :=
  (C22_comp_ref_fixed_slot_irrelevant (mkCm ALTREF_FRAME LAST_FRAME GOLDEN_FRAME 1)
    (mkMi INTRA_FRAME NONE) (mkMi GOLDEN_FRAME ALTREF_FRAME) (some (mkMi LAST_FRAME NONE))
    LAST2_FRAME rfl rfl rfl).1

/-! ## Contexts reachable with one neighbour -/

theorem ite_bins0234 {c : Prop} [Decidable c] {x y : Int} (hx : bins0234 x) (hy : bins0234 y) :
    bins0234 (if c then x else y) := by
  split <;> assumption

theorem ite_bins0124 {c : Prop} [Decidable c] {x y : Int} (hx : bins0124 x) (hy : bins0124 y) :
    bins0124 (if c then x else y) := by
  split <;> assumption

namespace MultiRef

theorem ext_comp_ref_p_one_bins (cm : VP9_COMMON) (mi m : MODE_INFO) :
    bins0234 (vp9_get_pred_context_comp_ref_p cm ⟨mi, some m, none⟩) ∧
    bins0234 (vp9_get_pred_context_comp_ref_p cm ⟨mi, none, some m⟩) := by
  constructor <;>
    simp only [vp9_get_pred_context_comp_ref_p, get_mbmi, get_above_mi, get_left_mi] <;>
    repeat' (first | apply ite_bins0234 | decide | (simp only [b2i]; split_ifs <;> decide))

theorem ext_comp_ref_p1_one_bins (cm : VP9_COMMON) (mi m : MODE_INFO) :
    bins0234 (vp9_get_pred_context_comp_ref_p1 cm ⟨mi, some m, none⟩) ∧
    bins0234 (vp9_get_pred_context_comp_ref_p1 cm ⟨mi, none, some m⟩) := by
  constructor <;>
    simp only [vp9_get_pred_context_comp_ref_p1, get_mbmi, get_above_mi, get_left_mi] <;>
    repeat' (first | apply ite_bins0234 | decide | (simp only [b2i]; split_ifs <;> decide))

theorem ext_comp_ref_p2_one_bins (cm : VP9_COMMON) (mi m : MODE_INFO) :
    bins0234 (vp9_get_pred_context_comp_ref_p2 cm ⟨mi, some m, none⟩) ∧
    bins0234 (vp9_get_pred_context_comp_ref_p2 cm ⟨mi, none, some m⟩) := by
  constructor <;>
    simp only [vp9_get_pred_context_comp_ref_p2, get_mbmi, get_above_mi, get_left_mi] <;>
    repeat' (first | apply ite_bins0234 | decide | (simp only [b2i]; split_ifs <;> decide))

theorem ext_comp_ref_p3_one_bins (cm : VP9_COMMON) (mi m : MODE_INFO) :
    bins0234 (vp9_get_pred_context_comp_ref_p3 cm ⟨mi, some m, none⟩) ∧
    bins0234 (vp9_get_pred_context_comp_ref_p3 cm ⟨mi, none, some m⟩) := by
  constructor <;>
    simp only [vp9_get_pred_context_comp_ref_p3, get_mbmi, get_above_mi, get_left_mi] <;>
    repeat' (first | apply ite_bins0234 | decide | (simp only [b2i]; split_ifs <;> decide))

theorem ext_single_ref_p1_one_bins (mi m : MODE_INFO) :
    bins0124 (vp9_get_pred_context_single_ref_p1 ⟨mi, some m, none⟩) ∧
    bins0124 (vp9_get_pred_context_single_ref_p1 ⟨mi, none, some m⟩) := by
  constructor <;>
    simp only [vp9_get_pred_context_single_ref_p1, get_mbmi, get_above_mi, get_left_mi] <;>
    repeat' (first | apply ite_bins0124 | decide | (simp only [b2i]; split_ifs <;> decide))

theorem ext_single_ref_p2_one_bins (mi m : MODE_INFO) :
    bins0234 (vp9_get_pred_context_single_ref_p2 ⟨mi, some m, none⟩) ∧
    bins0234 (vp9_get_pred_context_single_ref_p2 ⟨mi, none, some m⟩) := by
  constructor <;>
    simp only [vp9_get_pred_context_single_ref_p2, get_mbmi, get_above_mi, get_left_mi] <;>
    repeat' (first | apply ite_bins0234 | decide | (simp only [b2i]; split_ifs <;> decide))

theorem ext_single_ref_p3_one_bins (mi m : MODE_INFO) :
    bins0234 (vp9_get_pred_context_single_ref_p3 ⟨mi, some m, none⟩) ∧
    bins0234 (vp9_get_pred_context_single_ref_p3 ⟨mi, none, some m⟩) := by
  constructor <;>
    simp only [vp9_get_pred_context_single_ref_p3, get_mbmi, get_above_mi, get_left_mi] <;>
    repeat' (first | apply ite_bins0234 | decide | (simp only [b2i]; split_ifs <;> decide))

theorem ext_single_ref_p4_one_bins (mi m : MODE_INFO) :
    bins0234 (vp9_get_pred_context_single_ref_p4 ⟨mi, some m, none⟩) ∧
    bins0234 (vp9_get_pred_context_single_ref_p4 ⟨mi, none, some m⟩) := by
  constructor <;>
    simp only [vp9_get_pred_context_single_ref_p4, get_mbmi, get_above_mi, get_left_mi] <;>
    repeat' (first | apply ite_bins0234 | decide | (simp only [b2i]; split_ifs <;> decide))

theorem ext_single_ref_p5_one_bins (mi m : MODE_INFO) :
    bins0234 (vp9_get_pred_context_single_ref_p5 ⟨mi, some m, none⟩) ∧
    bins0234 (vp9_get_pred_context_single_ref_p5 ⟨mi, none, some m⟩) := by
  constructor <;>
    simp only [vp9_get_pred_context_single_ref_p5, get_mbmi, get_above_mi, get_left_mi] <;>
    repeat' (first | apply ite_bins0234 | decide | (simp only [b2i]; split_ifs <;> decide))

end MultiRef

namespace Baseline

theorem base_comp_ref_p_one_bins (cm : VP9_COMMON) (mi m : MODE_INFO) :
    bins0234 (vp9_get_pred_context_comp_ref_p cm ⟨mi, some m, none⟩) ∧
    bins0234 (vp9_get_pred_context_comp_ref_p cm ⟨mi, none, some m⟩) := by
  constructor <;>
    simp only [vp9_get_pred_context_comp_ref_p, get_mbmi, get_above_mi, get_left_mi] <;>
    repeat' (first | apply ite_bins0234 | decide | (simp only [b2i]; split_ifs <;> decide))

theorem base_single_ref_p1_one_bins (mi m : MODE_INFO) :
    bins0124 (vp9_get_pred_context_single_ref_p1 ⟨mi, some m, none⟩) ∧
    bins0124 (vp9_get_pred_context_single_ref_p1 ⟨mi, none, some m⟩) := by
  constructor <;>
    simp only [vp9_get_pred_context_single_ref_p1, get_mbmi, get_above_mi, get_left_mi] <;>
    repeat' (first | apply ite_bins0124 | decide | (simp only [b2i]; split_ifs <;> decide))

theorem base_single_ref_p2_one_bins (mi m : MODE_INFO) :
    bins0234 (vp9_get_pred_context_single_ref_p2 ⟨mi, some m, none⟩) ∧
    bins0234 (vp9_get_pred_context_single_ref_p2 ⟨mi, none, some m⟩) := by
  constructor <;>
    simp only [vp9_get_pred_context_single_ref_p2, get_mbmi, get_above_mi, get_left_mi] <;>
    repeat' (first | apply ite_bins0234 | decide | (simp only [b2i]; split_ifs <;> decide))

end Baseline

/-- C23: when exactly one neighbour is present, above or left, the extended `comp_ref_p`,
`_p1`, `_p2`, `_p3`, `single_ref_p2` to `_p5` and the baseline `comp_ref_p`, `single_ref_p2`
return 0, 2, 3 or 4, never 1, and `single_ref_p1` of both variants returns 0, 1, 2 or 4,
never 3, for every state of the present neighbour and every role configuration. -/
theorem C23_one_neighbour_bins (cm : VP9_COMMON) (mi m : MODE_INFO) :
    (bins0234 (MultiRef.vp9_get_pred_context_comp_ref_p cm ⟨mi, some m, none⟩) ∧
      bins0234 (MultiRef.vp9_get_pred_context_comp_ref_p cm ⟨mi, none, some m⟩)) ∧
    (bins0234 (MultiRef.vp9_get_pred_context_comp_ref_p1 cm ⟨mi, some m, none⟩) ∧
      bins0234 (MultiRef.vp9_get_pred_context_comp_ref_p1 cm ⟨mi, none, some m⟩)) ∧
    (bins0234 (MultiRef.vp9_get_pred_context_comp_ref_p2 cm ⟨mi, some m, none⟩) ∧
      bins0234 (MultiRef.vp9_get_pred_context_comp_ref_p2 cm ⟨mi, none, some m⟩)) ∧
    (bins0234 (MultiRef.vp9_get_pred_context_comp_ref_p3 cm ⟨mi, some m, none⟩) ∧
      bins0234 (MultiRef.vp9_get_pred_context_comp_ref_p3 cm ⟨mi, none, some m⟩)) ∧
    (bins0124 (MultiRef.vp9_get_pred_context_single_ref_p1 ⟨mi, some m, none⟩) ∧
      bins0124 (MultiRef.vp9_get_pred_context_single_ref_p1 ⟨mi, none, some m⟩)) ∧
    (bins0234 (MultiRef.vp9_get_pred_context_single_ref_p2 ⟨mi, some m, none⟩) ∧
      bins0234 (MultiRef.vp9_get_pred_context_single_ref_p2 ⟨mi, none, some m⟩)) ∧
    (bins0234 (MultiRef.vp9_get_pred_context_single_ref_p3 ⟨mi, some m, none⟩) ∧
      bins0234 (MultiRef.vp9_get_pred_context_single_ref_p3 ⟨mi, none, some m⟩)) ∧
    (bins0234 (MultiRef.vp9_get_pred_context_single_ref_p4 ⟨mi, some m, none⟩) ∧
      bins0234 (MultiRef.vp9_get_pred_context_single_ref_p4 ⟨mi, none, some m⟩)) ∧
    (bins0234 (MultiRef.vp9_get_pred_context_single_ref_p5 ⟨mi, some m, none⟩) ∧
      bins0234 (MultiRef.vp9_get_pred_context_single_ref_p5 ⟨mi, none, some m⟩)) ∧
    (bins0234 (Baseline.vp9_get_pred_context_comp_ref_p cm ⟨mi, some m, none⟩) ∧
      bins0234 (Baseline.vp9_get_pred_context_comp_ref_p cm ⟨mi, none, some m⟩)) ∧
    (bins0124 (Baseline.vp9_get_pred_context_single_ref_p1 ⟨mi, some m, none⟩) ∧
      bins0124 (Baseline.vp9_get_pred_context_single_ref_p1 ⟨mi, none, some m⟩)) ∧
    (bins0234 (Baseline.vp9_get_pred_context_single_ref_p2 ⟨mi, some m, none⟩) ∧
      bins0234 (Baseline.vp9_get_pred_context_single_ref_p2 ⟨mi, none, some m⟩)) :=
  ⟨MultiRef.ext_comp_ref_p_one_bins cm mi m,
   MultiRef.ext_comp_ref_p1_one_bins cm mi m,
   MultiRef.ext_comp_ref_p2_one_bins cm mi m,
   MultiRef.ext_comp_ref_p3_one_bins cm mi m,
   MultiRef.ext_single_ref_p1_one_bins mi m,
   MultiRef.ext_single_ref_p2_one_bins mi m,
   MultiRef.ext_single_ref_p3_one_bins mi m,
   MultiRef.ext_single_ref_p4_one_bins mi m,
   MultiRef.ext_single_ref_p5_one_bins mi m,
   Baseline.base_comp_ref_p_one_bins cm mi m,
   Baseline.base_single_ref_p1_one_bins mi m,
   Baseline.base_single_ref_p2_one_bins mi m⟩

/-- C24: when both neighbours are present and exactly one is intra, in either order, each
compound-reference context is 1 if the reference examined in the inter neighbour
(`ref_frame[0]` when it is single-reference, `ref_frame[var_ref_idx]` when it is compound) lies
in the target set of the function, and 3 otherwise. -/
theorem C24_comp_ref_mixed_leaf (cm : VP9_COMMON) (mi i e : MODE_INFO)
    (hi : is_inter_block i.mbmi = false) (he : is_inter_block e.mbmi = true) :
    (MultiRef.vp9_get_pred_context_comp_ref_p cm ⟨mi, some i, some e⟩ =
      if examinedRef cm e.mbmi = GOLDEN_FRAME ∨ examinedRef cm e.mbmi = LAST3_FRAME ∨
          examinedRef cm e.mbmi = LAST4_FRAME then 1 else 3) ∧
    (MultiRef.vp9_get_pred_context_comp_ref_p cm ⟨mi, some e, some i⟩ =
      if examinedRef cm e.mbmi = GOLDEN_FRAME ∨ examinedRef cm e.mbmi = LAST3_FRAME ∨
          examinedRef cm e.mbmi = LAST4_FRAME then 1 else 3) ∧
    (MultiRef.vp9_get_pred_context_comp_ref_p1 cm ⟨mi, some i, some e⟩ =
      if examinedRef cm e.mbmi = LAST_FRAME then 1 else 3) ∧
    (MultiRef.vp9_get_pred_context_comp_ref_p1 cm ⟨mi, some e, some i⟩ =
      if examinedRef cm e.mbmi = LAST_FRAME then 1 else 3) ∧
    (MultiRef.vp9_get_pred_context_comp_ref_p2 cm ⟨mi, some i, some e⟩ =
      if examinedRef cm e.mbmi = GOLDEN_FRAME then 1 else 3) ∧
    (MultiRef.vp9_get_pred_context_comp_ref_p2 cm ⟨mi, some e, some i⟩ =
      if examinedRef cm e.mbmi = GOLDEN_FRAME then 1 else 3) ∧
    (MultiRef.vp9_get_pred_context_comp_ref_p3 cm ⟨mi, some i, some e⟩ =
      if examinedRef cm e.mbmi = LAST3_FRAME then 1 else 3) ∧
    (MultiRef.vp9_get_pred_context_comp_ref_p3 cm ⟨mi, some e, some i⟩ =
      if examinedRef cm e.mbmi = LAST3_FRAME then 1 else 3) ∧
    (Baseline.vp9_get_pred_context_comp_ref_p cm ⟨mi, some i, some e⟩ =
      if examinedRef cm e.mbmi = cm.comp_var_ref 1 then 1 else 3) ∧
    (Baseline.vp9_get_pred_context_comp_ref_p cm ⟨mi, some e, some i⟩ =
      if examinedRef cm e.mbmi = cm.comp_var_ref 1 then 1 else 3) := by
  refine ⟨?_, ?_, ?_, ?_, ?_, ?_, ?_, ?_, ?_, ?_⟩ <;>
    by_cases hs : has_second_ref e.mbmi = true <;>
    simp only [MultiRef.vp9_get_pred_context_comp_ref_p,
      MultiRef.vp9_get_pred_context_comp_ref_p1, MultiRef.vp9_get_pred_context_comp_ref_p2,
      MultiRef.vp9_get_pred_context_comp_ref_p3, Baseline.vp9_get_pred_context_comp_ref_p,
      get_mbmi, get_above_mi, get_left_mi, examinedRef, hi, he, hs, Bool.not_true,
      Bool.not_false, Bool.and_true, Bool.and_false, Bool.true_and, Bool.false_and,
      Bool.or_true, Bool.or_false, Bool.true_or, Bool.false_or, if_true, if_false,
      Bool.false_eq_true, reduceIte] <;>
    generalize e.mbmi.ref_frame _ = r <;>
    (try generalize cm.comp_var_ref 1 = c1) <;>
    (try revert c1) <;> revert r <;> decide

/-- Witness for C24: an intra above neighbour and a single-reference left neighbour that refers
to `GOLDEN_FRAME`: the extended `comp_ref_p` gives 1 and `comp_ref_p1` gives 3. -/
theorem C24_comp_ref_mixed_leaf_witness :
    MultiRef.vp9_get_pred_context_comp_ref_p (mkCm ALTREF_FRAME LAST_FRAME GOLDEN_FRAME 1)
      ⟨mkMi INTRA_FRAME NONE, some (mkMi INTRA_FRAME NONE), some (mkMi GOLDEN_FRAME NONE)⟩ = 1 ∧
    MultiRef.vp9_get_pred_context_comp_ref_p1 (mkCm ALTREF_FRAME LAST_FRAME GOLDEN_FRAME 1)
      ⟨mkMi INTRA_FRAME NONE, some (mkMi INTRA_FRAME NONE), some (mkMi GOLDEN_FRAME NONE)⟩ = 3 :=
  have h := C24_comp_ref_mixed_leaf (mkCm ALTREF_FRAME LAST_FRAME GOLDEN_FRAME 1)
    (mkMi INTRA_FRAME NONE) (mkMi INTRA_FRAME NONE) (mkMi GOLDEN_FRAME NONE) rfl rfl
  ⟨h.1, h.2.2.1⟩

/-- C25: when both neighbours are present, inter and single-reference and both first
references lie outside the pair that the function discriminates (outside `GOLDEN`/`ALTREF` for
`single_ref_p2`, inside `GOLDEN`/`ALTREF` for `single_ref_p3`, outside `LAST`/`LAST2` for
`single_ref_p4`, outside `LAST3`/`LAST4` for `single_ref_p5`), the extended context is 3 if the
two references are equal and 2 if they differ; the baseline `single_ref_p2` is 3 when both
references are `LAST`. -/
theorem C25_single_ref_outside_pair (mi a l : MODE_INFO)
    (hai : is_inter_block a.mbmi = true) (hli : is_inter_block l.mbmi = true)
    (has : has_second_ref a.mbmi = false) (hls : has_second_ref l.mbmi = false) :
    ((a.mbmi.ref_frame 0 ≠ GOLDEN_FRAME ∧ a.mbmi.ref_frame 0 ≠ ALTREF_FRAME) → (l.mbmi.ref_frame 0 ≠ GOLDEN_FRAME ∧ l.mbmi.ref_frame 0 ≠ ALTREF_FRAME) →
      MultiRef.vp9_get_pred_context_single_ref_p2 ⟨mi, some a, some l⟩ =
        if a.mbmi.ref_frame 0 = l.mbmi.ref_frame 0 then 3 else 2) ∧
    ((a.mbmi.ref_frame 0 = GOLDEN_FRAME ∨ a.mbmi.ref_frame 0 = ALTREF_FRAME) → (l.mbmi.ref_frame 0 = GOLDEN_FRAME ∨ l.mbmi.ref_frame 0 = ALTREF_FRAME) →
      MultiRef.vp9_get_pred_context_single_ref_p3 ⟨mi, some a, some l⟩ =
        if a.mbmi.ref_frame 0 = l.mbmi.ref_frame 0 then 3 else 2) ∧
    ((a.mbmi.ref_frame 0 ≠ LAST_FRAME ∧ a.mbmi.ref_frame 0 ≠ LAST2_FRAME) → (l.mbmi.ref_frame 0 ≠ LAST_FRAME ∧ l.mbmi.ref_frame 0 ≠ LAST2_FRAME) →
      MultiRef.vp9_get_pred_context_single_ref_p4 ⟨mi, some a, some l⟩ =
        if a.mbmi.ref_frame 0 = l.mbmi.ref_frame 0 then 3 else 2) ∧
    ((a.mbmi.ref_frame 0 ≠ LAST3_FRAME ∧ a.mbmi.ref_frame 0 ≠ LAST4_FRAME) → (l.mbmi.ref_frame 0 ≠ LAST3_FRAME ∧ l.mbmi.ref_frame 0 ≠ LAST4_FRAME) →
      MultiRef.vp9_get_pred_context_single_ref_p5 ⟨mi, some a, some l⟩ =
        if a.mbmi.ref_frame 0 = l.mbmi.ref_frame 0 then 3 else 2) ∧
    (a.mbmi.ref_frame 0 = LAST_FRAME → l.mbmi.ref_frame 0 = LAST_FRAME →
      Baseline.vp9_get_pred_context_single_ref_p2 ⟨mi, some a, some l⟩ = 3) := by
  refine ⟨?_, ?_, ?_, ?_, ?_⟩ <;>
    (intro h1 h2
     simp only [MultiRef.vp9_get_pred_context_single_ref_p2,
      MultiRef.vp9_get_pred_context_single_ref_p3, MultiRef.vp9_get_pred_context_single_ref_p4,
      MultiRef.vp9_get_pred_context_single_ref_p5, Baseline.vp9_get_pred_context_single_ref_p2,
      get_mbmi, get_above_mi, get_left_mi, hai, hli, has, hls, Bool.not_true,
      Bool.not_false, Bool.and_true, Bool.and_false, Bool.true_and, Bool.false_and,
      Bool.or_true, Bool.or_false, Bool.true_or, Bool.false_or, if_true, if_false,
      Bool.false_eq_true, reduceIte]
     generalize a.mbmi.ref_frame 0 = a0 at h1 ⊢
     generalize l.mbmi.ref_frame 0 = l0 at h2 ⊢
     revert a0 l0
     decide)

/-- Witness for C25: above refers to `LAST_FRAME` and left to `LAST2_FRAME`, both
single-reference: `single_ref_p2` gives 2; with both `LAST_FRAME` the baseline `single_ref_p2`
gives 3. -/
theorem C25_single_ref_outside_pair_witness :
    MultiRef.vp9_get_pred_context_single_ref_p2
      ⟨mkMi INTRA_FRAME NONE, some (mkMi LAST_FRAME NONE), some (mkMi LAST2_FRAME NONE)⟩ = 2 ∧
    Baseline.vp9_get_pred_context_single_ref_p2
      ⟨mkMi INTRA_FRAME NONE, some (mkMi LAST_FRAME NONE), some (mkMi LAST_FRAME NONE)⟩ = 3 :=
  ⟨(C25_single_ref_outside_pair (mkMi INTRA_FRAME NONE) (mkMi LAST_FRAME NONE)
      (mkMi LAST2_FRAME NONE) rfl rfl rfl rfl).1 (by decide) (by decide),
   (C25_single_ref_outside_pair (mkMi INTRA_FRAME NONE) (mkMi LAST_FRAME NONE)
      (mkMi LAST_FRAME NONE) rfl rfl rfl rfl).2.2.2.2 rfl rfl⟩

/-! ## Copy-mode table and one-neighbour reference mode -/

theorem copyNb_some (NOREF : Int) (m : MODE_INFO) :
    copyNb NOREF (some m) =
      if is_inter_block m.mbmi = false then CopyNb.intra
      else if m.mbmi.copy_mode ≠ NOREF then CopyNb.interCopy
      else CopyNb.interNoCopy := rfl

/-- C26: the copy-mode context is the documented table of the states of the two neighbours
(absent, intra, inter with `copy_mode != NOREF`, inter with `copy_mode == NOREF`). -/
theorem C26_copy_mode_table (NOREF : Int) (mi : MODE_INFO) (a l : Option MODE_INFO) :
    vp9_get_copy_mode_context NOREF ⟨mi, a, l⟩ =
      copy_mode_table (copyNb NOREF a) (copyNb NOREF l) := by
  rcases a with _ | a <;> rcases l with _ | l
  · rfl
  · by_cases hi : is_inter_block l.mbmi = true <;>
      by_cases hc : l.mbmi.copy_mode = NOREF <;>
      simp [vp9_get_copy_mode_context, get_mbmi, get_above_mi, get_left_mi, copyNb_some,
        copy_mode_table, hi, hc, copyNb]
  · by_cases hi : is_inter_block a.mbmi = true <;>
      by_cases hc : a.mbmi.copy_mode = NOREF <;>
      simp [vp9_get_copy_mode_context, get_mbmi, get_above_mi, get_left_mi, copyNb_some,
        copy_mode_table, hi, hc, copyNb]
  · by_cases hia : is_inter_block a.mbmi = true <;>
      by_cases hca : a.mbmi.copy_mode = NOREF <;>
      by_cases hil : is_inter_block l.mbmi = true <;>
      by_cases hcl : l.mbmi.copy_mode = NOREF <;>
      simp [vp9_get_copy_mode_context, get_mbmi, get_above_mi, get_left_mi, copyNb_some,
        copy_mode_table, hia, hca, hil, hcl]

/-- Witness for C26: an inter above neighbour with copy mode 1 and an inter left neighbour with
copy mode `NOREF = 0` give the context 1; an intra neighbour alone gives 3. -/
theorem C26_copy_mode_table_witness :
    vp9_get_copy_mode_context 0
      ⟨mkMi INTRA_FRAME NONE, some ⟨mkCopyMbmi 1⟩, some ⟨mkCopyMbmi 0⟩⟩ = 1 ∧
    vp9_get_copy_mode_context 0
      ⟨mkMi INTRA_FRAME NONE, some (mkMi INTRA_FRAME NONE), none⟩ = 3 :=
  ⟨C26_copy_mode_table 0 (mkMi INTRA_FRAME NONE) (some ⟨mkCopyMbmi 1⟩) (some ⟨mkCopyMbmi 0⟩),
   C26_copy_mode_table 0 (mkMi INTRA_FRAME NONE) (some (mkMi INTRA_FRAME NONE)) none⟩

/-- C27: in the reference-mode context with exactly one neighbour present, on either side, the
context is 3 when the neighbour is compound, and otherwise 1 if its first reference equals
`cm.comp_fixed_ref` and 0 if not; an intra neighbour that is not compound gives 0 as soon as
`cm.comp_fixed_ref` is not `INTRA_FRAME`. -/
theorem C27_reference_mode_one_neighbour (cm : VP9_COMMON) (mi m : MODE_INFO) :
    (vp9_get_reference_mode_context cm ⟨mi, some m, none⟩ =
      if has_second_ref m.mbmi = true then 3
      else if m.mbmi.ref_frame 0 = cm.comp_fixed_ref then 1 else 0) ∧
    (vp9_get_reference_mode_context cm ⟨mi, none, some m⟩ =
      if has_second_ref m.mbmi = true then 3
      else if m.mbmi.ref_frame 0 = cm.comp_fixed_ref then 1 else 0) ∧
    (cm.comp_fixed_ref ≠ INTRA_FRAME → is_inter_block m.mbmi = false →
      has_second_ref m.mbmi = false →
      vp9_get_reference_mode_context cm ⟨mi, some m, none⟩ = 0 ∧
      vp9_get_reference_mode_context cm ⟨mi, none, some m⟩ = 0) := by
  have key : ∀ xd : MACROBLOCKD, xd = ⟨mi, some m, none⟩ ∨ xd = ⟨mi, none, some m⟩ →
      vp9_get_reference_mode_context cm xd =
        if has_second_ref m.mbmi = true then 3
        else if m.mbmi.ref_frame 0 = cm.comp_fixed_ref then 1 else 0 := by
    intro xd hxd
    rcases hxd with rfl | rfl <;>
      by_cases hs : has_second_ref m.mbmi = true <;>
      by_cases he : m.mbmi.ref_frame 0 = cm.comp_fixed_ref <;>
      simp [vp9_get_reference_mode_context, get_mbmi, get_above_mi, get_left_mi, hs, he, b2i]
  refine ⟨key _ (Or.inl rfl), key _ (Or.inr rfl), fun hf hi hs => ?_⟩
  have hne : m.mbmi.ref_frame 0 ≠ cm.comp_fixed_ref := by
    intro e
    apply hf
    rw [← e]
    simpa [is_inter_block] using hi
  rw [key _ (Or.inl rfl), key _ (Or.inr rfl)]
  simp [hs, hne]

/-- Witness for C27: an intra neighbour alone, on either side, with the fixed reference
`ALTREF_FRAME`, gives 0. -/
theorem C27_reference_mode_one_neighbour_witness :
    vp9_get_reference_mode_context (mkCm ALTREF_FRAME LAST_FRAME GOLDEN_FRAME 1)
      ⟨mkMi INTRA_FRAME NONE, some (mkMi INTRA_FRAME NONE), none⟩ = 0 ∧
    vp9_get_reference_mode_context (mkCm ALTREF_FRAME LAST_FRAME GOLDEN_FRAME 1)
      ⟨mkMi INTRA_FRAME NONE, none, some (mkMi INTRA_FRAME NONE)⟩ = 0 :=
  (C27_reference_mode_one_neighbour (mkCm ALTREF_FRAME LAST_FRAME GOLDEN_FRAME 1)
    (mkMi INTRA_FRAME NONE) (mkMi INTRA_FRAME NONE)).2.2 (by decide) rfl rfl

/-! ## Inner assertions of the extended `comp_ref_p` -/

theorem fin2_zero_or_one (v : Fin 2) : v = 0 ∨ v = 1 := by
  revert v
  decide

namespace MultiRef

theorem ext_comp_ref_p_asserted_eq (cm : VP9_COMMON) (mi : MODE_INFO)
    (a l : Option MODE_INFO)
    (ha : ∀ m, a = some m → interRefsValid cm m.mbmi = true)
    (hl : ∀ m, l = some m → interRefsValid cm m.mbmi = true) :
    vp9_get_pred_context_comp_ref_p_asserted cm ⟨mi, a, l⟩ =
      some (vp9_get_pred_context_comp_ref_p cm ⟨mi, a, l⟩) := by
  rcases a with _ | ⟨⟨a⟩⟩ <;> rcases l with _ | ⟨⟨l⟩⟩
  · rfl
  · simp only [vp9_get_pred_context_comp_ref_p_asserted, vp9_get_pred_context_comp_ref_p,
      get_mbmi, get_above_mi, get_left_mi, Option.map]
    generalize is_inter_block l = il
    generalize has_second_ref l = sl
    generalize l.ref_frame _ = x
    generalize l.ref_frame _ = y
    clear ha hl
    revert il sl x y
    decide
  · simp only [vp9_get_pred_context_comp_ref_p_asserted, vp9_get_pred_context_comp_ref_p,
      get_mbmi, get_above_mi, get_left_mi, Option.map]
    generalize is_inter_block a = ia
    generalize has_second_ref a = sa
    generalize a.ref_frame _ = x
    generalize a.ref_frame _ = y
    clear ha hl
    revert ia sa x y
    decide
  · have ha1 := ha ⟨a⟩ rfl
    have hl1 := hl ⟨l⟩ rfl
    clear ha hl
    simp only [interRefsValid] at ha1 hl1
    simp only [vp9_get_pred_context_comp_ref_p_asserted, vp9_get_pred_context_comp_ref_p,
      get_mbmi, get_above_mi, get_left_mi, Option.map]
    rcases fin2_zero_or_one (lnot (cm.ref_frame_sign_bias cm.comp_fixed_ref)) with hv | hv <;>
      simp only [hv] at ha1 hl1 ⊢ <;>
      cases hia : is_inter_block a <;> cases hil : is_inter_block l <;>
      cases hsa : has_second_ref a <;> cases hsl : has_second_ref l <;>
      (try simp only [hia, hil, hsa, hsl, Bool.not_true, Bool.not_false, Bool.and_true,
        Bool.and_false, Bool.true_and, Bool.false_and, Bool.or_true, Bool.or_false,
        Bool.true_or, Bool.false_or, if_true, if_false, Bool.false_eq_true,
        reduceIte] at ha1 hl1 ⊢) <;>
      generalize a.ref_frame 0 = a0 at ha1 ⊢ <;>
      generalize a.ref_frame 1 = a1 at ha1 ⊢ <;>
      generalize l.ref_frame 0 = l0 at hl1 ⊢ <;>
      generalize l.ref_frame 1 = l1 at hl1 ⊢ <;>
      (try revert ha1) <;> (try revert hl1) <;>
      (try clear a0) <;> (try clear a1) <;> (try clear l0) <;> (try clear l1) <;>
      (try revert a0) <;> (try revert a1) <;> (try revert l0) <;> (try revert l1) <;>
      decide

end MultiRef

/-- An inner assertion of the extended `vp9_get_pred_context_comp_ref_p` does fail when a compound
neighbour carries `ALTREF` in the variable slot: two compound neighbours `(ALTREF, LAST)` and
`(ALTREF, LAST2)` with the variable slot `0` reach the assertion of the comp/comp branch with
`vrfa = vrfl = ALTREF`. -/
theorem ext_comp_ref_p_asserted_fails :
    MultiRef.vp9_get_pred_context_comp_ref_p_asserted (mkCm ALTREF_FRAME LAST_FRAME GOLDEN_FRAME 1)
      (mkXd (some (mkMi ALTREF_FRAME LAST_FRAME)) (some (mkMi ALTREF_FRAME LAST2_FRAME))) =
      none := by
  decide

/-- C28: the inner assertions of the extended `vp9_get_pred_context_comp_ref_p` never fail when
every present inter neighbour has one of the six inter frames in slot `0` and every present
compound neighbour moreover has an inter frame in slot `1` and a reference other than `ALTREF`
in the variable slot `ref_frame[var_ref_idx]`: under these conditions the function with its
assertions kept returns the value of the function without them, for every role configuration. -/
theorem C28_comp_ref_p_inner_asserts_hold (cm : VP9_COMMON) (xd : MACROBLOCKD)
    (ha : ∀ m, xd.above_mi = some m → interRefsValid cm m.mbmi = true)
    (hl : ∀ m, xd.left_mi = some m → interRefsValid cm m.mbmi = true) :
    MultiRef.vp9_get_pred_context_comp_ref_p_asserted cm xd =
      some (MultiRef.vp9_get_pred_context_comp_ref_p cm xd) := by
  rcases xd with ⟨mi, a, l⟩
  exact MultiRef.ext_comp_ref_p_asserted_eq cm mi a l ha hl

/-- Witness for C28: single-reference neighbours `GOLDEN` above and `LAST` on the left reach the
assertion of the single/single branch, which holds, and the context is `1`; compound neighbours
`(GOLDEN, ALTREF)` and `(LAST, ALTREF)` reach the one of the comp/comp branch. -/
theorem C28_comp_ref_p_inner_asserts_hold_witness :
    MultiRef.vp9_get_pred_context_comp_ref_p_asserted (mkCm ALTREF_FRAME LAST_FRAME GOLDEN_FRAME 1)
        (mkXd (some (mkMi GOLDEN_FRAME NONE)) (some (mkMi LAST_FRAME NONE))) = some 1 ∧
    MultiRef.vp9_get_pred_context_comp_ref_p_asserted (mkCm ALTREF_FRAME LAST_FRAME GOLDEN_FRAME 1)
        (mkXd (some (mkMi GOLDEN_FRAME ALTREF_FRAME)) (some (mkMi LAST_FRAME ALTREF_FRAME))) =
      some 2 :=
  ⟨(C28_comp_ref_p_inner_asserts_hold (mkCm ALTREF_FRAME LAST_FRAME GOLDEN_FRAME 1)
      (mkXd (some (mkMi GOLDEN_FRAME NONE)) (some (mkMi LAST_FRAME NONE)))
      (by intro m h; cases h; decide) (by intro m h; cases h; decide)).trans (by decide),
   (C28_comp_ref_p_inner_asserts_hold (mkCm ALTREF_FRAME LAST_FRAME GOLDEN_FRAME 1)
      (mkXd (some (mkMi GOLDEN_FRAME ALTREF_FRAME)) (some (mkMi LAST_FRAME ALTREF_FRAME)))
      (by intro m h; cases h; decide) (by intro m h; cases h; decide)).trans (by decide)⟩

/-! ## Equivalence up to renaming of reference frames -/

theorem beq_of_injective (s : MV_REFERENCE_FRAME → MV_REFERENCE_FRAME)
    (hinj : Function.Injective s) (x y : MV_REFERENCE_FRAME) : (s x == s y) = (x == y) := by
  by_cases h : x = y
  · subst h
    simp
  · have h2 : s x ≠ s y := fun e => h (hinj e)
    simp [h, h2]

theorem bne_of_injective (s : MV_REFERENCE_FRAME → MV_REFERENCE_FRAME)
    (hinj : Function.Injective s) (x y : MV_REFERENCE_FRAME) : (s x != s y) = (x != y) := by
  simp only [bne, beq_of_injective s hinj]

theorem ite_beq_frame (c : Prop) [Decidable c] (x y z : MV_REFERENCE_FRAME) :
    ((if c then x else y) == z) = if c then (x == z) else (y == z) := by
  split <;> rfl

namespace MultiRef

theorem ext_single_ref_p4_rename (s : MV_REFERENCE_FRAME → MV_REFERENCE_FRAME)
    (hinj : Function.Injective s) (hN : s NONE = NONE) (hI : s INTRA_FRAME = INTRA_FRAME)
    (hP : s LAST_FRAME = GOLDEN_FRAME) (hQ : s LAST2_FRAME = ALTREF_FRAME) (xd : MACROBLOCKD) :
    vp9_get_pred_context_single_ref_p4 xd = vp9_get_pred_context_single_ref_p2 (renameXd s xd) := by
  have eI : ∀ x, (s x != INTRA_FRAME) = (x != INTRA_FRAME) := fun x => by
    rw [← hI, bne_of_injective s hinj, hI]
  have eN : ∀ x, (s x != NONE) = (x != NONE) := fun x => by
    rw [← hN, bne_of_injective s hinj, hN]
  have eP : ∀ x, (s x == GOLDEN_FRAME) = (x == LAST_FRAME) := fun x => by
    rw [← hP, beq_of_injective s hinj]
  have eQ : ∀ x, (s x == ALTREF_FRAME) = (x == LAST2_FRAME) := fun x => by
    rw [← hQ, beq_of_injective s hinj]
  have eC : ∀ x, CHECK_GOLDEN_OR_ALTREF (s x) = CHECK_LAST_OR_LAST2 x := fun x => by
    simp only [CHECK_GOLDEN_OR_ALTREF, CHECK_LAST_OR_LAST2, eP, eQ]
  rcases xd with ⟨mi, _ | ⟨⟨a⟩⟩, _ | ⟨⟨l⟩⟩⟩
  · rfl
  · by_cases hil : (l.ref_frame 0 != INTRA_FRAME) = true <;>
      by_cases hsl : (l.ref_frame 1 != NONE) = true <;>
      simp only [vp9_get_pred_context_single_ref_p4, vp9_get_pred_context_single_ref_p2, renameXd,
        renameNb, Option.map, get_mbmi, get_above_mi, get_left_mi, is_inter_block,
        has_second_ref, hil, hsl, eI, eN, eP, eQ, eC, beq_of_injective s hinj, ite_beq_frame,
        Bool.not_true, Bool.not_false, Bool.and_true, Bool.and_false, Bool.true_and,
      Bool.false_and, Bool.or_true, Bool.or_false, Bool.true_or, Bool.false_or, if_true,
      if_false, Bool.false_eq_true, reduceIte]
  · by_cases hia : (a.ref_frame 0 != INTRA_FRAME) = true <;>
      by_cases hsa : (a.ref_frame 1 != NONE) = true <;>
      simp only [vp9_get_pred_context_single_ref_p4, vp9_get_pred_context_single_ref_p2, renameXd,
        renameNb, Option.map, get_mbmi, get_above_mi, get_left_mi, is_inter_block,
        has_second_ref, hia, hsa, eI, eN, eP, eQ, eC, beq_of_injective s hinj, ite_beq_frame,
        Bool.not_true, Bool.not_false, Bool.and_true, Bool.and_false, Bool.true_and,
      Bool.false_and, Bool.or_true, Bool.or_false, Bool.true_or, Bool.false_or, if_true,
      if_false, Bool.false_eq_true, reduceIte]
  · by_cases hia : (a.ref_frame 0 != INTRA_FRAME) = true <;>
      by_cases hsa : (a.ref_frame 1 != NONE) = true <;>
      by_cases hil : (l.ref_frame 0 != INTRA_FRAME) = true <;>
      by_cases hsl : (l.ref_frame 1 != NONE) = true <;>
      simp only [vp9_get_pred_context_single_ref_p4, vp9_get_pred_context_single_ref_p2, renameXd,
        renameNb, Option.map, get_mbmi, get_above_mi, get_left_mi, is_inter_block,
        has_second_ref, hia, hsa, hil, hsl, eI, eN, eP, eQ, eC, beq_of_injective s hinj,
        ite_beq_frame,
        Bool.not_true, Bool.not_false, Bool.and_true, Bool.and_false, Bool.true_and,
      Bool.false_and, Bool.or_true, Bool.or_false, Bool.true_or, Bool.false_or, if_true,
      if_false, Bool.false_eq_true, reduceIte]

theorem ext_single_ref_p5_rename (s : MV_REFERENCE_FRAME → MV_REFERENCE_FRAME)
    (hinj : Function.Injective s) (hN : s NONE = NONE) (hI : s INTRA_FRAME = INTRA_FRAME)
    (hP : s LAST3_FRAME = GOLDEN_FRAME) (hQ : s LAST4_FRAME = ALTREF_FRAME) (xd : MACROBLOCKD) :
    vp9_get_pred_context_single_ref_p5 xd = vp9_get_pred_context_single_ref_p2 (renameXd s xd) := by
  have eI : ∀ x, (s x != INTRA_FRAME) = (x != INTRA_FRAME) := fun x => by
    rw [← hI, bne_of_injective s hinj, hI]
  have eN : ∀ x, (s x != NONE) = (x != NONE) := fun x => by
    rw [← hN, bne_of_injective s hinj, hN]
  have eP : ∀ x, (s x == GOLDEN_FRAME) = (x == LAST3_FRAME) := fun x => by
    rw [← hP, beq_of_injective s hinj]
  have eQ : ∀ x, (s x == ALTREF_FRAME) = (x == LAST4_FRAME) := fun x => by
    rw [← hQ, beq_of_injective s hinj]
  have eC : ∀ x, CHECK_GOLDEN_OR_ALTREF (s x) = CHECK_LAST3_OR_LAST4 x := fun x => by
    simp only [CHECK_GOLDEN_OR_ALTREF, CHECK_LAST3_OR_LAST4, eP, eQ]
  rcases xd with ⟨mi, _ | ⟨⟨a⟩⟩, _ | ⟨⟨l⟩⟩⟩
  · rfl
  · by_cases hil : (l.ref_frame 0 != INTRA_FRAME) = true <;>
      by_cases hsl : (l.ref_frame 1 != NONE) = true <;>
      simp only [vp9_get_pred_context_single_ref_p5, vp9_get_pred_context_single_ref_p2, renameXd,
        renameNb, Option.map, get_mbmi, get_above_mi, get_left_mi, is_inter_block,
        has_second_ref, hil, hsl, eI, eN, eP, eQ, eC, beq_of_injective s hinj, ite_beq_frame,
        Bool.not_true, Bool.not_false, Bool.and_true, Bool.and_false, Bool.true_and,
      Bool.false_and, Bool.or_true, Bool.or_false, Bool.true_or, Bool.false_or, if_true,
      if_false, Bool.false_eq_true, reduceIte]
  · by_cases hia : (a.ref_frame 0 != INTRA_FRAME) = true <;>
      by_cases hsa : (a.ref_frame 1 != NONE) = true <;>
      simp only [vp9_get_pred_context_single_ref_p5, vp9_get_pred_context_single_ref_p2, renameXd,
        renameNb, Option.map, get_mbmi, get_above_mi, get_left_mi, is_inter_block,
        has_second_ref, hia, hsa, eI, eN, eP, eQ, eC, beq_of_injective s hinj, ite_beq_frame,
        Bool.not_true, Bool.not_false, Bool.and_true, Bool.and_false, Bool.true_and,
      Bool.false_and, Bool.or_true, Bool.or_false, Bool.true_or, Bool.false_or, if_true,
      if_false, Bool.false_eq_true, reduceIte]
  · by_cases hia : (a.ref_frame 0 != INTRA_FRAME) = true <;>
      by_cases hsa : (a.ref_frame 1 != NONE) = true <;>
      by_cases hil : (l.ref_frame 0 != INTRA_FRAME) = true <;>
      by_cases hsl : (l.ref_frame 1 != NONE) = true <;>
      simp only [vp9_get_pred_context_single_ref_p5, vp9_get_pred_context_single_ref_p2, renameXd,
        renameNb, Option.map, get_mbmi, get_above_mi, get_left_mi, is_inter_block,
        has_second_ref, hia, hsa, hil, hsl, eI, eN, eP, eQ, eC, beq_of_injective s hinj,
        ite_beq_frame,
        Bool.not_true, Bool.not_false, Bool.and_true, Bool.and_false, Bool.true_and,
      Bool.false_and, Bool.or_true, Bool.or_false, Bool.true_or, Bool.false_or, if_true,
      if_false, Bool.false_eq_true, reduceIte]

end MultiRef

theorem swapLastGolden_injective : Function.Injective swapLastGolden := by
  intro x y
  revert x y
  decide

theorem swapLast3Golden_injective : Function.Injective swapLast3Golden := by
  intro x y
  revert x y
  decide

theorem swapLastLast3_injective : Function.Injective swapLastLast3 := by
  intro x y
  revert x y
  decide

/-- C29: the extended `single_ref_p4` and `single_ref_p5` are `single_ref_p2` up to a renaming
of reference frames: for every injective renaming `s` that fixes `NONE` and `INTRA_FRAME` (a
permutation of the six inter frames) with `s LAST = GOLDEN` and `s LAST2 = ALTREF`,
`single_ref_p4` on a block context equals `single_ref_p2` on the context renamed by `s`; and
for every such `t` with `t LAST3 = GOLDEN` and `t LAST4 = ALTREF`, `single_ref_p5` equals
`single_ref_p2` on the context renamed by `t`.  The renaming acts on both reference slots of
each present inter neighbour. -/
theorem C29_single_ref_p4_p5_rename_to_p2 (s t : MV_REFERENCE_FRAME → MV_REFERENCE_FRAME)
    (hs : Function.Injective s) (hsN : s NONE = NONE) (hsI : s INTRA_FRAME = INTRA_FRAME)
    (hsP : s LAST_FRAME = GOLDEN_FRAME) (hsQ : s LAST2_FRAME = ALTREF_FRAME)
    (ht : Function.Injective t) (htN : t NONE = NONE) (htI : t INTRA_FRAME = INTRA_FRAME)
    (htP : t LAST3_FRAME = GOLDEN_FRAME) (htQ : t LAST4_FRAME = ALTREF_FRAME)
    (xd : MACROBLOCKD) :
    MultiRef.vp9_get_pred_context_single_ref_p4 xd =
      MultiRef.vp9_get_pred_context_single_ref_p2 (renameXd s xd) ∧
    MultiRef.vp9_get_pred_context_single_ref_p5 xd =
      MultiRef.vp9_get_pred_context_single_ref_p2 (renameXd t xd) :=
  ⟨MultiRef.ext_single_ref_p4_rename s hs hsN hsI hsP hsQ xd,
   MultiRef.ext_single_ref_p5_rename t ht htN htI htP htQ xd⟩

/-- Witness for C29: the renamings that exchange `LAST` with `GOLDEN` and `LAST2` with
`ALTREF`, respectively `LAST3` with `GOLDEN` and `LAST4` with `ALTREF`, at a block context with
an above neighbour `(LAST, LAST3)` and a left neighbour `LAST4`. -/
theorem C29_single_ref_p4_p5_rename_to_p2_witness :
    MultiRef.vp9_get_pred_context_single_ref_p4
        (mkXd (some (mkMi LAST_FRAME LAST3_FRAME)) (some (mkMi LAST4_FRAME NONE))) =
      MultiRef.vp9_get_pred_context_single_ref_p2 (renameXd swapLastGolden
        (mkXd (some (mkMi LAST_FRAME LAST3_FRAME)) (some (mkMi LAST4_FRAME NONE)))) ∧
    MultiRef.vp9_get_pred_context_single_ref_p5
        (mkXd (some (mkMi LAST_FRAME LAST3_FRAME)) (some (mkMi LAST4_FRAME NONE))) =
      MultiRef.vp9_get_pred_context_single_ref_p2 (renameXd swapLast3Golden
        (mkXd (some (mkMi LAST_FRAME LAST3_FRAME)) (some (mkMi LAST4_FRAME NONE)))) :=
  C29_single_ref_p4_p5_rename_to_p2 swapLastGolden swapLast3Golden
    swapLastGolden_injective rfl rfl rfl rfl swapLast3Golden_injective rfl rfl rfl rfl
    (mkXd (some (mkMi LAST_FRAME LAST3_FRAME)) (some (mkMi LAST4_FRAME NONE)))

/-- C30: the extended `comp_ref_p3` is `comp_ref_p1` up to the renaming of reference frames that
exchanges `LAST` with `LAST3` and `LAST2` with `LAST4` and fixes `GOLDEN` and `ALTREF`: for
every role configuration and every state of the neighbours, `comp_ref_p3` on a block context
equals `comp_ref_p1` on the context in which both reference slots of each present inter
neighbour are renamed. -/
theorem C30_comp_ref_p3_is_p1_renamed (cm : VP9_COMMON) (xd : MACROBLOCKD) :
    MultiRef.vp9_get_pred_context_comp_ref_p3 cm xd =
      MultiRef.vp9_get_pred_context_comp_ref_p1 cm (renameXd swapLastLast3 xd) := by
  have hinj := swapLastLast3_injective
  have eI : ∀ x, (swapLastLast3 x != INTRA_FRAME) = (x != INTRA_FRAME) := by decide
  have eN : ∀ x, (swapLastLast3 x != NONE) = (x != NONE) := by decide
  have eP : ∀ x, (swapLastLast3 x == LAST_FRAME) = (x == LAST3_FRAME) := by decide
  have eP2 : ∀ x, (swapLastLast3 x != LAST_FRAME) = (x != LAST3_FRAME) := by decide
  have eQ : ∀ x, (swapLastLast3 x == LAST2_FRAME) = (x == LAST4_FRAME) := by decide
  have eC : ∀ x, MultiRef.CHECK_GOLDEN_LAST3_LAST4 (swapLastLast3 x) =
      MultiRef.CHECK_LAST_LAST2_GOLDEN x := by decide
  rcases xd with ⟨mi, _ | ⟨⟨a⟩⟩, _ | ⟨⟨l⟩⟩⟩
  · rfl
  · by_cases hil : (l.ref_frame 0 != INTRA_FRAME) = true <;>
      by_cases hsl : (l.ref_frame 1 != NONE) = true <;>
      simp only [MultiRef.vp9_get_pred_context_comp_ref_p3,
        MultiRef.vp9_get_pred_context_comp_ref_p1, renameXd,
        renameNb, Option.map, get_mbmi, get_above_mi, get_left_mi, is_inter_block,
        has_second_ref, hil, hsl, eI, eN, eP, eP2, eQ, eC, beq_of_injective _ hinj,
        bne_of_injective _ hinj, ite_beq_frame,
        Bool.not_true, Bool.not_false, Bool.and_true, Bool.and_false, Bool.true_and,
        Bool.false_and, Bool.or_true, Bool.or_false, Bool.true_or, Bool.false_or, if_true,
        if_false, Bool.false_eq_true, reduceIte]
  · by_cases hia : (a.ref_frame 0 != INTRA_FRAME) = true <;>
      by_cases hsa : (a.ref_frame 1 != NONE) = true <;>
      simp only [MultiRef.vp9_get_pred_context_comp_ref_p3,
        MultiRef.vp9_get_pred_context_comp_ref_p1, renameXd,
        renameNb, Option.map, get_mbmi, get_above_mi, get_left_mi, is_inter_block,
        has_second_ref, hia, hsa, eI, eN, eP, eP2, eQ, eC, beq_of_injective _ hinj,
        bne_of_injective _ hinj, ite_beq_frame,
        Bool.not_true, Bool.not_false, Bool.and_true, Bool.and_false, Bool.true_and,
        Bool.false_and, Bool.or_true, Bool.or_false, Bool.true_or, Bool.false_or, if_true,
        if_false, Bool.false_eq_true, reduceIte]
  · by_cases hia : (a.ref_frame 0 != INTRA_FRAME) = true <;>
      by_cases hsa : (a.ref_frame 1 != NONE) = true <;>
      by_cases hil : (l.ref_frame 0 != INTRA_FRAME) = true <;>
      by_cases hsl : (l.ref_frame 1 != NONE) = true <;>
      simp only [MultiRef.vp9_get_pred_context_comp_ref_p3,
        MultiRef.vp9_get_pred_context_comp_ref_p1, renameXd,
        renameNb, Option.map, get_mbmi, get_above_mi, get_left_mi, is_inter_block,
        has_second_ref, hia, hsa, hil, hsl, eI, eN, eP, eP2, eQ, eC, beq_of_injective _ hinj,
        bne_of_injective _ hinj, ite_beq_frame,
        Bool.not_true, Bool.not_false, Bool.and_true, Bool.and_false, Bool.true_and,
        Bool.false_and, Bool.or_true, Bool.or_false, Bool.true_or, Bool.false_or, if_true,
        if_false, Bool.false_eq_true, reduceIte]

/-! ## The extended tables restricted to the baseline reference set -/

namespace MultiRef

theorem ext_single_ref_p1_eq_base (mi : MODE_INFO) (a l : Option MODE_INFO)
    (ha : ∀ m, a = some m → baselineRefs m.mbmi = true)
    (hl : ∀ m, l = some m → baselineRefs m.mbmi = true) :
    vp9_get_pred_context_single_ref_p1 ⟨mi, a, l⟩ =
      Baseline.vp9_get_pred_context_single_ref_p1 ⟨mi, a, l⟩ := by
  rcases a with _ | ⟨⟨a⟩⟩ <;> rcases l with _ | ⟨⟨l⟩⟩
  · rfl
  · have hl1 := hl ⟨l⟩ rfl
    clear ha hl
    simp only [baselineRefs] at hl1
    simp only [vp9_get_pred_context_single_ref_p1, Baseline.vp9_get_pred_context_single_ref_p1,
      get_mbmi, get_above_mi, get_left_mi]
    generalize is_inter_block l = il at hl1 ⊢
    generalize has_second_ref l = sl at hl1 ⊢
    generalize l.ref_frame 0 = l0 at hl1 ⊢
    generalize l.ref_frame 1 = l1 at hl1 ⊢
    clear mi l
    revert il sl l0 l1
    decide
  · have ha1 := ha ⟨a⟩ rfl
    clear ha hl
    simp only [baselineRefs] at ha1
    simp only [vp9_get_pred_context_single_ref_p1, Baseline.vp9_get_pred_context_single_ref_p1,
      get_mbmi, get_above_mi, get_left_mi]
    generalize is_inter_block a = ia at ha1 ⊢
    generalize has_second_ref a = sa at ha1 ⊢
    generalize a.ref_frame 0 = a0 at ha1 ⊢
    generalize a.ref_frame 1 = a1 at ha1 ⊢
    clear mi a
    revert ia sa a0 a1
    decide
  · have ha1 := ha ⟨a⟩ rfl
    have hl1 := hl ⟨l⟩ rfl
    clear ha hl
    simp only [baselineRefs] at ha1 hl1
    simp only [vp9_get_pred_context_single_ref_p1, Baseline.vp9_get_pred_context_single_ref_p1,
      get_mbmi, get_above_mi, get_left_mi]
    cases hia : is_inter_block a <;> cases hil : is_inter_block l <;>
      cases hsa : has_second_ref a <;> cases hsl : has_second_ref l <;>
      (try simp only [hia, hil, hsa, hsl, Bool.not_true, Bool.not_false, Bool.and_true,
        Bool.and_false, Bool.true_and, Bool.false_and, Bool.or_true, Bool.or_false,
        Bool.true_or, Bool.false_or, if_true, if_false, Bool.false_eq_true,
        reduceIte] at ha1 hl1 ⊢) <;>
      generalize a.ref_frame 0 = a0 at ha1 ⊢ <;>
      generalize a.ref_frame 1 = a1 at ha1 ⊢ <;>
      generalize l.ref_frame 0 = l0 at hl1 ⊢ <;>
      generalize l.ref_frame 1 = l1 at hl1 ⊢ <;>
      (try revert ha1) <;> (try revert hl1) <;>
      (try clear a0) <;> (try clear a1) <;> (try clear l0) <;> (try clear l1) <;>
      (try revert a0) <;> (try revert a1) <;> (try revert l0) <;> (try revert l1) <;>
      decide

theorem ext_single_ref_p2_eq_base (mi : MODE_INFO) (a l : Option MODE_INFO)
    (ha : ∀ m, a = some m → baselineRefs m.mbmi = true)
    (hl : ∀ m, l = some m → baselineRefs m.mbmi = true) :
    vp9_get_pred_context_single_ref_p2 ⟨mi, a, l⟩ =
      Baseline.vp9_get_pred_context_single_ref_p2 ⟨mi, a, l⟩ := by
  rcases a with _ | ⟨⟨a⟩⟩ <;> rcases l with _ | ⟨⟨l⟩⟩
  · rfl
  · have hl1 := hl ⟨l⟩ rfl
    clear ha hl
    simp only [baselineRefs] at hl1
    simp only [vp9_get_pred_context_single_ref_p2, Baseline.vp9_get_pred_context_single_ref_p2,
      get_mbmi, get_above_mi, get_left_mi]
    generalize is_inter_block l = il at hl1 ⊢
    generalize has_second_ref l = sl at hl1 ⊢
    generalize l.ref_frame 0 = l0 at hl1 ⊢
    generalize l.ref_frame 1 = l1 at hl1 ⊢
    clear mi l
    revert il sl l0 l1
    decide
  · have ha1 := ha ⟨a⟩ rfl
    clear ha hl
    simp only [baselineRefs] at ha1
    simp only [vp9_get_pred_context_single_ref_p2, Baseline.vp9_get_pred_context_single_ref_p2,
      get_mbmi, get_above_mi, get_left_mi]
    generalize is_inter_block a = ia at ha1 ⊢
    generalize has_second_ref a = sa at ha1 ⊢
    generalize a.ref_frame 0 = a0 at ha1 ⊢
    generalize a.ref_frame 1 = a1 at ha1 ⊢
    clear mi a
    revert ia sa a0 a1
    decide
  · have ha1 := ha ⟨a⟩ rfl
    have hl1 := hl ⟨l⟩ rfl
    clear ha hl
    simp only [baselineRefs] at ha1 hl1
    simp only [vp9_get_pred_context_single_ref_p2, Baseline.vp9_get_pred_context_single_ref_p2,
      get_mbmi, get_above_mi, get_left_mi]
    cases hia : is_inter_block a <;> cases hil : is_inter_block l <;>
      cases hsa : has_second_ref a <;> cases hsl : has_second_ref l <;>
      (try simp only [hia, hil, hsa, hsl, Bool.not_true, Bool.not_false, Bool.and_true,
        Bool.and_false, Bool.true_and, Bool.false_and, Bool.or_true, Bool.or_false,
        Bool.true_or, Bool.false_or, if_true, if_false, Bool.false_eq_true,
        reduceIte] at ha1 hl1 ⊢) <;>
      generalize a.ref_frame 0 = a0 at ha1 ⊢ <;>
      generalize a.ref_frame 1 = a1 at ha1 ⊢ <;>
      generalize l.ref_frame 0 = l0 at hl1 ⊢ <;>
      generalize l.ref_frame 1 = l1 at hl1 ⊢ <;>
      (try revert ha1) <;> (try revert hl1) <;>
      (try clear a0) <;> (try clear a1) <;> (try clear l0) <;> (try clear l1) <;>
      (try revert a0) <;> (try revert a1) <;> (try revert l0) <;> (try revert l1) <;>
      decide

end MultiRef

/-- C31: the extended single-reference tables restrict to the baseline ones: when every present
inter neighbour has a frame of the baseline set `LAST`, `GOLDEN`, `ALTREF` in slot `0`, and in
slot `1` as well when it is compound, the extended `single_ref_p1` returns the context of the
baseline `single_ref_p1` and the extended `single_ref_p2` that of the baseline `single_ref_p2`. -/
theorem C31_single_ref_restricts_to_baseline (xd : MACROBLOCKD)
    (ha : ∀ m, xd.above_mi = some m → baselineRefs m.mbmi = true)
    (hl : ∀ m, xd.left_mi = some m → baselineRefs m.mbmi = true) :
    MultiRef.vp9_get_pred_context_single_ref_p1 xd =
      Baseline.vp9_get_pred_context_single_ref_p1 xd ∧
    MultiRef.vp9_get_pred_context_single_ref_p2 xd =
      Baseline.vp9_get_pred_context_single_ref_p2 xd := by
  rcases xd with ⟨mi, a, l⟩
  exact ⟨MultiRef.ext_single_ref_p1_eq_base mi a l ha hl,
    MultiRef.ext_single_ref_p2_eq_base mi a l ha hl⟩

/-- Witness for C31: a compound above neighbour `(LAST, ALTREF)` and a single-reference left
neighbour `GOLDEN`. -/
theorem C31_single_ref_restricts_to_baseline_witness :
    MultiRef.vp9_get_pred_context_single_ref_p1
        (mkXd (some (mkMi LAST_FRAME ALTREF_FRAME)) (some (mkMi GOLDEN_FRAME NONE))) =
      Baseline.vp9_get_pred_context_single_ref_p1
        (mkXd (some (mkMi LAST_FRAME ALTREF_FRAME)) (some (mkMi GOLDEN_FRAME NONE))) ∧
    MultiRef.vp9_get_pred_context_single_ref_p2
        (mkXd (some (mkMi LAST_FRAME ALTREF_FRAME)) (some (mkMi GOLDEN_FRAME NONE))) =
      Baseline.vp9_get_pred_context_single_ref_p2
        (mkXd (some (mkMi LAST_FRAME ALTREF_FRAME)) (some (mkMi GOLDEN_FRAME NONE))) :=
  C31_single_ref_restricts_to_baseline
    (mkXd (some (mkMi LAST_FRAME ALTREF_FRAME)) (some (mkMi GOLDEN_FRAME NONE)))
    (by intro m h; cases h; decide) (by intro m h; cases h; decide)

/-- Outside the baseline set the two variants differ: a lone single-reference neighbour
`LAST2` gives 4 in the extended `single_ref_p1` and 0 in the baseline one. -/
theorem ext_single_ref_p1_ne_base_outside :
    MultiRef.vp9_get_pred_context_single_ref_p1 (mkXd (some (mkMi LAST2_FRAME NONE)) none) = 4 ∧
    Baseline.vp9_get_pred_context_single_ref_p1 (mkXd (some (mkMi LAST2_FRAME NONE)) none) =
      0 := by
  decide

namespace MultiRef

theorem ext_comp_ref_p_eq_base (cm : VP9_COMMON) (mi : MODE_INFO) (a l : Option MODE_INFO)
    (hf : cm.comp_fixed_ref = ALTREF_FRAME) (hv0 : cm.comp_var_ref 0 = LAST_FRAME)
    (hv1 : cm.comp_var_ref 1 = GOLDEN_FRAME)
    (ha : ∀ m, a = some m → baselineCompRefs cm m.mbmi = true)
    (hl : ∀ m, l = some m → baselineCompRefs cm m.mbmi = true) :
    vp9_get_pred_context_comp_ref_p cm ⟨mi, a, l⟩ =
      Baseline.vp9_get_pred_context_comp_ref_p cm ⟨mi, a, l⟩ := by
  rcases a with _ | ⟨⟨a⟩⟩ <;> rcases l with _ | ⟨⟨l⟩⟩
  · rfl
  · have hl1 := hl ⟨l⟩ rfl
    clear ha hl
    simp only [baselineCompRefs, baselineRefs, hf] at hl1
    simp only [vp9_get_pred_context_comp_ref_p, Baseline.vp9_get_pred_context_comp_ref_p,
      get_mbmi, get_above_mi, get_left_mi, hf, hv0, hv1]
    rcases fin2_zero_or_one (lnot (cm.ref_frame_sign_bias ALTREF_FRAME)) with hv | hv <;>
      simp only [hv] at hl1 ⊢ <;>
      generalize is_inter_block l = il at hl1 ⊢ <;>
      generalize has_second_ref l = sl at hl1 ⊢ <;>
      generalize l.ref_frame 0 = l0 at hl1 ⊢ <;>
      generalize l.ref_frame 1 = l1 at hl1 ⊢ <;>
      revert hl1 <;> (try clear l0) <;> (try clear l1) <;>
      (try revert l0) <;> (try revert l1) <;> revert il sl <;>
      decide
  · have ha1 := ha ⟨a⟩ rfl
    clear ha hl
    simp only [baselineCompRefs, baselineRefs, hf] at ha1
    simp only [vp9_get_pred_context_comp_ref_p, Baseline.vp9_get_pred_context_comp_ref_p,
      get_mbmi, get_above_mi, get_left_mi, hf, hv0, hv1]
    rcases fin2_zero_or_one (lnot (cm.ref_frame_sign_bias ALTREF_FRAME)) with hv | hv <;>
      simp only [hv] at ha1 ⊢ <;>
      generalize is_inter_block a = ia at ha1 ⊢ <;>
      generalize has_second_ref a = sa at ha1 ⊢ <;>
      generalize a.ref_frame 0 = a0 at ha1 ⊢ <;>
      generalize a.ref_frame 1 = a1 at ha1 ⊢ <;>
      revert ha1 <;> (try clear a0) <;> (try clear a1) <;>
      (try revert a0) <;> (try revert a1) <;> revert ia sa <;>
      decide
  · have ha1 := ha ⟨a⟩ rfl
    have hl1 := hl ⟨l⟩ rfl
    clear ha hl
    simp only [baselineCompRefs, baselineRefs, hf] at ha1 hl1
    simp only [vp9_get_pred_context_comp_ref_p, Baseline.vp9_get_pred_context_comp_ref_p,
      get_mbmi, get_above_mi, get_left_mi, hf, hv0, hv1]
    rcases fin2_zero_or_one (lnot (cm.ref_frame_sign_bias ALTREF_FRAME)) with hv | hv <;>
      simp only [hv] at ha1 hl1 ⊢ <;>
      cases hia : is_inter_block a <;> cases hil : is_inter_block l <;>
      cases hsa : has_second_ref a <;> cases hsl : has_second_ref l <;>
      (try simp only [hia, hil, hsa, hsl, Bool.not_true, Bool.not_false, Bool.and_true,
        Bool.and_false, Bool.true_and, Bool.false_and, Bool.or_true, Bool.or_false,
        Bool.true_or, Bool.false_or, if_true, if_false, Bool.false_eq_true,
        reduceIte] at ha1 hl1 ⊢) <;>
      generalize a.ref_frame 0 = a0 at ha1 ⊢ <;>
      generalize a.ref_frame 1 = a1 at ha1 ⊢ <;>
      generalize l.ref_frame 0 = l0 at hl1 ⊢ <;>
      generalize l.ref_frame 1 = l1 at hl1 ⊢ <;>
      (try revert ha1) <;> (try revert hl1) <;>
      (try clear a0) <;> (try clear a1) <;> (try clear l0) <;> (try clear l1) <;>
      (try revert a0) <;> (try revert a1) <;> (try revert l0) <;> (try revert l1) <;>
      decide

end MultiRef

/-- C32: under the standard role configuration (`comp_fixed_ref = ALTREF`,
`comp_var_ref = [LAST, GOLDEN]`, any sign bias, the same for both variants), when every present
inter neighbour has its references in the baseline set `LAST`, `GOLDEN`, `ALTREF` and every
present compound neighbour holds `LAST` or `GOLDEN` in the variable slot, the extended and the
baseline `vp9_get_pred_context_comp_ref_p` return the same context. -/
theorem C32_comp_ref_p_restricts_to_baseline (cm : VP9_COMMON) (xd : MACROBLOCKD)
    (hf : cm.comp_fixed_ref = ALTREF_FRAME) (hv0 : cm.comp_var_ref 0 = LAST_FRAME)
    (hv1 : cm.comp_var_ref 1 = GOLDEN_FRAME)
    (ha : ∀ m, xd.above_mi = some m → baselineCompRefs cm m.mbmi = true)
    (hl : ∀ m, xd.left_mi = some m → baselineCompRefs cm m.mbmi = true) :
    MultiRef.vp9_get_pred_context_comp_ref_p cm xd =
      Baseline.vp9_get_pred_context_comp_ref_p cm xd := by
  rcases xd with ⟨mi, a, l⟩
  exact MultiRef.ext_comp_ref_p_eq_base cm mi a l hf hv0 hv1 ha hl

/-- Witness for C32: two compound neighbours `(LAST, ALTREF)` and `(GOLDEN, ALTREF)` with the
variable slot `0`. -/
theorem C32_comp_ref_p_restricts_to_baseline_witness :
    MultiRef.vp9_get_pred_context_comp_ref_p (mkCm ALTREF_FRAME LAST_FRAME GOLDEN_FRAME 1)
        (mkXd (some (mkMi LAST_FRAME ALTREF_FRAME)) (some (mkMi GOLDEN_FRAME ALTREF_FRAME))) =
      Baseline.vp9_get_pred_context_comp_ref_p (mkCm ALTREF_FRAME LAST_FRAME GOLDEN_FRAME 1)
        (mkXd (some (mkMi LAST_FRAME ALTREF_FRAME)) (some (mkMi GOLDEN_FRAME ALTREF_FRAME))) :=
  C32_comp_ref_p_restricts_to_baseline (mkCm ALTREF_FRAME LAST_FRAME GOLDEN_FRAME 1)
    (mkXd (some (mkMi LAST_FRAME ALTREF_FRAME)) (some (mkMi GOLDEN_FRAME ALTREF_FRAME)))
    rfl rfl rfl (by intro m h; cases h; decide) (by intro m h; cases h; decide)

/-- The proviso on the variable slot is needed: two compound neighbours holding `ALTREF` in the
variable slot give 2 in the extended `comp_ref_p` and 4 in the baseline one. -/
theorem ext_comp_ref_p_ne_base_altref_var :
    MultiRef.vp9_get_pred_context_comp_ref_p (mkCm ALTREF_FRAME LAST_FRAME GOLDEN_FRAME 1)
        (mkXd (some (mkMi ALTREF_FRAME LAST_FRAME)) (some (mkMi ALTREF_FRAME GOLDEN_FRAME))) =
      2 ∧
    Baseline.vp9_get_pred_context_comp_ref_p (mkCm ALTREF_FRAME LAST_FRAME GOLDEN_FRAME 1)
        (mkXd (some (mkMi ALTREF_FRAME LAST_FRAME)) (some (mkMi ALTREF_FRAME GOLDEN_FRAME))) =
      4 := by
  decide

/-! ## Intra neighbours in `single_ref_p1` -/

/-- C33: for `single_ref_p1` of both reference-set variants an intra neighbour is equivalent to
an absent one: replacing the above neighbour, the left neighbour or both by "absent" whenever
they are present and intra (`dropIntra`) leaves the context unchanged, for every state of the
other neighbour. -/
theorem C33_single_ref_p1_intra_as_absent (mi : MODE_INFO) (a l : Option MODE_INFO) :
    (MultiRef.vp9_get_pred_context_single_ref_p1 ⟨mi, dropIntra a, l⟩ =
        MultiRef.vp9_get_pred_context_single_ref_p1 ⟨mi, a, l⟩ ∧
      MultiRef.vp9_get_pred_context_single_ref_p1 ⟨mi, a, dropIntra l⟩ =
        MultiRef.vp9_get_pred_context_single_ref_p1 ⟨mi, a, l⟩ ∧
      MultiRef.vp9_get_pred_context_single_ref_p1 ⟨mi, dropIntra a, dropIntra l⟩ =
        MultiRef.vp9_get_pred_context_single_ref_p1 ⟨mi, a, l⟩) ∧
    (Baseline.vp9_get_pred_context_single_ref_p1 ⟨mi, dropIntra a, l⟩ =
        Baseline.vp9_get_pred_context_single_ref_p1 ⟨mi, a, l⟩ ∧
      Baseline.vp9_get_pred_context_single_ref_p1 ⟨mi, a, dropIntra l⟩ =
        Baseline.vp9_get_pred_context_single_ref_p1 ⟨mi, a, l⟩ ∧
      Baseline.vp9_get_pred_context_single_ref_p1 ⟨mi, dropIntra a, dropIntra l⟩ =
        Baseline.vp9_get_pred_context_single_ref_p1 ⟨mi, a, l⟩) := by
  rcases a with _ | ⟨⟨a⟩⟩ <;> rcases l with _ | ⟨⟨l⟩⟩
  · exact ⟨⟨rfl, rfl, rfl⟩, ⟨rfl, rfl, rfl⟩⟩
  · cases hil : is_inter_block l <;>
      simp [MultiRef.vp9_get_pred_context_single_ref_p1,
        Baseline.vp9_get_pred_context_single_ref_p1, dropIntra, get_mbmi, get_above_mi,
        get_left_mi, hil]
  · cases hia : is_inter_block a <;>
      simp [MultiRef.vp9_get_pred_context_single_ref_p1,
        Baseline.vp9_get_pred_context_single_ref_p1, dropIntra, get_mbmi, get_above_mi,
        get_left_mi, hia]
  · cases hia : is_inter_block a <;> cases hil : is_inter_block l <;>
      simp [MultiRef.vp9_get_pred_context_single_ref_p1,
        Baseline.vp9_get_pred_context_single_ref_p1, dropIntra, get_mbmi, get_above_mi,
        get_left_mi, hia, hil]

/-- The equivalence of C33 is particular to `single_ref_p1`: in the extended `single_ref_p2` an
intra neighbour next to a single-reference `LAST` neighbour gives 3, an absent one 2. -/
theorem ext_single_ref_p2_intra_not_absent :
    MultiRef.vp9_get_pred_context_single_ref_p2
        (mkXd (some (mkMi INTRA_FRAME NONE)) (some (mkMi LAST_FRAME NONE))) = 3 ∧
    MultiRef.vp9_get_pred_context_single_ref_p2
        (mkXd (dropIntra (some (mkMi INTRA_FRAME NONE))) (some (mkMi LAST_FRAME NONE))) = 2 := by
  decide

/-! ## Every context slot is reached -/

theorem context_cases (c : Int) (h0 : 0 ≤ c) (h4 : c < REF_CONTEXTS) :
    c = 0 ∨ c = 1 ∨ c = 2 ∨ c = 3 ∨ c = 4 := by
  unfold REF_CONTEXTS at h4
  omega

theorem reaches_at (ok : MV_REFERENCE_FRAME → Bool) (f : MACROBLOCKD → Int) (c : Int)
    (a l : Option MODE_INFO) (ha : nbOfSet ok a = true) (hl : nbOfSet ok l = true)
    (h : f (mkXd a l) = c) : reaches ok f c :=
  ⟨a, l, ha, hl, h⟩

theorem ext_comp_ref_p_slots (c : Int) (h0 : 0 ≤ c) (h4 : c < REF_CONTEXTS) :
    ∃ cm : VP9_COMMON, reaches isInterFrame (MultiRef.vp9_get_pred_context_comp_ref_p cm) c := by
  rcases context_cases c h0 h4 with rfl | rfl | rfl | rfl | rfl
  · exact ⟨(mkCm ALTREF_FRAME LAST_FRAME GOLDEN_FRAME 1), reaches_at _ _ _ none
      (some (mkMi LAST3_FRAME NONE)) (by decide) (by decide) (by decide)⟩
  · exact ⟨(mkCm ALTREF_FRAME LAST_FRAME GOLDEN_FRAME 1), reaches_at _ _ _ (some (mkMi INTRA_FRAME NONE))
      (some (mkMi LAST3_FRAME NONE)) (by decide) (by decide) (by decide)⟩
  · exact ⟨(mkCm ALTREF_FRAME LAST_FRAME GOLDEN_FRAME 1), reaches_at _ _ _ none
      none (by decide) (by decide) (by decide)⟩
  · exact ⟨(mkCm ALTREF_FRAME LAST_FRAME GOLDEN_FRAME 1), reaches_at _ _ _ none
      (some (mkMi LAST_FRAME NONE)) (by decide) (by decide) (by decide)⟩
  · exact ⟨(mkCm ALTREF_FRAME LAST_FRAME GOLDEN_FRAME 1), reaches_at _ _ _ none
      (some (mkMi LAST_FRAME ALTREF_FRAME)) (by decide) (by decide) (by decide)⟩

theorem ext_comp_ref_p1_slots (c : Int) (h0 : 0 ≤ c) (h4 : c < REF_CONTEXTS) :
    ∃ cm : VP9_COMMON, reaches isInterFrame (MultiRef.vp9_get_pred_context_comp_ref_p1 cm) c := by
  rcases context_cases c h0 h4 with rfl | rfl | rfl | rfl | rfl
  · exact ⟨(mkCm ALTREF_FRAME LAST_FRAME GOLDEN_FRAME 1), reaches_at _ _ _ none
      (some (mkMi LAST_FRAME NONE)) (by decide) (by decide) (by decide)⟩
  · exact ⟨(mkCm ALTREF_FRAME LAST_FRAME GOLDEN_FRAME 1), reaches_at _ _ _ (some (mkMi INTRA_FRAME NONE))
      (some (mkMi LAST_FRAME NONE)) (by decide) (by decide) (by decide)⟩
  · exact ⟨(mkCm ALTREF_FRAME LAST_FRAME GOLDEN_FRAME 1), reaches_at _ _ _ none
      none (by decide) (by decide) (by decide)⟩
  · exact ⟨(mkCm ALTREF_FRAME LAST_FRAME GOLDEN_FRAME 1), reaches_at _ _ _ none
      (some (mkMi LAST3_FRAME NONE)) (by decide) (by decide) (by decide)⟩
  · exact ⟨(mkCm ALTREF_FRAME LAST_FRAME GOLDEN_FRAME 1), reaches_at _ _ _ none
      (some (mkMi LAST2_FRAME ALTREF_FRAME)) (by decide) (by decide) (by decide)⟩

theorem ext_comp_ref_p2_slots (c : Int) (h0 : 0 ≤ c) (h4 : c < REF_CONTEXTS) :
    ∃ cm : VP9_COMMON, reaches isInterFrame (MultiRef.vp9_get_pred_context_comp_ref_p2 cm) c := by
  rcases context_cases c h0 h4 with rfl | rfl | rfl | rfl | rfl
  · exact ⟨(mkCm ALTREF_FRAME LAST_FRAME GOLDEN_FRAME 1), reaches_at _ _ _ none
      (some (mkMi GOLDEN_FRAME NONE)) (by decide) (by decide) (by decide)⟩
  · exact ⟨(mkCm ALTREF_FRAME LAST_FRAME GOLDEN_FRAME 1), reaches_at _ _ _ (some (mkMi INTRA_FRAME NONE))
      (some (mkMi GOLDEN_FRAME NONE)) (by decide) (by decide) (by decide)⟩
  · exact ⟨(mkCm ALTREF_FRAME LAST_FRAME GOLDEN_FRAME 1), reaches_at _ _ _ none
      none (by decide) (by decide) (by decide)⟩
  · exact ⟨(mkCm ALTREF_FRAME LAST_FRAME GOLDEN_FRAME 1), reaches_at _ _ _ none
      (some (mkMi LAST_FRAME NONE)) (by decide) (by decide) (by decide)⟩
  · exact ⟨(mkCm ALTREF_FRAME LAST_FRAME GOLDEN_FRAME 1), reaches_at _ _ _ none
      (some (mkMi LAST_FRAME ALTREF_FRAME)) (by decide) (by decide) (by decide)⟩

theorem ext_comp_ref_p3_slots (c : Int) (h0 : 0 ≤ c) (h4 : c < REF_CONTEXTS) :
    ∃ cm : VP9_COMMON, reaches isInterFrame (MultiRef.vp9_get_pred_context_comp_ref_p3 cm) c := by
  rcases context_cases c h0 h4 with rfl | rfl | rfl | rfl | rfl
  · exact ⟨(mkCm ALTREF_FRAME LAST_FRAME GOLDEN_FRAME 1), reaches_at _ _ _ none
      (some (mkMi LAST3_FRAME NONE)) (by decide) (by decide) (by decide)⟩
  · exact ⟨(mkCm ALTREF_FRAME LAST_FRAME GOLDEN_FRAME 1), reaches_at _ _ _ (some (mkMi INTRA_FRAME NONE))
      (some (mkMi LAST3_FRAME NONE)) (by decide) (by decide) (by decide)⟩
  · exact ⟨(mkCm ALTREF_FRAME LAST_FRAME GOLDEN_FRAME 1), reaches_at _ _ _ none
      none (by decide) (by decide) (by decide)⟩
  · exact ⟨(mkCm ALTREF_FRAME LAST_FRAME GOLDEN_FRAME 1), reaches_at _ _ _ none
      (some (mkMi LAST_FRAME NONE)) (by decide) (by decide) (by decide)⟩
  · exact ⟨(mkCm ALTREF_FRAME LAST_FRAME GOLDEN_FRAME 1), reaches_at _ _ _ none
      (some (mkMi LAST_FRAME ALTREF_FRAME)) (by decide) (by decide) (by decide)⟩

theorem ext_single_ref_p1_slots (c : Int) (h0 : 0 ≤ c) (h4 : c < REF_CONTEXTS) :
    reaches isInterFrame MultiRef.vp9_get_pred_context_single_ref_p1 c := by
  rcases context_cases c h0 h4 with rfl | rfl | rfl | rfl | rfl
  · exact reaches_at _ _ _ none
      (some (mkMi GOLDEN_FRAME NONE)) (by decide) (by decide) (by decide)
  · exact reaches_at _ _ _ none
      (some (mkMi GOLDEN_FRAME ALTREF_FRAME)) (by decide) (by decide) (by decide)
  · exact reaches_at _ _ _ none
      none (by decide) (by decide) (by decide)
  · exact reaches_at _ _ _ (some (mkMi LAST_FRAME NONE))
      (some (mkMi GOLDEN_FRAME ALTREF_FRAME)) (by decide) (by decide) (by decide)
  · exact reaches_at _ _ _ none
      (some (mkMi LAST_FRAME NONE)) (by decide) (by decide) (by decide)

theorem ext_single_ref_p2_slots (c : Int) (h0 : 0 ≤ c) (h4 : c < REF_CONTEXTS) :
    reaches isInterFrame MultiRef.vp9_get_pred_context_single_ref_p2 c := by
  rcases context_cases c h0 h4 with rfl | rfl | rfl | rfl | rfl
  · exact reaches_at _ _ _ none
      (some (mkMi ALTREF_FRAME NONE)) (by decide) (by decide) (by decide)
  · exact reaches_at _ _ _ (some (mkMi INTRA_FRAME NONE))
      (some (mkMi LAST_FRAME ALTREF_FRAME)) (by decide) (by decide) (by decide)
  · exact reaches_at _ _ _ none
      none (by decide) (by decide) (by decide)
  · exact reaches_at _ _ _ none
      (some (mkMi GOLDEN_FRAME ALTREF_FRAME)) (by decide) (by decide) (by decide)
  · exact reaches_at _ _ _ none
      (some (mkMi GOLDEN_FRAME NONE)) (by decide) (by decide) (by decide)

theorem ext_single_ref_p3_slots (c : Int) (h0 : 0 ≤ c) (h4 : c < REF_CONTEXTS) :
    reaches isInterFrame MultiRef.vp9_get_pred_context_single_ref_p3 c := by
  rcases context_cases c h0 h4 with rfl | rfl | rfl | rfl | rfl
  · exact reaches_at _ _ _ none
      (some (mkMi LAST3_FRAME NONE)) (by decide) (by decide) (by decide)
  · exact reaches_at _ _ _ (some (mkMi INTRA_FRAME NONE))
      (some (mkMi LAST3_FRAME ALTREF_FRAME)) (by decide) (by decide) (by decide)
  · exact reaches_at _ _ _ none
      none (by decide) (by decide) (by decide)
  · exact reaches_at _ _ _ none
      (some (mkMi LAST_FRAME ALTREF_FRAME)) (by decide) (by decide) (by decide)
  · exact reaches_at _ _ _ none
      (some (mkMi LAST_FRAME NONE)) (by decide) (by decide) (by decide)

theorem ext_single_ref_p4_slots (c : Int) (h0 : 0 ≤ c) (h4 : c < REF_CONTEXTS) :
    reaches isInterFrame MultiRef.vp9_get_pred_context_single_ref_p4 c := by
  rcases context_cases c h0 h4 with rfl | rfl | rfl | rfl | rfl
  · exact reaches_at _ _ _ none
      (some (mkMi LAST2_FRAME NONE)) (by decide) (by decide) (by decide)
  · exact reaches_at _ _ _ (some (mkMi INTRA_FRAME NONE))
      (some (mkMi LAST2_FRAME ALTREF_FRAME)) (by decide) (by decide) (by decide)
  · exact reaches_at _ _ _ none
      none (by decide) (by decide) (by decide)
  · exact reaches_at _ _ _ none
      (some (mkMi LAST_FRAME ALTREF_FRAME)) (by decide) (by decide) (by decide)
  · exact reaches_at _ _ _ none
      (some (mkMi LAST_FRAME NONE)) (by decide) (by decide) (by decide)

theorem ext_single_ref_p5_slots (c : Int) (h0 : 0 ≤ c) (h4 : c < REF_CONTEXTS) :
    reaches isInterFrame MultiRef.vp9_get_pred_context_single_ref_p5 c := by
  rcases context_cases c h0 h4 with rfl | rfl | rfl | rfl | rfl
  · exact reaches_at _ _ _ none
      (some (mkMi LAST4_FRAME NONE)) (by decide) (by decide) (by decide)
  · exact reaches_at _ _ _ (some (mkMi INTRA_FRAME NONE))
      (some (mkMi LAST_FRAME ALTREF_FRAME)) (by decide) (by decide) (by decide)
  · exact reaches_at _ _ _ none
      none (by decide) (by decide) (by decide)
  · exact reaches_at _ _ _ none
      (some (mkMi LAST3_FRAME ALTREF_FRAME)) (by decide) (by decide) (by decide)
  · exact reaches_at _ _ _ none
      (some (mkMi LAST3_FRAME NONE)) (by decide) (by decide) (by decide)

theorem base_comp_ref_p_slots (c : Int) (h0 : 0 ≤ c) (h4 : c < REF_CONTEXTS) :
    ∃ cm : VP9_COMMON, reaches isBaselineFrame (Baseline.vp9_get_pred_context_comp_ref_p cm) c := by
  rcases context_cases c h0 h4 with rfl | rfl | rfl | rfl | rfl
  · exact ⟨(mkCm ALTREF_FRAME LAST_FRAME GOLDEN_FRAME 1), reaches_at _ _ _ none
      (some (mkMi GOLDEN_FRAME NONE)) (by decide) (by decide) (by decide)⟩
  · exact ⟨(mkCm ALTREF_FRAME LAST_FRAME GOLDEN_FRAME 1), reaches_at _ _ _ (some (mkMi INTRA_FRAME NONE))
      (some (mkMi GOLDEN_FRAME NONE)) (by decide) (by decide) (by decide)⟩
  · exact ⟨(mkCm ALTREF_FRAME LAST_FRAME GOLDEN_FRAME 1), reaches_at _ _ _ none
      none (by decide) (by decide) (by decide)⟩
  · exact ⟨(mkCm ALTREF_FRAME LAST_FRAME GOLDEN_FRAME 1), reaches_at _ _ _ none
      (some (mkMi LAST_FRAME NONE)) (by decide) (by decide) (by decide)⟩
  · exact ⟨(mkCm ALTREF_FRAME LAST_FRAME GOLDEN_FRAME 1), reaches_at _ _ _ none
      (some (mkMi LAST_FRAME ALTREF_FRAME)) (by decide) (by decide) (by decide)⟩

theorem base_single_ref_p1_slots (c : Int) (h0 : 0 ≤ c) (h4 : c < REF_CONTEXTS) :
    reaches isBaselineFrame Baseline.vp9_get_pred_context_single_ref_p1 c := by
  rcases context_cases c h0 h4 with rfl | rfl | rfl | rfl | rfl
  · exact reaches_at _ _ _ none
      (some (mkMi GOLDEN_FRAME NONE)) (by decide) (by decide) (by decide)
  · exact reaches_at _ _ _ none
      (some (mkMi GOLDEN_FRAME ALTREF_FRAME)) (by decide) (by decide) (by decide)
  · exact reaches_at _ _ _ none
      none (by decide) (by decide) (by decide)
  · exact reaches_at _ _ _ (some (mkMi LAST_FRAME NONE))
      (some (mkMi GOLDEN_FRAME ALTREF_FRAME)) (by decide) (by decide) (by decide)
  · exact reaches_at _ _ _ none
      (some (mkMi LAST_FRAME NONE)) (by decide) (by decide) (by decide)

theorem base_single_ref_p2_slots (c : Int) (h0 : 0 ≤ c) (h4 : c < REF_CONTEXTS) :
    reaches isBaselineFrame Baseline.vp9_get_pred_context_single_ref_p2 c := by
  rcases context_cases c h0 h4 with rfl | rfl | rfl | rfl | rfl
  · exact reaches_at _ _ _ none
      (some (mkMi ALTREF_FRAME NONE)) (by decide) (by decide) (by decide)
  · exact reaches_at _ _ _ (some (mkMi INTRA_FRAME NONE))
      (some (mkMi LAST_FRAME ALTREF_FRAME)) (by decide) (by decide) (by decide)
  · exact reaches_at _ _ _ none
      none (by decide) (by decide) (by decide)
  · exact reaches_at _ _ _ none
      (some (mkMi GOLDEN_FRAME ALTREF_FRAME)) (by decide) (by decide) (by decide)
  · exact reaches_at _ _ _ none
      (some (mkMi GOLDEN_FRAME NONE)) (by decide) (by decide) (by decide)

/-- C34: no per-reference-frame context slot is dead: for every `c` with `0 ≤ c < REF_CONTEXTS`
each of the nine extended and three baseline functions returns `c` on some pair of neighbour
states of its variant (absent; intra; single-reference with a frame of the six extended,
respectively three baseline, inter frames in slot `0` and `NONE` in slot `1`; compound with two
such frames), and for the compound-reference functions under some role configuration. -/
theorem C34_no_dead_context_slot (c : Int) (h0 : 0 ≤ c) (h4 : c < REF_CONTEXTS) :
    (∃ cm : VP9_COMMON, reaches isInterFrame (MultiRef.vp9_get_pred_context_comp_ref_p cm) c) ∧
    (∃ cm : VP9_COMMON, reaches isInterFrame (MultiRef.vp9_get_pred_context_comp_ref_p1 cm) c) ∧
    (∃ cm : VP9_COMMON, reaches isInterFrame (MultiRef.vp9_get_pred_context_comp_ref_p2 cm) c) ∧
    (∃ cm : VP9_COMMON, reaches isInterFrame (MultiRef.vp9_get_pred_context_comp_ref_p3 cm) c) ∧
    (reaches isInterFrame MultiRef.vp9_get_pred_context_single_ref_p1 c) ∧
    (reaches isInterFrame MultiRef.vp9_get_pred_context_single_ref_p2 c) ∧
    (reaches isInterFrame MultiRef.vp9_get_pred_context_single_ref_p3 c) ∧
    (reaches isInterFrame MultiRef.vp9_get_pred_context_single_ref_p4 c) ∧
    (reaches isInterFrame MultiRef.vp9_get_pred_context_single_ref_p5 c) ∧
    (∃ cm : VP9_COMMON, reaches isBaselineFrame (Baseline.vp9_get_pred_context_comp_ref_p cm) c) ∧
    (reaches isBaselineFrame Baseline.vp9_get_pred_context_single_ref_p1 c) ∧
    (reaches isBaselineFrame Baseline.vp9_get_pred_context_single_ref_p2 c) :=
  ⟨ext_comp_ref_p_slots c h0 h4,
   ext_comp_ref_p1_slots c h0 h4,
   ext_comp_ref_p2_slots c h0 h4,
   ext_comp_ref_p3_slots c h0 h4,
   ext_single_ref_p1_slots c h0 h4,
   ext_single_ref_p2_slots c h0 h4,
   ext_single_ref_p3_slots c h0 h4,
   ext_single_ref_p4_slots c h0 h4,
   ext_single_ref_p5_slots c h0 h4,
   base_comp_ref_p_slots c h0 h4,
   base_single_ref_p1_slots c h0 h4,
   base_single_ref_p2_slots c h0 h4⟩

/-- Witness for C34: the slot `c = 1`. -/
theorem C34_no_dead_context_slot_witness :
    (∃ cm : VP9_COMMON, reaches isInterFrame (MultiRef.vp9_get_pred_context_comp_ref_p cm) 1) ∧
    (∃ cm : VP9_COMMON, reaches isInterFrame (MultiRef.vp9_get_pred_context_comp_ref_p1 cm) 1) ∧
    (∃ cm : VP9_COMMON, reaches isInterFrame (MultiRef.vp9_get_pred_context_comp_ref_p2 cm) 1) ∧
    (∃ cm : VP9_COMMON, reaches isInterFrame (MultiRef.vp9_get_pred_context_comp_ref_p3 cm) 1) ∧
    (reaches isInterFrame MultiRef.vp9_get_pred_context_single_ref_p1 1) ∧
    (reaches isInterFrame MultiRef.vp9_get_pred_context_single_ref_p2 1) ∧
    (reaches isInterFrame MultiRef.vp9_get_pred_context_single_ref_p3 1) ∧
    (reaches isInterFrame MultiRef.vp9_get_pred_context_single_ref_p4 1) ∧
    (reaches isInterFrame MultiRef.vp9_get_pred_context_single_ref_p5 1) ∧
    (∃ cm : VP9_COMMON, reaches isBaselineFrame (Baseline.vp9_get_pred_context_comp_ref_p cm) 1) ∧
    (reaches isBaselineFrame Baseline.vp9_get_pred_context_single_ref_p1 1) ∧
    (reaches isBaselineFrame Baseline.vp9_get_pred_context_single_ref_p2 1) :=
  C34_no_dead_context_slot 1 (by decide) (by decide)

/-! ## Order independence of the remaining contexts -/

theorem switchable_interp_symm (SWITCHABLE_FILTERS : Int) (xd : MACROBLOCKD) :
    vp9_get_pred_context_switchable_interp SWITCHABLE_FILTERS (swapXd xd) =
      vp9_get_pred_context_switchable_interp SWITCHABLE_FILTERS xd := by
  simp only [vp9_get_pred_context_switchable_interp, swapXd, get_above_mi, get_left_mi]
  generalize (match get_mbmi xd.left_mi with
    | some left_mbmi =>
      if is_inter_block left_mbmi = true then left_mbmi.interp_filter else SWITCHABLE_FILTERS
    | none => SWITCHABLE_FILTERS) = x
  generalize (match get_mbmi xd.above_mi with
    | some above_mbmi =>
      if is_inter_block above_mbmi = true then above_mbmi.interp_filter else SWITCHABLE_FILTERS
    | none => SWITCHABLE_FILTERS) = y
  split_ifs <;> simp_all

theorem tx_size_symm (max_txsize_lookup : Nat → Int) (xd : MACROBLOCKD) :
    vp9_get_tx_size_context max_txsize_lookup (swapXd xd) =
      vp9_get_tx_size_context max_txsize_lookup xd := by
  rcases xd with ⟨mi, _ | a, _ | l⟩ <;>
    simp [vp9_get_tx_size_context, swapXd, get_mbmi, get_above_mi, get_left_mi, add_comm]

theorem copy_mode_symm (NOREF : Int) (xd : MACROBLOCKD) :
    vp9_get_copy_mode_context NOREF (swapXd xd) = vp9_get_copy_mode_context NOREF xd := by
  rcases xd with ⟨mi, _ | ⟨⟨a⟩⟩, _ | ⟨⟨l⟩⟩⟩
  · rfl
  · rfl
  · rfl
  · simp only [vp9_get_copy_mode_context, swapXd, get_mbmi, get_above_mi, get_left_mi]
    generalize is_inter_block a = ia
    generalize is_inter_block l = il
    generalize (a.copy_mode != NOREF) = pa
    generalize (l.copy_mode != NOREF) = pl
    revert ia il pa pl
    decide

/-- C35: the switchable-interpolation context, the transform-size context and the copy-mode
context are order-independent: each returns the same value when the above and the left
neighbour entries, present or absent, are exchanged, for every neighbour state, every current
block `mi` (hence every block size) and every value of the constants `SWITCHABLE_FILTERS`,
`NOREF` and of the table `max_txsize_lookup`. -/
theorem C35_remaining_contexts_symmetric (SWITCHABLE_FILTERS NOREF : Int)
    (max_txsize_lookup : Nat → Int) (mi : MODE_INFO) (a l : Option MODE_INFO) :
    vp9_get_pred_context_switchable_interp SWITCHABLE_FILTERS ⟨mi, a, l⟩ =
      vp9_get_pred_context_switchable_interp SWITCHABLE_FILTERS ⟨mi, l, a⟩ ∧
    vp9_get_tx_size_context max_txsize_lookup ⟨mi, a, l⟩ =
      vp9_get_tx_size_context max_txsize_lookup ⟨mi, l, a⟩ ∧
    vp9_get_copy_mode_context NOREF ⟨mi, a, l⟩ = vp9_get_copy_mode_context NOREF ⟨mi, l, a⟩ :=
  ⟨switchable_interp_symm SWITCHABLE_FILTERS ⟨mi, l, a⟩,
   tx_size_symm max_txsize_lookup ⟨mi, l, a⟩, copy_mode_symm NOREF ⟨mi, l, a⟩⟩

end PredCommon
